import Mathlib

/-!
# BASS_VST: hosting of VST modules (bass_vst_impl.cpp)

A shallow embedding of the control-plane functions of `bass_vst_impl.cpp`.

Conventions of the embedding

* The process-wide state (`s_bassfunc`, the engine's last-error slot, the instance
  registry, `s_inConstructionVstHandle`, the allocator) is one record `Global` that
  is passed through every function.
* A hosted module is foreign code.  It is represented by its *responses*: each
  response is a function of the list of calls the host has made into the module so
  far (`calls`, oldest first).  Every call the host makes is appended to that list,
  so "what was sent to the module" is read off `calls`.
* `this_` is a pointer in the source.  Here a function that receives `this_` gets the
  current record and returns the updated one; the public function writes it back
  to the registry before it releases the handle.
* Dereferencing a NULL pointer or calling through a NULL function pointer has no
  defined result: functions return `none` there.
* `enterVstCritical` / `leaveVstCritical` and the MIDI critical section only
  serialise threads; in this sequential embedding they have no effect and are
  left out.
* A `char` is represented by its unsigned byte value (`0 .. 255`); a `float`
  parameter value is carried as a rational number, the code copies such values
  and compares one of them with `0.5`, it never computes with them.  The `double`
  fields of the time information are the one place where the code computes with
  floating point numbers; they are carried as rationals with exact arithmetic.
* A user callback is foreign code as well.  The instance stores its address; what
  the code behind an address does is given by the record `HostServices`, which
  also holds the helper functions of the idle scheduler and of the file dialogs
  that are not part of this file.
-/

namespace BassVst

/-! ## Constants of the surrounding headers -/

/-- Error codes passed to `SetError` in this file (declared in `bass.h` and
`bass_vst.h`); they are distinct constants and are kept symbolic. -/
inductive BassError
  | BASS_OK
  | BASS_ERROR_MEM
  | BASS_ERROR_FILEOPEN
  | BASS_ERROR_HANDLE
  | BASS_ERROR_FILEFORM
  | BASS_ERROR_ILLPARAM
  | BASS_ERROR_ALREADY
  | BASS_ERROR_NOPLAY
  | BASS_ERROR_NOTAVAIL
  | BASS_ERROR_UNKNOWN
  | BASS_VST_ERROR_NOINPUTS
  | BASS_VST_ERROR_NOOUTPUTS
  | BASS_VST_ERROR_NOREALTIME
  deriving DecidableEq, Repr

/-- Event ids accepted by `BASS_VST_ProcessEvent` (the `MIDI_EVENT_*` constants of
`bassmidi.h`).  One constructor per `case` label of the `switch`; every other
value of the `DWORD` is `unsupported` and reaches the `default` label. -/
inductive MidiEventId
  | MIDI_EVENT_NOTE
  | MIDI_EVENT_PROGRAM
  | MIDI_EVENT_CHANPRES
  | MIDI_EVENT_PITCH
  | MIDI_EVENT_BANK
  | MIDI_EVENT_MODULATION
  | MIDI_EVENT_PORTATIME
  | MIDI_EVENT_VOLUME
  | MIDI_EVENT_PAN
  | MIDI_EVENT_EXPRESSION
  | MIDI_EVENT_BANK_LSB
  | MIDI_EVENT_SUSTAIN
  | MIDI_EVENT_PORTAMENTO
  | MIDI_EVENT_SOSTENUTO
  | MIDI_EVENT_SOFT
  | MIDI_EVENT_RESONANCE
  | MIDI_EVENT_RELEASE
  | MIDI_EVENT_ATTACK
  | MIDI_EVENT_CUTOFF
  | MIDI_EVENT_DECAY
  | MIDI_EVENT_PORTANOTE
  | MIDI_EVENT_REVERB
  | MIDI_EVENT_CHORUS
  | MIDI_EVENT_SOUNDOFF
  | MIDI_EVENT_RESET
  | MIDI_EVENT_NOTESOFF
  | MIDI_EVENT_MODE
  | MIDI_EVENT_CONTROL
  | MIDI_EVENT_PITCHRANGE
  | MIDI_EVENT_FINETUNE
  | MIDI_EVENT_COARSETUNE
  | unsupported (id : Nat)
  deriving DecidableEq, Repr

/-- Opcodes the host sends through `aeffect->dispatcher` in this file (the `eff*`
constants of the VST headers), kept symbolic; `other` is any opcode that has no
name in this file (reachable through `BASS_VST_Dispatcher`). -/
inductive Opcode
  | effOpen
  | effClose
  | effSetProgram
  | effGetProgram
  | effSetProgramName
  | effGetProgramName
  | effGetParamLabel
  | effGetParamDisplay
  | effGetParamName
  | effSetSampleRate
  | effSetBlockSize
  | effMainsChanged
  | effEditGetRect
  | effEditOpen
  | effEditClose
  | effGetChunk
  | effSetChunk
  | effGetProgramNameIndexed
  | effGetPlugCategory
  | effGetEffectName
  | effGetVendorString
  | effGetProductString
  | effGetVendorVersion
  | effGetVstVersion
  | effBeginSetProgram
  | effEndSetProgram
  | effShellGetNextPlugin
  | other (code : Int)
  deriving DecidableEq, Repr

/-- Modelled from the spec: `MAX_MIDI_EVENTS`, the fixed capacity of the per-block
event buffer, is defined in a header that is not part of the sources; the
specification gives 512 events. -/
def MAX_MIDI_EVENTS : Nat := 512

/-- The tag `kEffectMagic` of a valid descriptor ('VstP'). -/
def kEffectMagic : Int := 0x56737450

/-- Plug-in categories returned for `effGetPlugCategory` that this file tests. -/
def kPlugCategOfflineProcess : Int := 9

/-- The shell category returned for `effGetPlugCategory`. -/
def kPlugCategShell : Int := 10

/-- `LOBYTE(w)` of the platform headers: the low byte. -/
def LOBYTE (w : Nat) : Nat := w % 256

/-- `HIBYTE(w)` of the platform headers: bits 8..15. -/
def HIBYTE (w : Nat) : Nat := (w >>> 8) % 256

/-- Conversion of an integer value to `char`, as its byte. -/
def toChar (x : Nat) : Nat := x % 256

/-- Conversion of an integer value to `int` (32 bits, two's complement), as the
cast `(int)` of a `VstIntPtr` or a `DWORD` does it. -/
def toInt (x : Int) : Int := (x + 2 ^ 31) % 2 ^ 32 - 2 ^ 31

/-- The length `kVstMaxProgNameLen` of a program name (VST headers). -/
def kVstMaxProgNameLen : Nat := 24

/-! ## The event buffer -/

/-- One record of the event array: a `VstMidiEvent` (type `kVstMidiType`) with the
fields this file sets, or a `VstMidiSysexEvent` (type `kVstSysExType`). -/
inductive VstEvent
  | midi (deltaFrames : Int) (isRealtime : Bool) (midiData0 midiData1 midiData2 : Nat)
  | sysex (deltaFrames : Int) (sysexDump : List Nat)
  deriving DecidableEq, Repr

/-- The `VstEvents` block: `numEvents` and the array `events[MAX_MIDI_EVENTS]` of
record pointers (`none` is a NULL slot).  Slots at `numEvents` and above keep the
records of earlier blocks for re-use. -/
structure VstEvents where
  numEvents : Nat
  events : Nat → Option VstEvent

/-- The records that count as queued: slots `0 .. numEvents-1`, in order. -/
def VstEvents.queued (q : VstEvents) : List (Option VstEvent) :=
  (List.range q.numEvents).map q.events

/-! ## The hosted module -/

/-- A call of the host into the module. `ptr` is the data a pointer argument
points to on entry (`none` for NULL). -/
inductive VstCall
  | dispatcher (opcode : Opcode) (index : Int) (value : Int) (ptr : Option (List Nat)) (opt : Rat)
  | getParameter (index : Int)
  | setParameter (index : Int) (value : Rat)
  deriving DecidableEq

/-- The fields of the `AEffect` descriptor that this file reads.  A function
pointer is represented by whether it is non-NULL; a flag bit by whether it is set.
`canDoubleReplacing` is the result of the helper of that name. -/
structure AEffect where
  magic : Int
  dispatcher : Bool
  processDeprecated : Bool
  processReplacing : Bool
  canDoubleReplacing : Bool
  getParameter : Bool
  setParameter : Bool
  numPrograms : Int
  numParams : Int
  numInputs : Int
  numOutputs : Int
  effFlagsHasEditor : Bool
  effFlagsProgramChunks : Bool
  effFlagsIsSynth : Bool
  uniqueID : Int
  version : Int
  initialDelay : Int
  deriving DecidableEq

/-- The rectangle `ERect` of the VST headers (four 16-bit coordinates). -/
structure ERect where
  top : Int
  left : Int
  bottom : Int
  right : Int
  deriving DecidableEq

/-- What a dispatcher call gives back: the return value, the data written
through the pointer argument (`none` when nothing is written) and, for a call
whose pointer argument is the address of an `ERect*`, the rectangle that pointer
is set to (`none` when the module leaves it NULL). -/
structure DispatchResult where
  ret : Int
  out : Option (List Nat)
  rect : Option ERect
  deriving DecidableEq

/-- A module, given by its responses.  The first argument of every field is the
list of calls made into the module before the current one. -/
structure VstModule where
  desc : List VstCall → AEffect
  dispatcher : List VstCall → Opcode → Int → Int → Option (List Nat) → Rat → DispatchResult
  getParameter : List VstCall → Int → Rat

/-- A module image on disk as seen by the platform loader: whether it can be
opened, whether it exports an entry symbol, and what the entry point returns
(`none` is a NULL descriptor). -/
structure VstLibrary where
  canOpen : Bool
  hasEntry : Bool
  entry : Option VstModule

/-! ## Instance and process state -/

/-- The kind of an instance (`VSTeffect` / `VSTinstrument`). -/
inductive PluginType
  | VSTeffect
  | VSTinstrument
  deriving DecidableEq, Repr

/-- The fields of `VstTimeInfo` (VST headers) that `calcVstTimeInfo` reads or
writes; `flags` is the bit mask of `VstTimeInfoFlags`. -/
structure VstTimeInfo where
  samplePos : Rat
  sampleRate : Rat
  nanoSeconds : Rat
  ppqPos : Rat
  tempo : Rat
  cycleStartPos : Rat
  cycleEndPos : Rat
  timeSigNumerator : Int
  timeSigDenominator : Int
  smpteOffset : Int
  smpteFrameRate : Int
  flags : Nat
  deriving DecidableEq

/-- The fields of `BASS_VST_PLUGIN` used by the embedded functions.
`handleUsage` and `unloadPending` belong to the registry; `calls` is the list of
calls made into the module of this instance and `resvd1` is the slot
`aeffect->resvd1` that the host writes.  `callback` is the address of the user
callback (0 for NULL), `needsIdle` the bit mask of the idle needs,
`tempProgramNameBuf` the C string in the buffer of that name. -/
structure BASS_VST_PLUGIN where
  vstHandle : Nat
  handleUsage : Nat
  unloadPending : Bool
  type : PluginType
  channelHandle : Nat
  createFlags : Nat
  hinst : Option VstLibrary
  aeffect : Option VstModule
  calls : List VstCall
  resvd1 : Nat
  pluginID : Int
  effOpenCalled : Bool
  effStartProcessCalled : Bool
  doBypass : Int
  editorIsOpen : Bool
  numDefaultValues : Int
  defaultValues : Option (List Rat)
  numLastValues : Int
  lastValues : Option (List Rat)
  midiEventsCurr : Option VstEvents
  tempChunkData : Option (List Nat)
  dspHandle : Nat
  needsIdle : Nat
  callback : Nat
  callbackUserData : Nat
  vstTimeInfo : VstTimeInfo
  tempProgramNameBuf : List Nat
  tempProgramValueBuf : Option (List Rat)

/-- The queued events of the block-in-progress buffer of an instance. -/
def BASS_VST_PLUGIN.queuedEvents (this_ : BASS_VST_PLUGIN) : List (Option VstEvent) :=
  match this_.midiEventsCurr with
  | none => []
  | some q => q.queued

/-- The number of queued events of the block-in-progress buffer. -/
def BASS_VST_PLUGIN.numQueued (this_ : BASS_VST_PLUGIN) : Nat :=
  match this_.midiEventsCurr with
  | none => 0
  | some q => q.numEvents

/-- The process-wide state.  `s_bassfunc` tells whether the pointer to the engine's
function table is set, `lastError` is the engine's error slot written by
`SetError`, `handles` is the registry, `heap` lists the outcomes of the coming
allocations (`true` succeeds; when the list is used up every allocation
succeeds), `channelFreq` is what `BASS_ChannelGetInfo` reports for a channel and
`s_language` is the language code set with `BASS_VST_SetLanguage`. -/
structure Global where
  s_bassfunc : Bool
  s_mainOk : Bool
  lastError : BassError
  s_inConstructionVstHandle : Nat
  s_language : Int
  handles : Nat → Option BASS_VST_PLUGIN
  heap : List Bool
  channelFreq : Nat → Option Int

/-- The allocator `malloc`: tells whether the allocation succeeds. -/
def malloc (g : Global) : Bool × Global :=
  match g.heap with
  | [] => (true, g)
  | ok :: rest => (ok, { g with heap := rest })

/-- The macro `SET_ERROR`. -/
def SET_ERROR (g : Global) (errorCode : BassError) : Global :=
  if g.s_bassfunc then { g with lastError := errorCode } else g

/-- The macro `RETURN_ERROR`; `zero` is the value `0` of the return type. -/
def RETURN_ERROR {α : Type} (g : Global) (errorCode : BassError) (zero : α) : α × Global :=
  (zero, SET_ERROR g errorCode)

/-- The macro `RETURN_SUCCESS`. -/
def RETURN_SUCCESS {α : Type} (g : Global) (value : α) : α × Global :=
  (value, SET_ERROR g BassError.BASS_OK)

/-- Write the record of an instance back to the registry slot of its handle. -/
def Global.put (g : Global) (vstHandle : Nat) (this_ : BASS_VST_PLUGIN) : Global :=
  { g with handles := Function.update g.handles vstHandle (some this_) }

/-! ## Calls into the module -/

/-- The descriptor `*this_->aeffect` as the host reads it now. -/
def BASS_VST_PLUGIN.aeff (this_ : BASS_VST_PLUGIN) : Option AEffect :=
  match this_.aeffect with
  | none => none
  | some m => some (m.desc this_.calls)

/-- The call `this_->aeffect->dispatcher(this_->aeffect, opcode, index, value, ptr, opt)`. -/
def callDispatcher (this_ : BASS_VST_PLUGIN) (opcode : Opcode) (index value : Int)
    (ptr : Option (List Nat)) (opt : Rat) : Option (DispatchResult × BASS_VST_PLUGIN) :=
  match this_.aeffect with
  | none => none
  | some m =>
    if (m.desc this_.calls).dispatcher then
      some (m.dispatcher this_.calls opcode index value ptr opt,
        { this_ with calls := this_.calls ++ [VstCall.dispatcher opcode index value ptr opt] })
    else none

/-- The call `this_->aeffect->getParameter(this_->aeffect, index)`. -/
def callGetParameter (this_ : BASS_VST_PLUGIN) (index : Int) : Option (Rat × BASS_VST_PLUGIN) :=
  match this_.aeffect with
  | none => none
  | some m =>
    if (m.desc this_.calls).getParameter then
      some (m.getParameter this_.calls index,
        { this_ with calls := this_.calls ++ [VstCall.getParameter index] })
    else none

/-- The call `this_->aeffect->setParameter(this_->aeffect, index, value)`. -/
def callSetParameter (this_ : BASS_VST_PLUGIN) (index : Int) (value : Rat) :
    Option BASS_VST_PLUGIN :=
  match this_.aeffect with
  | none => none
  | some m =>
    if (m.desc this_.calls).setParameter then
      some { this_ with calls := this_.calls ++ [VstCall.setParameter index value] }
    else none

/-- The function `closeVstLibrary`: when an image is loaded, send `effClose` if a
descriptor is set, release the image and clear `hinst`. -/
def closeVstLibrary (this_ : BASS_VST_PLUGIN) : Option BASS_VST_PLUGIN :=
  match this_.hinst with
  | none => some this_
  | some _ =>
    match this_.aeffect with
    | some _ =>
      match callDispatcher this_ Opcode.effClose 0 0 none 0 with
      | none => none
      | some (_, this1) => some { this1 with hinst := none }
    | none => some { this_ with hinst := none }

/-! ## The instance registry -/

/-- Modelled from the spec: `refHandle` (the registry's acquire) is not part of the
sources.  It resolves the handle; for a known handle it increments the reference
count and returns the instance, for an unknown one it returns NULL and changes
nothing. -/
def refHandle (g : Global) (vstHandle : Nat) : Option BASS_VST_PLUGIN × Global :=
  match g.handles vstHandle with
  | none => (none, g)
  | some this_ =>
    let this1 := { this_ with handleUsage := this_.handleUsage + 1 }
    (some this1, g.put vstHandle this1)

/-- Modelled from the spec: `unrefHandle` (the registry's release) is not part of
the sources.  It returns false for an unknown handle; otherwise it decrements the
reference count, and when the count drops to zero while the deferred-unload flag
is set it tears the instance down (closes the module) and the handle no longer
resolves. -/
def unrefHandle (g : Global) (vstHandle : Nat) : Option (Bool × Global) :=
  match g.handles vstHandle with
  | none => some (false, g)
  | some this_ =>
    let this1 := { this_ with handleUsage := this_.handleUsage - 1 }
    if this1.handleUsage = 0 ∧ this1.unloadPending = true then
      match closeVstLibrary this1 with
      | none => none
      | some _ => some (true, { g with handles := Function.update g.handles vstHandle none })
    else some (true, g.put vstHandle this1)

/-- Modelled from the spec: `checkForwarding` is not part of the sources.  It
recomputes which instances forward editor data to others; the specification
gives it no effect on the module, the event queue, the error slot or the
lifecycle flags, which are the state kept here. -/
def checkForwarding (g : Global) : Global := g

/-! ## The event queue -/

/-- First step of `queueEventRaw` ("initialize MIDI structures"): allocate and
zero the `VstEvents` block when `midiEventsCurr` is NULL. -/
def initMidiEvents (g : Global) (this_ : BASS_VST_PLUGIN) : Global × BASS_VST_PLUGIN :=
  match this_.midiEventsCurr with
  | some _ => (g, this_)
  | none =>
    match malloc g with
    | (true, g1) =>
      (g1, { this_ with midiEventsCurr := some { numEvents := 0, events := fun _ => none } })
    | (false, g1) => (g1, this_)

/-- Store the record `e` in the slot `events[numEvents]` and count it. -/
def VstEvents.push (q : VstEvents) (e : VstEvent) : VstEvents :=
  { numEvents := q.numEvents + 1, events := Function.update q.events q.numEvents (some e) }

/-- The function `queueEventRaw`.  `sysexDump` is the data behind the pointer of
that name (`none` for NULL), of which `sysexBytes` bytes are copied; `error` is
the value of `*error` on entry, the third component of the result its value on
return. -/
def queueEventRaw (g : Global) (this_ : BASS_VST_PLUGIN) (midi0 midi1 midi2 : Nat)
    (sysexDump : Option (List Nat)) (sysexBytes : Nat) (error : BassError) :
    Global × BASS_VST_PLUGIN × BassError :=
  let deltaFrames : Int := 0
  match initMidiEvents g this_ with
  | (g1, this1) =>
    match this1.midiEventsCurr with
    | none => (g1, this1, BassError.BASS_ERROR_MEM)
    | some q =>
      if q.numEvents ≥ MAX_MIDI_EVENTS then (g1, this1, BassError.BASS_ERROR_MEM)
      else
        match sysexDump with
        | some dump =>
          match malloc g1 with
          | (false, g2) => (g2, this1, BassError.BASS_ERROR_MEM)
          | (true, g2) =>
            let e := VstEvent.sysex deltaFrames (dump.take sysexBytes)
            (g2, { this1 with midiEventsCurr := some (q.push e) }, error)
        | none =>
          let e := VstEvent.midi deltaFrames true (toChar midi0) (toChar midi1) (toChar midi2)
          match q.events q.numEvents with
          | some _ => (g1, { this1 with midiEventsCurr := some (q.push e) }, error)
          | none =>
            match malloc g1 with
            | (false, g2) => (g2, this1, BassError.BASS_ERROR_MEM)
            | (true, g2) => (g2, { this1 with midiEventsCurr := some (q.push e) }, error)

/-- The state the macros of `BASS_VST_ProcessEvent` work on: the process state,
`*this_` and the local variable `error`. -/
abbrev EventState := Global × BASS_VST_PLUGIN × BassError

/-- The macro `RAWBYTES(a,b,c)`. -/
def RAWBYTES (s : EventState) (a b c : Nat) : EventState :=
  queueEventRaw s.1 s.2.1 a b c none 0 s.2.2

/-- The macro `COMMAND(a,b,c)`. -/
def COMMAND (midiCh : Nat) (s : EventState) (a b c : Nat) : EventState :=
  RAWBYTES s (a + toChar midiCh) b c

/-- The macro `CONTROLLER(b,c)`. -/
def CONTROLLER (midiCh : Nat) (s : EventState) (b c : Nat) : EventState :=
  RAWBYTES s (0xB0 + toChar midiCh) b c

/-- The macro `RPN(a,b)`. -/
def RPN (midiCh : Nat) (s : EventState) (a b : Nat) : EventState :=
  CONTROLLER midiCh (CONTROLLER midiCh s 101 a) 100 b

/-- The macro `NRPN(a,b)`. -/
def NRPN (midiCh : Nat) (s : EventState) (a b : Nat) : EventState :=
  CONTROLLER midiCh (CONTROLLER midiCh s 99 a) 98 b

/-- The macro `DATAENTRY(a)`. -/
def DATAENTRY (midiCh : Nat) (s : EventState) (a : Nat) : EventState :=
  CONTROLLER midiCh s 6 a

/-- The macro `DATAENTRY_LSB(a)`. -/
def DATAENTRY_LSB (midiCh : Nat) (s : EventState) (a : Nat) : EventState :=
  CONTROLLER midiCh s 38 a

/-- The macro `DATAENTRY_FINE(a)`. -/
def DATAENTRY_FINE (midiCh : Nat) (s : EventState) (a : Nat) : EventState :=
  DATAENTRY_LSB midiCh (DATAENTRY midiCh s (toChar (a >>> 7) &&& 0x7F)) (toChar a &&& 0x7F)

/-- The macro `RPN_NRPN_RESET`. -/
def RPN_NRPN_RESET (midiCh : Nat) (s : EventState) : EventState :=
  CONTROLLER midiCh (CONTROLLER midiCh s 101 127) 100 127

/-- The `switch` of `BASS_VST_ProcessEvent`. -/
def processEventSwitch (midiCh : Nat) (bassEventId : MidiEventId) (param : Nat)
    (s : EventState) : EventState :=
  let loparam := LOBYTE param
  let hiparam := HIBYTE param
  match bassEventId with
  | .MIDI_EVENT_NOTE =>
    COMMAND midiCh s (if hiparam ≠ 0 then 0x90 else 0x80) loparam (if hiparam ≠ 0 then hiparam else 64)
  | .MIDI_EVENT_PROGRAM => COMMAND midiCh s 0xC0 loparam 0
  | .MIDI_EVENT_CHANPRES => COMMAND midiCh s 0xD0 loparam 0
  | .MIDI_EVENT_PITCH => COMMAND midiCh s 0xE0 (toChar param &&& 0x7F) (toChar (param >>> 7) &&& 0x7F)
  | .MIDI_EVENT_BANK => CONTROLLER midiCh s 0 loparam
  | .MIDI_EVENT_MODULATION => CONTROLLER midiCh s 1 loparam
  | .MIDI_EVENT_PORTATIME => CONTROLLER midiCh s 5 loparam
  | .MIDI_EVENT_VOLUME => CONTROLLER midiCh s 7 loparam
  | .MIDI_EVENT_PAN => CONTROLLER midiCh s 10 loparam
  | .MIDI_EVENT_EXPRESSION => CONTROLLER midiCh s 11 loparam
  | .MIDI_EVENT_BANK_LSB => CONTROLLER midiCh s 32 loparam
  | .MIDI_EVENT_SUSTAIN => CONTROLLER midiCh s 64 loparam
  | .MIDI_EVENT_PORTAMENTO => CONTROLLER midiCh s 65 loparam
  | .MIDI_EVENT_SOSTENUTO => CONTROLLER midiCh s 66 loparam
  | .MIDI_EVENT_SOFT => CONTROLLER midiCh s 67 loparam
  | .MIDI_EVENT_RESONANCE => CONTROLLER midiCh s 71 loparam
  | .MIDI_EVENT_RELEASE => CONTROLLER midiCh s 72 loparam
  | .MIDI_EVENT_ATTACK => CONTROLLER midiCh s 73 loparam
  | .MIDI_EVENT_CUTOFF => CONTROLLER midiCh s 74 loparam
  | .MIDI_EVENT_DECAY => CONTROLLER midiCh s 75 loparam
  | .MIDI_EVENT_PORTANOTE => CONTROLLER midiCh s 84 loparam
  | .MIDI_EVENT_REVERB => CONTROLLER midiCh s 91 loparam
  | .MIDI_EVENT_CHORUS => CONTROLLER midiCh s 93 loparam
  | .MIDI_EVENT_SOUNDOFF => CONTROLLER midiCh s 120 0
  | .MIDI_EVENT_RESET => CONTROLLER midiCh s 121 0
  | .MIDI_EVENT_NOTESOFF => CONTROLLER midiCh s 123 0
  | .MIDI_EVENT_MODE => CONTROLLER midiCh s (if param ≠ 0 then 126 else 127) 0
  | .MIDI_EVENT_CONTROL => CONTROLLER midiCh s loparam hiparam
  | .MIDI_EVENT_PITCHRANGE =>
    RPN_NRPN_RESET midiCh (DATAENTRY midiCh (RPN midiCh s 0 0) loparam)
  | .MIDI_EVENT_FINETUNE =>
    RPN_NRPN_RESET midiCh (DATAENTRY_FINE midiCh (RPN midiCh s 0 1) param)
  | .MIDI_EVENT_COARSETUNE =>
    RPN_NRPN_RESET midiCh (DATAENTRY midiCh (RPN midiCh s 0 2) loparam)
  | .unsupported _ => (s.1, s.2.1, BassError.BASS_ERROR_ILLPARAM)

/-- The tail shared by `BASS_VST_ProcessEvent` and `BASS_VST_ProcessEventRaw`:
`unrefHandle`, then success or the error collected in `error`. -/
def finishEvent (vstHandle : Nat) (s : EventState) : Option (Bool × Global) :=
  match unrefHandle (s.1.put vstHandle s.2.1) vstHandle with
  | none => none
  | some (_, g) =>
    if s.2.2 = BassError.BASS_OK then some (RETURN_SUCCESS g true)
    else some (RETURN_ERROR g s.2.2 false)

/-- The function `BASS_VST_ProcessEvent`. -/
def BASS_VST_ProcessEvent (g : Global) (vstHandle midiCh : Nat) (bassEventId : MidiEventId)
    (param : Nat) : Option (Bool × Global) :=
  match refHandle g vstHandle with
  | (none, g1) => some (RETURN_ERROR g1 BassError.BASS_ERROR_HANDLE false)
  | (some this_, g1) =>
    finishEvent vstHandle
      (processEventSwitch midiCh bassEventId param (g1, this_, BassError.BASS_OK))

/-- The function `BASS_VST_ProcessEventRaw`.  `bassEventPtr` is the pointer value,
`pointee` the data it points to when it is used as a pointer. -/
def BASS_VST_ProcessEventRaw (g : Global) (vstHandle : Nat) (bassEventPtr : Nat)
    (pointee : List Nat) (param : Nat) : Option (Bool × Global) :=
  match refHandle g vstHandle with
  | (none, g1) => some (RETURN_ERROR g1 BassError.BASS_ERROR_HANDLE false)
  | (some this_, g1) =>
    let error := BassError.BASS_OK
    if param = 0 then
      let bassEventId := (bassEventPtr % 2 ^ 32) &&& 0xFFFFFF
      finishEvent vstHandle
        (queueEventRaw g1 this_ (bassEventId >>> 16) ((bassEventId >>> 8) &&& 0xFF)
          (bassEventId &&& 0xFF) none 0 error)
    else
      finishEvent vstHandle
        (queueEventRaw g1 this_ 0 0 0 (if bassEventPtr = 0 then none else some pointee) param error)

/-! ## The encoding table of `BASS_VST_ProcessEvent` -/

/-- The record that `queueEventRaw` stores for the three bytes `a`, `b`, `c`. -/
def rawMessage (a b c : Nat) : VstEvent :=
  VstEvent.midi 0 true (toChar a) (toChar b) (toChar c)

/-- The `case` labels of the `switch` (everything but `default`). -/
def MidiEventId.supported : MidiEventId → Bool
  | .unsupported _ => false
  | _ => true

/-- The arguments of the `RAWBYTES` expansions of each `case`, in the order of
the expansion. -/
def eventBytes (midiCh : Nat) (bassEventId : MidiEventId) (param : Nat) :
    List (Nat × Nat × Nat) :=
  let loparam := LOBYTE param
  let hiparam := HIBYTE param
  let ctl := 0xB0 + toChar midiCh
  match bassEventId with
  | .MIDI_EVENT_NOTE =>
    [((if hiparam ≠ 0 then 0x90 else 0x80) + toChar midiCh, loparam,
      if hiparam ≠ 0 then hiparam else 64)]
  | .MIDI_EVENT_PROGRAM => [(0xC0 + toChar midiCh, loparam, 0)]
  | .MIDI_EVENT_CHANPRES => [(0xD0 + toChar midiCh, loparam, 0)]
  | .MIDI_EVENT_PITCH =>
    [(0xE0 + toChar midiCh, toChar param &&& 0x7F, toChar (param >>> 7) &&& 0x7F)]
  | .MIDI_EVENT_BANK => [(ctl, 0, loparam)]
  | .MIDI_EVENT_MODULATION => [(ctl, 1, loparam)]
  | .MIDI_EVENT_PORTATIME => [(ctl, 5, loparam)]
  | .MIDI_EVENT_VOLUME => [(ctl, 7, loparam)]
  | .MIDI_EVENT_PAN => [(ctl, 10, loparam)]
  | .MIDI_EVENT_EXPRESSION => [(ctl, 11, loparam)]
  | .MIDI_EVENT_BANK_LSB => [(ctl, 32, loparam)]
  | .MIDI_EVENT_SUSTAIN => [(ctl, 64, loparam)]
  | .MIDI_EVENT_PORTAMENTO => [(ctl, 65, loparam)]
  | .MIDI_EVENT_SOSTENUTO => [(ctl, 66, loparam)]
  | .MIDI_EVENT_SOFT => [(ctl, 67, loparam)]
  | .MIDI_EVENT_RESONANCE => [(ctl, 71, loparam)]
  | .MIDI_EVENT_RELEASE => [(ctl, 72, loparam)]
  | .MIDI_EVENT_ATTACK => [(ctl, 73, loparam)]
  | .MIDI_EVENT_CUTOFF => [(ctl, 74, loparam)]
  | .MIDI_EVENT_DECAY => [(ctl, 75, loparam)]
  | .MIDI_EVENT_PORTANOTE => [(ctl, 84, loparam)]
  | .MIDI_EVENT_REVERB => [(ctl, 91, loparam)]
  | .MIDI_EVENT_CHORUS => [(ctl, 93, loparam)]
  | .MIDI_EVENT_SOUNDOFF => [(ctl, 120, 0)]
  | .MIDI_EVENT_RESET => [(ctl, 121, 0)]
  | .MIDI_EVENT_NOTESOFF => [(ctl, 123, 0)]
  | .MIDI_EVENT_MODE => [(ctl, if param ≠ 0 then 126 else 127, 0)]
  | .MIDI_EVENT_CONTROL => [(ctl, loparam, hiparam)]
  | .MIDI_EVENT_PITCHRANGE =>
    [(ctl, 101, 0), (ctl, 100, 0), (ctl, 6, loparam), (ctl, 101, 127), (ctl, 100, 127)]
  | .MIDI_EVENT_FINETUNE =>
    [(ctl, 101, 0), (ctl, 100, 1), (ctl, 6, toChar (param >>> 7) &&& 0x7F),
      (ctl, 38, toChar param &&& 0x7F), (ctl, 101, 127), (ctl, 100, 127)]
  | .MIDI_EVENT_COARSETUNE =>
    [(ctl, 101, 0), (ctl, 100, 2), (ctl, 6, loparam), (ctl, 101, 127), (ctl, 100, 127)]
  | .unsupported _ => []

/-- Every coming allocation succeeds. -/
def HeapOk (g : Global) : Prop := ∀ b ∈ g.heap, b = true

/-! ## Parameter handling -/

/-- The failure branch of `refHandle_checkParamIndex` and
`refHandle_checkProgramIndex`: release the handle and return NULL. -/
def checkIndexFail (g : Global) (vstHandle : Nat) : Option (Option BASS_VST_PLUGIN × Global) :=
  match unrefHandle g vstHandle with
  | none => none
  | some (_, g1) => some (none, g1)

/-- The function `refHandle_checkParamIndex`.  The conditions are evaluated left
to right, so the descriptor is only read for a non-negative index. -/
def refHandle_checkParamIndex (g : Global) (vstHandle : Nat) (paramIndex : Int) :
    Option (Option BASS_VST_PLUGIN × Global) :=
  match refHandle g vstHandle with
  | (none, g1) => some (none, g1)
  | (some this_, g1) =>
    if paramIndex < 0 then checkIndexFail g1 vstHandle
    else
      match this_.aeff with
      | none => none
      | some ae =>
        if paramIndex ≥ ae.numParams ∨ ae.getParameter = false ∨ ae.setParameter = false then
          checkIndexFail g1 vstHandle
        else some (some this_, g1)

/-- The function `BASS_VST_GetParamCount`. -/
def BASS_VST_GetParamCount (g : Global) (vstHandle : Nat) : Option (Int × Global) :=
  match refHandle g vstHandle with
  | (none, g1) => some (RETURN_ERROR g1 BassError.BASS_ERROR_HANDLE 0)
  | (some this_, g1) =>
    match this_.aeff with
    | none => none
    | some ae =>
      let paramCount := ae.numParams
      match unrefHandle g1 vstHandle with
      | none => none
      | some (_, g2) => some (RETURN_SUCCESS g2 paramCount)

/-- The part of `BASS_VST_PARAM_INFO` that is followed here: the default value.
The three text fields (`name`, `unit`, `display`) are filled from the module's
answers and are not represented; the dispatcher calls that fetch them are. -/
structure BASS_VST_PARAM_INFO where
  defaultValue : Rat
  deriving DecidableEq

/-- Read `arr[i]` of a C array given by a pointer (`none` is NULL). -/
def readArray (arr : Option (List Rat)) (i : Int) : Option Rat :=
  match arr with
  | none => none
  | some l => if i < 0 then none else l.get? i.toNat

/-- Write `arr[i] = v` of a C array given by a pointer. -/
def writeArray (arr : Option (List Rat)) (i : Int) (v : Rat) : Option (List Rat) :=
  match arr with
  | none => none
  | some l => if i < 0 ∨ (l.length : Int) ≤ i then none else some (l.set i.toNat v)

/-- The three text queries of `BASS_VST_GetParamInfo` (`effGetParamLabel`,
`effGetParamDisplay`, `effGetParamName`), each into the emptied `largeBuf`. -/
def paramInfoQueries (this_ : BASS_VST_PLUGIN) (paramIndex : Int) : Option BASS_VST_PLUGIN :=
  match callDispatcher this_ Opcode.effGetParamLabel paramIndex 0 (some []) 0 with
  | none => none
  | some (_, this1) =>
    match callDispatcher this1 Opcode.effGetParamDisplay paramIndex 0 (some []) 0 with
    | none => none
    | some (_, this2) =>
      match callDispatcher this2 Opcode.effGetParamName paramIndex 0 (some []) 0 with
      | none => none
      | some (_, this3) => some this3

/-- The function `BASS_VST_GetParamInfo`.  `info` is the caller's structure
(`none` for a NULL pointer); the result carries its content on return. -/
def BASS_VST_GetParamInfo (g : Global) (vstHandle : Nat) (paramIndex : Int)
    (info : Option BASS_VST_PARAM_INFO) :
    Option ((Bool × Option BASS_VST_PARAM_INFO) × Global) :=
  match info with
  | none => some (RETURN_ERROR g BassError.BASS_ERROR_ILLPARAM (false, none))
  | some _ =>
    match refHandle_checkParamIndex g vstHandle paramIndex with
    | none => none
    | some (none, g1) => some (RETURN_ERROR g1 BassError.BASS_ERROR_HANDLE (false, info))
    | some (some this_, g1) =>
      match paramInfoQueries this_ paramIndex with
      | none => none
      | some this3 =>
        match (if paramIndex < this3.numDefaultValues
            then readArray this3.defaultValues paramIndex else some 0) with
        | none => none
        | some d =>
          match unrefHandle (g1.put vstHandle this3) vstHandle with
          | none => none
          | some (_, g2) => some (RETURN_SUCCESS g2 (true, some { defaultValue := d }))

/-- The function `BASS_VST_GetParam`. -/
def BASS_VST_GetParam (g : Global) (vstHandle : Nat) (paramIndex : Int) :
    Option (Rat × Global) :=
  match refHandle_checkParamIndex g vstHandle paramIndex with
  | none => none
  | some (none, g1) => some (RETURN_ERROR g1 BassError.BASS_ERROR_HANDLE 0)
  | some (some this_, g1) =>
    match callGetParameter this_ paramIndex with
    | none => none
    | some (param, this1) =>
      match unrefHandle (g1.put vstHandle this1) vstHandle with
      | none => none
      | some (_, g2) => some (RETURN_SUCCESS g2 param)

/-- The function `BASS_VST_SetParam`. -/
def BASS_VST_SetParam (g : Global) (vstHandle : Nat) (paramIndex : Int) (value : Rat) :
    Option (Bool × Global) :=
  match refHandle_checkParamIndex g vstHandle paramIndex with
  | none => none
  | some (none, g1) => some (RETURN_ERROR g1 BassError.BASS_ERROR_HANDLE false)
  | some (some this_, g1) =>
    match (if this_.editorIsOpen = true ∧ paramIndex < this_.numLastValues
        then (writeArray this_.lastValues paramIndex value).map
          (fun l => { this_ with lastValues := some l })
        else some this_) with
    | none => none
    | some this1 =>
      match callSetParameter this1 paramIndex value with
      | none => none
      | some this2 =>
        match unrefHandle (g1.put vstHandle this2) vstHandle with
        | none => none
        | some (_, g2) => some (RETURN_SUCCESS g2 true)

/-- The body of `BASS_VST_GetChunk` after `*length = 0`.  The result is the
returned pointer (the content of `tempChunkData`, `none` for NULL) and the value
left in `*length`.  Both early error returns are taken as written: the second one
does not release the handle.  `size` is the answer of the module converted to
`int`. -/
def getChunkBody (g : Global) (vstHandle : Nat) (isPreset : Bool) :
    Option ((Option (List Nat) × Nat) × Global) :=
  match refHandle g vstHandle with
  | (none, g1) => some (RETURN_ERROR g1 BassError.BASS_ERROR_HANDLE (none, 0))
  | (some this_, g1) =>
    match this_.aeff with
    | none => none
    | some ae =>
      if ae.effFlagsProgramChunks = false then
        some (RETURN_ERROR g1 BassError.BASS_ERROR_NOTAVAIL (none, 0))
      else
        match callDispatcher this_ Opcode.effGetChunk (if isPreset then 1 else 0) 0 (some []) 0 with
        | none => none
        | some (r, this1) =>
          let size := toInt r.ret
          match r.out with
          | some data =>
            if size > 0 then
              match malloc g1 with
              | (false, _) => none
              | (true, g2) =>
                let this2 := { this1 with tempChunkData := some (data.take size.toNat) }
                match unrefHandle (g2.put vstHandle this2) vstHandle with
                | none => none
                | some (_, g3) => some (RETURN_SUCCESS g3 (this2.tempChunkData, size.toNat))
            else
              let this2 := { this1 with tempChunkData := none }
              match unrefHandle (g1.put vstHandle this2) vstHandle with
              | none => none
              | some (_, g3) => some (RETURN_SUCCESS g3 (none, 0))
          | none =>
            let this2 := { this1 with tempChunkData := none }
            match unrefHandle (g1.put vstHandle this2) vstHandle with
            | none => none
            | some (_, g3) => some (RETURN_SUCCESS g3 (none, 0))

/-- The function `BASS_VST_GetChunk`.  `length` is the caller's `DWORD` behind
the pointer of that name (`none` for a NULL pointer, which the first statement
`*length = 0` dereferences). -/
def BASS_VST_GetChunk (g : Global) (vstHandle : Nat) (isPreset : Bool) (length : Option Nat) :
    Option ((Option (List Nat) × Nat) × Global) :=
  match length with
  | none => none
  | some _ => getChunkBody g vstHandle isPreset

/-- The function `BASS_VST_SetChunk`; `chunk` is the data behind the pointer. -/
def BASS_VST_SetChunk (g : Global) (vstHandle : Nat) (isPreset : Bool)
    (chunk : Option (List Nat)) (length : Nat) : Option (Nat × Global) :=
  match refHandle g vstHandle with
  | (none, g1) => some (RETURN_ERROR g1 BassError.BASS_ERROR_HANDLE 0)
  | (some this_, g1) =>
    match this_.aeff with
    | none => none
    | some ae =>
      if ae.effFlagsProgramChunks = false then
        some (RETURN_ERROR g1 BassError.BASS_ERROR_NOTAVAIL 0)
      else if length ≤ 0 then some (RETURN_ERROR g1 BassError.BASS_ERROR_ILLPARAM 0)
      else
        match callDispatcher this_ Opcode.effSetChunk (if isPreset then 1 else 0) length chunk 0 with
        | none => none
        | some (r, this1) =>
          match unrefHandle (g1.put vstHandle this1) vstHandle with
          | none => none
          | some (_, g2) => some (RETURN_SUCCESS g2 (r.ret % 2 ^ 32).toNat)

/-! ## Program handling -/

/-- The function `refHandle_checkProgramIndex`. -/
def refHandle_checkProgramIndex (g : Global) (vstHandle : Nat) (programIndex : Int) :
    Option (Option BASS_VST_PLUGIN × Global) :=
  match refHandle g vstHandle with
  | (none, g1) => some (none, g1)
  | (some this_, g1) =>
    if programIndex < 0 then checkIndexFail g1 vstHandle
    else
      match this_.aeff with
      | none => none
      | some ae =>
        if programIndex ≥ ae.numPrograms ∨ ae.getParameter = false ∨ ae.setParameter = false then
          checkIndexFail g1 vstHandle
        else some (some this_, g1)

/-- The function `BASS_VST_GetProgram`. -/
def BASS_VST_GetProgram (g : Global) (vstHandle : Nat) : Option (Int × Global) :=
  match refHandle g vstHandle with
  | (none, g1) => some (RETURN_ERROR g1 BassError.BASS_ERROR_HANDLE 0)
  | (some this_, g1) =>
    match callDispatcher this_ Opcode.effGetProgram 0 0 none 0 with
    | none => none
    | some (r, this1) =>
      match unrefHandle (g1.put vstHandle this1) vstHandle with
      | none => none
      | some (_, g2) => some (RETURN_SUCCESS g2 (toInt r.ret))

/-- The function `BASS_VST_SetProgram`. -/
def BASS_VST_SetProgram (g : Global) (vstHandle : Nat) (programIndex : Int) :
    Option (Bool × Global) :=
  match refHandle_checkProgramIndex g vstHandle programIndex with
  | none => none
  | some (none, g1) => some (RETURN_ERROR g1 BassError.BASS_ERROR_HANDLE false)
  | some (some this_, g1) =>
    match callDispatcher this_ Opcode.effGetProgram 0 0 none 0 with
    | none => none
    | some (r, this1) =>
      match (if programIndex ≠ r.ret
          then (callDispatcher this1 Opcode.effSetProgram 0 programIndex none 0).map Prod.snd
          else some this1) with
      | none => none
      | some this2 =>
        match unrefHandle (g1.put vstHandle this2) vstHandle with
        | none => none
        | some (_, g2) => some (RETURN_SUCCESS g2 true)

/-! ## Resume, bypass, raw dispatch -/

/-- The function `BASS_VST_Resume`. -/
def BASS_VST_Resume (g : Global) (vstHandle : Nat) : Option (Bool × Global) :=
  match refHandle g vstHandle with
  | (none, g1) => some (RETURN_ERROR g1 BassError.BASS_ERROR_HANDLE false)
  | (some this_, g1) =>
    if this_.effStartProcessCalled = false then
      match unrefHandle g1 vstHandle with
      | none => none
      | some (_, g2) => some (RETURN_ERROR g2 BassError.BASS_ERROR_NOPLAY false)
    else
      match callDispatcher this_ Opcode.effMainsChanged 0 0 none 0 with
      | none => none
      | some (_, this1) =>
        match callDispatcher this1 Opcode.effMainsChanged 0 1 none 0 with
        | none => none
        | some (_, this2) =>
          match unrefHandle (g1.put vstHandle this2) vstHandle with
          | none => none
          | some (_, g2) => some (RETURN_SUCCESS g2 true)

/-- The guarded block of `BASS_VST_SetBypass` (between `enterVstCritical` and
`leaveVstCritical`).  `newDoBypass` and the field `doBypass` are `BOOL`, that is
integers; `TRUE` is 1 and `FALSE` is 0. -/
def setBypassBody (this_ : BASS_VST_PLUGIN) (newDoBypass : Int) : Option BASS_VST_PLUGIN :=
  if newDoBypass ≠ this_.doBypass then
    if newDoBypass ≠ 0 then
      match callDispatcher { this_ with doBypass := 1 } Opcode.effMainsChanged 0 0 none 0 with
      | none => none
      | some (_, this1) => some this1
    else
      match callDispatcher this_ Opcode.effMainsChanged 0 1 none 0 with
      | none => none
      | some (_, this1) => some { this1 with doBypass := 0 }
  else some this_

/-- The function `BASS_VST_SetBypass`. -/
def BASS_VST_SetBypass (g : Global) (vstHandle : Nat) (newDoBypass : Int) :
    Option (Bool × Global) :=
  match refHandle g vstHandle with
  | (none, g1) => some (RETURN_ERROR g1 BassError.BASS_ERROR_HANDLE false)
  | (some this_, g1) =>
    if this_.effStartProcessCalled = false then
      match unrefHandle g1 vstHandle with
      | none => none
      | some (_, g2) => some (RETURN_ERROR g2 BassError.BASS_ERROR_NOPLAY false)
    else
      match setBypassBody this_ newDoBypass with
      | none => none
      | some this1 =>
        match unrefHandle (g1.put vstHandle this1) vstHandle with
        | none => none
        | some (_, g2) => some (RETURN_SUCCESS (checkForwarding g2) true)

/-- The function `BASS_VST_GetBypass`; the result is the `BOOL` field. -/
def BASS_VST_GetBypass (g : Global) (vstHandle : Nat) : Option (Int × Global) :=
  match refHandle g vstHandle with
  | (none, g1) => some (RETURN_ERROR g1 BassError.BASS_ERROR_HANDLE 0)
  | (some this_, g1) =>
    let bypass := this_.doBypass
    match unrefHandle g1 vstHandle with
    | none => none
    | some (_, g2) => some (RETURN_SUCCESS g2 bypass)

/-- The conversion of an integer to `VstIntPtr` (taken in its 64-bit form, two's
complement). -/
def toVstIntPtr (x : Int) : Int := (x + 2 ^ 63) % 2 ^ 64 - 2 ^ 63

/-- The conversion of an integer to `QWORD`. -/
def toQWORD (x : Int) : Int := x % 2 ^ 64

/-- The function `BASS_VST_Dispatcher`.  `index` (a `DWORD`) is passed on as
`(VstInt32)index`, `value` (a `QWORD`) as `(VstIntPtr)value`, and the answer of the
module is returned as `(QWORD)ret`. -/
def BASS_VST_Dispatcher (g : Global) (vstHandle : Nat) (opCode : Opcode) (index : Int)
    (value : Int) (ptr : Option (List Nat)) (opt : Rat) : Option (Int × Global) :=
  match refHandle g vstHandle with
  | (none, g1) => some (RETURN_ERROR g1 BassError.BASS_ERROR_HANDLE 0)
  | (some this_, g1) =>
    match callDispatcher this_ opCode (toInt index) (toVstIntPtr value) ptr opt with
    | none => none
    | some (r, this1) =>
      match unrefHandle (g1.put vstHandle this1) vstHandle with
      | none => none
      | some (_, g2) => some (RETURN_SUCCESS g2 (toQWORD r.ret))

/-! ## Loading a module -/

/-- The function `getSampleRate`: the frequency `BASS_ChannelGetInfo` reports for
the channel of the instance, 44100 without a channel or when the query fails. -/
def getSampleRate (g : Global) (this_ : Option BASS_VST_PLUGIN) : Int :=
  match this_ with
  | none => 44100
  | some p =>
    if p.channelHandle ≠ 0 then
      match g.channelFreq p.channelHandle with
      | some freq => freq
      | none => 44100
    else 44100

/-- The bytes of a C string stored in a buffer: everything before the first NUL. -/
def cstr (buf : List Nat) : List Nat := buf.takeWhile (fun b => b ≠ 0)

/-- The characters `printf` writes for `%ld`. -/
def decimal (n : Int) : List Nat :=
  if n < 0 then 45 :: (Nat.toDigits 10 n.natAbs).map Char.toNat
  else (Nat.toDigits 10 n.toNat).map Char.toNat

/-- The `do ... while (uniqueID != 0)` loop of the shell enumeration in
`loadVstLibrary`.  `pluginList` is the C string in the caller's buffer and `len`
the local counter.  The loop runs as long as the module keeps answering with a
non-zero id, so the embedding carries `fuel`; `none` also stands for a module
that writes more than the 64 characters `tempName` can hold. -/
def shellEnumLoop : Nat → BASS_VST_PLUGIN → List Nat → Int → Int →
    Option (BASS_VST_PLUGIN × List Nat)
  | 0, _, _, _, _ => none
  | fuel + 1, this_, pluginList, len, pluginListSize =>
    match callDispatcher this_ Opcode.effShellGetNextPlugin 0 0 (some []) 0 with
    | none => none
    | some (r, this1) =>
      let uniqueID := r.ret
      let tempName := cstr (r.out.getD [])
      if tempName.length > 64 then none
      else if uniqueID ≠ 0 then
        if tempName ≠ [] then
          let name := tempName ++ [9] ++ decimal uniqueID ++ [10]
          let nameLen : Int := name.length
          if pluginListSize > len + nameLen then
            shellEnumLoop fuel this1 (pluginList ++ name) (len + nameLen) pluginListSize
          else some (this1, pluginList)
        else shellEnumLoop fuel this1 pluginList len pluginListSize
      else some (this1, pluginList)

/-- What `loadVstLibrary` leaves behind: the return value, the process state, the instance
and the content of the caller's `pluginList` buffer. -/
structure LoadResult where
  ret : Bool
  g : Global
  this_ : BASS_VST_PLUGIN
  pluginList : Option (List Nat)

/-- An error exit of `loadVstLibrary` that first calls `closeVstLibrary`. -/
def loadFailClose (g : Global) (this_ : BASS_VST_PLUGIN) (errorCode : BassError)
    (pluginList : Option (List Nat)) : Option LoadResult :=
  match closeVstLibrary this_ with
  | none => none
  | some this1 =>
    some { ret := false, g := SET_ERROR g errorCode, this_ := this1, pluginList := pluginList }

/-- The snapshot loop of `loadVstLibrary`:
`defaultValues[paramIndex] = getParameter(paramIndex)` for `paramIndex` from
`paramIndex` up to `paramCount - 1`; `todo` is the number of rounds left. -/
def snapshotLoop : Nat → Int → BASS_VST_PLUGIN → Option BASS_VST_PLUGIN
  | 0, _, this_ => some this_
  | todo + 1, paramIndex, this_ =>
    match callGetParameter this_ paramIndex with
    | none => none
    | some (v, this1) =>
      match writeArray this1.defaultValues paramIndex v with
      | none => none
      | some l => snapshotLoop todo (paramIndex + 1) { this1 with defaultValues := some l }

/-- The last part of `loadVstLibrary` (from `numDefaultValues = 0` on): select the
first program and remember the default value of every parameter. -/
def loadSnapshot (g : Global) (this_ : BASS_VST_PLUGIN) (pluginList : Option (List Nat)) :
    Option LoadResult :=
  let this0 := { this_ with numDefaultValues := 0, numLastValues := 0 }
  match this0.aeff with
  | none => none
  | some ae =>
    if ae.getParameter = false then
      some { ret := true, g := g, this_ := this0, pluginList := pluginList }
    else
      match callDispatcher this0 Opcode.effGetProgram 0 0 none 0 with
      | none => none
      | some (r, this1) =>
        match (if r.ret ≠ 0
            then (callDispatcher this1 Opcode.effSetProgram 0 0 none 0).map Prod.snd
            else some this1) with
        | none => none
        | some this2 =>
          match this2.aeff with
          | none => none
          | some ae2 =>
            let paramCount := ae2.numParams
            if paramCount ≥ 0 then
              let cells : Nat := if paramCount = 0 then 24 else paramCount.toNat
              match malloc g with
              | (ok1, g1) =>
                match malloc g1 with
                | (ok2, g2) =>
                  let this3 := { this2 with
                    defaultValues := if ok1 then some (List.replicate cells 0) else none,
                    lastValues := if ok2 then some (List.replicate cells 0) else none }
                  if ok1 = false ∨ ok2 = false then
                    some { ret := false, g := SET_ERROR g2 BassError.BASS_ERROR_MEM,
                           this_ := this3, pluginList := pluginList }
                  else
                    let this4 := { this3 with
                      numDefaultValues := paramCount, numLastValues := paramCount }
                    match snapshotLoop paramCount.toNat 0 this4 with
                    | none => none
                    | some this5 =>
                      some { ret := true, g := g2, this_ := this5, pluginList := pluginList }
            else some { ret := true, g := g, this_ := this2, pluginList := pluginList }

/-- The "dodgy hack" of `loadVstLibrary` that toggles parameter 0 to make a
module take up the sample rate. -/
def loadToggleParam (this_ : BASS_VST_PLUGIN) : Option BASS_VST_PLUGIN :=
  match this_.aeff with
  | none => none
  | some ae =>
    if ae.getParameter = true ∧ ae.effFlagsHasEditor = false ∧ ae.numParams > 0 then
      match callGetParameter this_ 0 with
      | none => none
      | some (old, this1) =>
        match callSetParameter this1 0 (if old < 1 / 2 then 1 else 0) with
        | none => none
        | some this2 => callSetParameter this2 0 old
    else some this_

/-- The middle part of `loadVstLibrary`, from the input/output checks to the
`effMainsChanged` resume. -/
def loadOpen (g : Global) (this_ : BASS_VST_PLUGIN) (pluginList : Option (List Nat)) :
    Option LoadResult :=
  match this_.aeff with
  | none => none
  | some ae =>
    if this_.type = PluginType.VSTeffect ∧ ae.numInputs ≤ 0 then
      loadFailClose g this_ BassError.BASS_VST_ERROR_NOINPUTS pluginList
    else if ae.numOutputs ≤ 0
        ∨ (this_.type = PluginType.VSTinstrument ∧ ae.effFlagsIsSynth = false) then
      loadFailClose g this_ BassError.BASS_VST_ERROR_NOOUTPUTS pluginList
    else
      match callDispatcher this_ Opcode.effOpen 0 0 none 0 with
      | none => none
      | some (_, this1) =>
        let this2 := { this1 with effOpenCalled := true }
        match callDispatcher this2 Opcode.effGetPlugCategory 0 0 none 0 with
        | none => none
        | some (cat, this3) =>
          if cat.ret = kPlugCategOfflineProcess then
            loadFailClose g this3 BassError.BASS_VST_ERROR_NOREALTIME pluginList
          else
            let sampleRate := getSampleRate g (some this3)
            match callDispatcher this3 Opcode.effSetSampleRate 0 0 none sampleRate with
            | none => none
            | some (_, this4) =>
              match loadToggleParam this4 with
              | none => none
              | some this5 =>
                match callDispatcher this5 Opcode.effSetBlockSize 0 sampleRate none 0 with
                | none => none
                | some (_, this6) =>
                  match callDispatcher this6 Opcode.effMainsChanged 0 1 none 0 with
                  | none => none
                  | some (_, this7) => loadSnapshot g this7 pluginList

/-- The shell check of `loadVstLibrary`: a shell module opened without a
sub-module id is enumerated into `pluginList` and the load fails. -/
def loadShell (fuel : Nat) (g : Global) (this_ : BASS_VST_PLUGIN)
    (pluginList : Option (List Nat)) (pluginListSize : Int) (pluginID : Int) :
    Option LoadResult :=
  match callDispatcher this_ Opcode.effGetPlugCategory 0 0 none 0 with
  | none => none
  | some (cat, this1) =>
    if cat.ret = kPlugCategShell ∧ pluginID = 0 then
      match (match pluginList with
          | some _ =>
            if pluginListSize > 0 then
              (shellEnumLoop fuel this1 [] 0 pluginListSize).map
                (fun r => (r.1, some r.2))
            else some (this1, pluginList)
          | none => some (this1, pluginList)) with
      | none => none
      | some (this2, list2) => loadFailClose g this2 BassError.BASS_ERROR_UNKNOWN list2
    else
      loadOpen { g with s_inConstructionVstHandle := 0 }
        { this1 with resvd1 := this_.vstHandle } pluginList

/-- The function `loadVstLibrary` (the `_WIN32` / `__linux__` branches of the
platform code).  `fuel` bounds the shell enumeration loop. -/
def loadVstLibrary (fuel : Nat) (g : Global) (this_ : BASS_VST_PLUGIN) (dllFile : VstLibrary)
    (createFlags : Nat) (pluginList : Option (List Nat)) (pluginListSize : Int)
    (pluginID : Int) : Option LoadResult :=
  let this0 := { this_ with createFlags := createFlags,
                            hinst := if dllFile.canOpen then some dllFile else none }
  match this0.hinst with
  | none =>
    some { ret := false, g := SET_ERROR g BassError.BASS_ERROR_FILEOPEN, this_ := this0,
           pluginList := pluginList }
  | some _ =>
    if dllFile.hasEntry = false then
      loadFailClose g this0 BassError.BASS_ERROR_FILEFORM pluginList
    else
      let g1 := { g with s_inConstructionVstHandle := this0.vstHandle }
      let this1 := { this0 with pluginID := pluginID, aeffect := dllFile.entry, calls := [] }
      match this1.aeff with
      | none =>
        (loadFailClose g1 this1 BassError.BASS_ERROR_FILEFORM pluginList).map
          (fun r => { r with g := { r.g with s_inConstructionVstHandle := 0 } })
      | some ae =>
        if ae.magic ≠ kEffectMagic
            ∨ (ae.processDeprecated = false ∧ ae.processReplacing = false
                ∧ ae.canDoubleReplacing = false)
            ∨ ae.dispatcher = false then
          (loadFailClose g1 this1 BassError.BASS_ERROR_FILEFORM pluginList).map
            (fun r => { r with g := { r.g with s_inConstructionVstHandle := 0 } })
        else loadShell fuel g1 this1 pluginList pluginListSize pluginID

/-! ## A concrete module and instance for the scenarios of the specification -/

/-- The value of parameter `index` of a module that stores what it is sent: the
value of the last `setParameter` for that index among `calls`, 0 before any. -/
def storedParam (calls : List VstCall) (index : Int) : Rat :=
  calls.foldl (fun acc c =>
    match c with
    | VstCall.setParameter i v => if i = index then v else acc
    | _ => acc) 0

/-- A stereo effect with two parameters that stores parameter values and
answers 0 to every dispatcher call. -/
def gainModule : VstModule where
  desc := fun _ =>
    { magic := kEffectMagic, dispatcher := true, processDeprecated := false,
      processReplacing := true, canDoubleReplacing := false, getParameter := true,
      setParameter := true, numPrograms := 1, numParams := 2, numInputs := 2,
      numOutputs := 2, effFlagsHasEditor := false, effFlagsProgramChunks := false,
      effFlagsIsSynth := false, uniqueID := 1, version := 1, initialDelay := 0 }
  dispatcher := fun _ _ _ _ _ _ => { ret := 0, out := none, rect := none }
  getParameter := storedParam

/-- The image file of `gainModule`. -/
def gainLibrary : VstLibrary := { canOpen := true, hasEntry := true, entry := some gainModule }

/-- A freshly created effect instance with handle 1 (nothing loaded yet). -/
def freshInstance : BASS_VST_PLUGIN :=
  { vstHandle := 1, handleUsage := 1, unloadPending := false, type := PluginType.VSTeffect,
    channelHandle := 0, createFlags := 0, hinst := none, aeffect := none, calls := [],
    resvd1 := 0, pluginID := 0, effOpenCalled := false, effStartProcessCalled := false,
    doBypass := 0, editorIsOpen := false, numDefaultValues := 0, defaultValues := none,
    numLastValues := 0, lastValues := none, midiEventsCurr := none, tempChunkData := none,
    dspHandle := 0, needsIdle := 0, callback := 0, callbackUserData := 0,
    vstTimeInfo :=
      { samplePos := 0, sampleRate := 0, nanoSeconds := 0, ppqPos := 0, tempo := 0,
        cycleStartPos := 0, cycleEndPos := 0, timeSigNumerator := 0,
        timeSigDenominator := 0, smpteOffset := 0, smpteFrameRate := 0, flags := 0 },
    tempProgramNameBuf := [], tempProgramValueBuf := none }

/-- An opened and started instance of `gainModule` with handle 1: its event queue
is empty and it is not bypassed. -/
def startedInstance : BASS_VST_PLUGIN :=
  { freshInstance with
    hinst := some gainLibrary, aeffect := some gainModule, resvd1 := 1,
    effOpenCalled := true, effStartProcessCalled := true, numDefaultValues := 2,
    defaultValues := some [0, 0], numLastValues := 2, lastValues := some [0, 0] }

/-- A process state whose registry holds exactly the instance `p` under its handle. -/
def processWith (p : BASS_VST_PLUGIN) : Global :=
  { s_bassfunc := true, s_mainOk := true, lastError := BassError.BASS_OK,
    s_inConstructionVstHandle := 0, s_language := 1,
    handles := fun h => if h = p.vstHandle then some p else none,
    heap := [], channelFreq := fun _ => none }

/-- The expected raw message of a note event on channel `c`: note-on with the
given velocity, or note-off with release velocity 64 when the velocity is 0. -/
def noteMessage (c n v : Nat) : VstEvent :=
  if v ≠ 0 then VstEvent.midi 0 true (0x90 + c) n v else VstEvent.midi 0 true (0x80 + c) n 64

/-- A controller message on channel `c`: status `0xB0 + c`, controller number and
value. -/
def controlChange (c number value : Nat) : VstEvent :=
  VstEvent.midi 0 true (0xB0 + c) number value

/-- The started instance with a full event buffer (`MAX_MIDI_EVENTS` note-on
records). -/
def fullInstance : BASS_VST_PLUGIN :=
  { startedInstance with
    midiEventsCurr := some { numEvents := MAX_MIDI_EVENTS,
                             events := fun _ => some (VstEvent.midi 0 true 0x90 60 100) } }

/-! ## Sequences of event calls -/

/-- A call of one of the two public event functions with its arguments. -/
inductive EventCall
  | processEvent (vstHandle midiCh : Nat) (bassEventId : MidiEventId) (param : Nat)
  | processEventRaw (vstHandle bassEventPtr : Nat) (pointee : List Nat) (param : Nat)

/-- Perform one event call. -/
def EventCall.run (g : Global) : EventCall → Option (Bool × Global)
  | .processEvent vstHandle midiCh bassEventId param =>
    BASS_VST_ProcessEvent g vstHandle midiCh bassEventId param
  | .processEventRaw vstHandle bassEventPtr pointee param =>
    BASS_VST_ProcessEventRaw g vstHandle bassEventPtr pointee param

/-- Perform a sequence of event calls, whatever each of them returns. -/
def runEventCalls : Global → List EventCall → Option Global
  | g, [] => some g
  | g, c :: rest =>
    match c.run g with
    | none => none
    | some (_, g1) => runEventCalls g1 rest

/-- No instance of the registry holds more than `MAX_MIDI_EVENTS` queued events. -/
def QueueBounded (g : Global) : Prop :=
  ∀ h p, g.handles h = some p → p.numQueued ≤ MAX_MIDI_EVENTS

/-- Every instance of the registry is referenced (by its creator). -/
def AllLive (g : Global) : Prop :=
  ∀ h p, g.handles h = some p → 0 < p.handleUsage

/-! ## Modules that store parameter values -/

/-- A module that stores parameter values faithfully: `getParameter` and
`setParameter` are present, a parameter reads back the value last set for it,
setting one parameter or reading any leaves the values of the others as they are,
and neither changes the parameter count. -/
structure StoresParams (m : VstModule) : Prop where
  getParameter_ptr : ∀ t, (m.desc t).getParameter = true
  setParameter_ptr : ∀ t, (m.desc t).setParameter = true
  count_set : ∀ t i v,
    (m.desc (t ++ [VstCall.setParameter i v])).numParams = (m.desc t).numParams
  count_get : ∀ t i, (m.desc (t ++ [VstCall.getParameter i])).numParams = (m.desc t).numParams
  get_after_set : ∀ t i v j,
    m.getParameter (t ++ [VstCall.setParameter i v]) j = if j = i then v else m.getParameter t j
  get_after_get : ∀ t i j, m.getParameter (t ++ [VstCall.getParameter i]) j = m.getParameter t j

/-- The array `lastValues` is allocated with at least `numLastValues` cells when
the editor is open (the state `BASS_VST_EmbedEditor` establishes). -/
def LastValuesOk (p : BASS_VST_PLUGIN) : Prop :=
  p.editorIsOpen = true → ∃ l, p.lastValues = some l ∧ p.numLastValues ≤ (l.length : Int)

/-- The calls `getParameter(k)`, ..., `getParameter(k+n-1)` of the snapshot loop. -/
def snapshotCalls (k n : Nat) : List VstCall :=
  (List.range' k n).map (fun (i : Nat) => VstCall.getParameter (Int.ofNat i))

/-- The event state `s2` is `s1` with the records `msgs` appended to the queue. -/
structure Appended (s1 s2 : EventState) (msgs : List VstEvent) : Prop where
  heap : HeapOk s2.1
  glob : s2.1 = { s1.1 with heap := s2.1.heap }
  inst : s2.2.1 = { s1.2.1 with midiEventsCurr := s2.2.1.midiEventsCurr }
  err : s2.2.2 = s1.2.2
  num : s2.2.1.numQueued = s1.2.1.numQueued + msgs.length
  queued : s2.2.1.queuedEvents = s1.2.1.queuedEvents ++ msgs.map some

/-- What a successful `BASS_VST_ProcessEvent` / `BASS_VST_ProcessEventRaw` leaves behind:
the instance of the handle has the records `msgs` appended, nothing else changed. -/
structure EventPost (g : Global) (vstHandle : Nat) (p : BASS_VST_PLUGIN)
    (msgs : List VstEvent) (g2 : Global) (p2 : BASS_VST_PLUGIN) : Prop where
  resolves : g2.handles vstHandle = some p2
  queued : p2.queuedEvents = p.queuedEvents ++ msgs.map some
  num : p2.numQueued = p.numQueued + msgs.length
  inst : p2 = { p with midiEventsCurr := p2.midiEventsCurr }
  heap : HeapOk g2
  err : g.s_bassfunc = true → g2.lastError = BassError.BASS_OK
  others : ∀ h2, h2 ≠ vstHandle → g2.handles h2 = g.handles h2

/-- One or more `queueEventRaw` steps, whatever their outcome: only the event
buffer of the instance and the allocator move, and a bounded queue stays
bounded. -/
structure QueueStep (s1 s2 : EventState) : Prop where
  glob : s2.1 = { s1.1 with heap := s2.1.heap }
  inst : s2.2.1 = { s1.2.1 with midiEventsCurr := s2.2.1.midiEventsCurr }
  bound : s1.2.1.numQueued ≤ MAX_MIDI_EVENTS → s2.2.1.numQueued ≤ MAX_MIDI_EVENTS

/-! ## Time information -/

/-- The flag `kVstTransportPlaying` of `VstTimeInfoFlags` (VST 2.4 headers). -/
def kVstTransportPlaying : Nat := 1 <<< 1

/-- The flag `kVstNanosValid`: the nanosecond clock is valid. -/
def kVstNanosValid : Nat := 1 <<< 8

/-- The flag `kVstPpqPosValid`: the musical position is valid. -/
def kVstPpqPosValid : Nat := 1 <<< 9

/-- The flag `kVstTempoValid`: the tempo is valid. -/
def kVstTempoValid : Nat := 1 <<< 10

/-- The flag `kVstCyclePosValid`: the loop-cycle bounds are valid. -/
def kVstCyclePosValid : Nat := 1 <<< 12

/-- The flag `kVstTimeSigValid`: the time signature is valid. -/
def kVstTimeSigValid : Nat := 1 <<< 13

/-- The flag `kVstSmpteValid`: the SMPTE offset and frame rate are valid. -/
def kVstSmpteValid : Nat := 1 <<< 14

/-- The frame-rate code `kVstSmpte24fps`. -/
def kVstSmpte24fps : Int := 0

/-- The protocol version `kVstVersion` of the VST 2.4 headers ("We use 2.4"). -/
def kVstVersion : Int := 2400

/-- The bit pattern of a `VstIntPtr` request mask (two's complement, 64 bits; the
flags tested all lie in the low 16 bits). -/
def requestBits (toCalc : Int) : Nat := (toCalc % 2 ^ 64).toNat

/-- The conversion `(long)x` of a `double`: truncation towards zero. -/
def toLong (x : Rat) : Int := if 0 ≤ x then x.floor else -((-x).floor)

/-- The function `calcVstTimeInfo`.  `clock` is what `timeGetTime()` / `clock()`
returns at the call.  The quotient `samplePos / sampleRate` is exact here (a
sample rate of 0, which gives an infinity in the source, gives 0).  The fields the
source computes in floating point (`nanoSeconds`, `ppqPos` and, through them,
`smpteOffset`) hold the exact values; the source holds their `double` roundings,
so that its truncated `smpteOffset` can be one less than the value here (31 where
the exact product is 32).  The flags and the other integer fields do not go
through floating point. -/
def calcVstTimeInfo (clock : Nat) (g : Global) (this_ : BASS_VST_PLUGIN) (toCalc : Int) :
    BASS_VST_PLUGIN :=
  let bits := requestBits toCalc
  let t0 := { this_.vstTimeInfo with
    flags := kVstTransportPlaying
    sampleRate := getSampleRate g (some this_) }
  let t1 :=
    if bits &&& kVstNanosValid ≠ 0 then
      { t0 with
        nanoSeconds := (clock : Rat) * 1000000
        flags := t0.flags ||| kVstNanosValid }
    else t0
  let t2 :=
    if bits &&& kVstTimeSigValid ≠ 0 then
      { t1 with
        timeSigNumerator := 4
        timeSigDenominator := 4
        flags := t1.flags ||| kVstTimeSigValid }
    else t1
  let t3 :=
    if bits &&& (kVstTempoValid ||| kVstPpqPosValid) ≠ 0 then
      { t2 with
        tempo := 120
        flags := t2.flags ||| kVstTempoValid }
    else t2
  let t4 :=
    if bits &&& kVstPpqPosValid ≠ 0 then
      let dPos := t3.samplePos / t3.sampleRate
      { t3 with
        ppqPos := dPos * t3.tempo / 60
        flags := t3.flags ||| kVstPpqPosValid }
    else t3
  let t5 :=
    if bits &&& kVstSmpteValid ≠ 0 then
      let dPos := t4.samplePos / t4.sampleRate
      let dOffsetInSecond := dPos - (dPos.floor : Rat)
      { t4 with
        smpteFrameRate := kVstSmpte24fps
        smpteOffset := toLong (dOffsetInSecond * 24 * 80)
        flags := t4.flags ||| kVstSmpteValid }
    else t4
  let t6 :=
    if bits &&& kVstCyclePosValid ≠ 0 then
      { t5 with
        cycleStartPos := 0
        cycleEndPos := 0
        flags := t5.flags ||| kVstCyclePosValid }
    else t5
  { this_ with vstTimeInfo := t6 }

/-! ## Requests of the module to the host -/

/-- The opcodes that have a `case` label in the `switch` of
`audioMasterCallbackImpl` (release build, VST 2.4 headers, where the label
`audioMasterPinConnected` is compiled out); `audioMasterNeedIdleDeprecated` is the
constant written `__audioMasterNeedIdleDeprecated` in the source and `other` is
every opcode without a label. -/
inductive MasterOpcode
  | audioMasterAutomate
  | audioMasterVersion
  | audioMasterCurrentId
  | audioMasterIdle
  | audioMasterUpdateDisplay
  | audioMasterGetTime
  | audioMasterNeedIdleDeprecated
  | audioMasterSizeWindow
  | audioMasterGetSampleRate
  | audioMasterGetVendorString
  | audioMasterGetProductString
  | audioMasterGetVendorVersion
  | audioMasterCanDo
  | audioMasterGetLanguage
  | audioMasterOpenFileSelector
  | audioMasterCloseFileSelector
  | other (code : Int)
  deriving DecidableEq, Repr

/-- The record `BASS_VST_AUDIO_MASTER_PARAM` handed to the user callback; the
pointer field `aeffect` is left out. -/
structure BASS_VST_AUDIO_MASTER_PARAM where
  opcode : MasterOpcode
  index : Int
  value : Int
  ptr : Option (List Nat)
  opt : Rat
  doDefault : Int

/-- The action of a user callback invocation with its two `DWORD` parameters:
the old and new parameter count, the editor width and height, or the address of
the `BASS_VST_AUDIO_MASTER_PARAM` record (given by the record itself). -/
inductive CallbackAction
  | BASS_VST_PARAM_CHANGED (oldParamCount newParamCount : Int)
  | BASS_VST_EDITOR_RESIZED (width height : Int)
  | BASS_VST_AUDIO_MASTER (amp : BASS_VST_AUDIO_MASTER_PARAM)

/-- What an invocation of a user callback leaves behind: its return value, the
value of `amp.doDefault` on return (for the action `BASS_VST_AUDIO_MASTER`) and
the process state. -/
structure CallbackOutcome where
  ret : Nat
  doDefault : Int
  g : Global

/-- Modelled from the spec: the helpers `validateLastValues`, `updateIdleTimers`,
`idleDo`, `fileSelOpen` and `fileSelClose`, the constant `BASS_VST_VERSION_HEX`
and the code of the user callbacks are not part of the sources.  The
specification names them as the idle scheduler, the re-validation of the cached
parameter count, the host-level file dialog services and the user hook without
fixing what they compute, so they are parameters: `userProc a` is the code at
the callback address `a`, called with the process state, the handle, the action
and the user data; a helper that receives `this_` gets the record and returns the
updated one. -/
structure HostServices where
  BASS_VST_VERSION_HEX : Int
  clock : Nat
  userProc : Nat → Global → Nat → CallbackAction → Nat → CallbackOutcome
  validateLastValues : Global → BASS_VST_PLUGIN → Int × Global × BASS_VST_PLUGIN
  updateIdleTimers : Global → BASS_VST_PLUGIN → Global × BASS_VST_PLUGIN
  idleDo : Global → Global
  fileSelOpen : Global → BASS_VST_PLUGIN → Option (List Nat) → Int × Global × BASS_VST_PLUGIN
  fileSelClose : Global → BASS_VST_PLUGIN → Option (List Nat) → Global × BASS_VST_PLUGIN

/-- Modelled from the spec: `NEEDS_EDIT_IDLE`, the editor-idle bit of the
idle-need flags, is defined in a header that is not part of the sources; the
specification gives two independent bits. -/
def NEEDS_EDIT_IDLE : Nat := 1

/-- Modelled from the spec: `NEEDS_IDLE_OUTSIDE_EDIT`, the idle-outside-editor bit
of the idle-need flags, is defined in a header that is not part of the sources;
the specification gives two independent bits. -/
def NEEDS_IDLE_OUTSIDE_EDIT : Nat := 2

/-- The value a request returns: an integer, or the address of the field
`vstTimeInfo` of the instance. -/
inductive MasterValue
  | int (v : Int)
  | vstTimeInfoAddress
  deriving DecidableEq, Repr

/-- What a request of the module gives back: the return value and the string
written through `ptr` (`none` when nothing is written). -/
structure MasterReturn where
  ret : MasterValue
  written : Option (List Nat)
  deriving DecidableEq

/-- The character codes of a string literal. -/
def ascii (s : String) : List Nat := s.toList.map Char.toNat

/-- The function `tolower` of the C library on a byte (C locale). -/
def tolower (c : Nat) : Nat := if 65 ≤ c ∧ c ≤ 90 then c + 32 else c

/-- The function `strcasecmp` on two C strings (given without the terminating
NUL): the difference of the first pair of lower-cased bytes that differ, 0 when
there is none. -/
def strcasecmp : List Nat → List Nat → Int
  | [], [] => 0
  | [], b :: _ => 0 - (tolower b : Int)
  | a :: _, [] => (tolower a : Int)
  | a :: s1, b :: s2 =>
    if tolower a = tolower b then strcasecmp s1 s2 else (tolower a : Int) - (tolower b : Int)

/-- The condition of the `audioMasterCanDo` case on the C string `s` behind `ptr`. -/
def canDoCondition (s : List Nat) : Bool :=
  strcasecmp s (ascii "supplyidle") == 0
    || strcasecmp s (ascii "sendvstevents") == 0
    || strcasecmp s (ascii "sendvstmidievent") == 0
    || strcasecmp s (ascii "sendvsttimeinfo") == 0
    || strcasecmp s (ascii "openfileselector") == 0
    || strcasecmp s (ascii "closefileselector") == 0
    || strcasecmp s (ascii "sizewindow") == 0
    || strcasecmp s (ascii "startstopprocess") == 0
    || strcasecmp s (ascii "shellcategory") == 0

/-- A return value without a written string. -/
def MasterReturn.plain (v : Int) : MasterReturn := { ret := MasterValue.int v, written := none }

/-- The conversion of an integer to `DWORD`. -/
def toDWORD (x : Int) : Int := x % 2 ^ 32

/-- The `switch` of `audioMasterCallbackImpl`.  `this_` is the resolved instance,
which the registry of `g` holds under `vstHandle`; the result carries the value
of `ret` after the `switch` and the process state with `*this_` written back. -/
def masterSwitch (env : HostServices) (g : Global) (this_ : BASS_VST_PLUGIN) (vstHandle : Nat)
    (opcode : MasterOpcode) (index value : Int) (ptr : Option (List Nat)) :
    Option (MasterReturn × Global) :=
  match opcode with
  | .audioMasterAutomate => some (MasterReturn.plain 0, g)
  | .audioMasterVersion => some (MasterReturn.plain kVstVersion, g)
  | .audioMasterCurrentId => some (MasterReturn.plain this_.pluginID, g)
  | .audioMasterIdle => some (MasterReturn.plain 0, env.idleDo g)
  | .audioMasterUpdateDisplay =>
    if this_.effStartProcessCalled then
      let oldParamCount := this_.numLastValues
      match env.validateLastValues g this_ with
      | (newParamCount, g1, this1) =>
        let g2 := g1.put vstHandle this1
        if this1.callback ≠ 0 then
          some (MasterReturn.plain 0,
            (env.userProc this1.callback g2 this1.vstHandle
              (CallbackAction.BASS_VST_PARAM_CHANGED (toDWORD oldParamCount)
                (toDWORD newParamCount))
              this1.callbackUserData).g)
        else some (MasterReturn.plain 0, g2)
    else some (MasterReturn.plain 0, g)
  | .audioMasterGetTime =>
    let this1 := calcVstTimeInfo env.clock g this_ value
    some ({ ret := MasterValue.vstTimeInfoAddress, written := none }, g.put vstHandle this1)
  | .audioMasterNeedIdleDeprecated =>
    match env.updateIdleTimers g
        { this_ with needsIdle := this_.needsIdle ||| NEEDS_IDLE_OUTSIDE_EDIT } with
    | (g1, this1) => some (MasterReturn.plain 1, g1.put vstHandle this1)
  | .audioMasterSizeWindow =>
    if this_.callback ≠ 0 then
      some (MasterReturn.plain 0,
        (env.userProc this_.callback g vstHandle
          (CallbackAction.BASS_VST_EDITOR_RESIZED (toDWORD index) (toDWORD value))
          this_.callbackUserData).g)
    else some (MasterReturn.plain 0, g)
  | .audioMasterGetSampleRate => some (MasterReturn.plain (getSampleRate g (some this_)), g)
  | .audioMasterGetVendorString =>
    match ptr with
    | none => none
    | some _ =>
      some ({ ret := MasterValue.int 1,
              written := some (ascii "Bjoern Petersen Software Design and Development") }, g)
  | .audioMasterGetProductString =>
    match ptr with
    | none => none
    | some _ =>
      some ({ ret := MasterValue.int 1, written := some (ascii "BASS_VST @ Silverjuke.Net") }, g)
  | .audioMasterGetVendorVersion => some (MasterReturn.plain env.BASS_VST_VERSION_HEX, g)
  | .audioMasterCanDo =>
    match ptr with
    | none => none
    | some buf => some (MasterReturn.plain (if canDoCondition (cstr buf) then 1 else 0), g)
  | .audioMasterGetLanguage => some (MasterReturn.plain g.s_language, g)
  | .audioMasterOpenFileSelector =>
    match env.fileSelOpen g this_ ptr with
    | (ret, g1, this1) => some (MasterReturn.plain ret, g1.put vstHandle this1)
  | .audioMasterCloseFileSelector =>
    match env.fileSelClose g this_ ptr with
    | (g1, this1) => some (MasterReturn.plain 0, g1.put vstHandle this1)
  | .other _ => some (MasterReturn.plain 0, g)

/-- The `switch` of `audioMasterCallbackImpl` followed by its last two statements,
`unrefHandle(vstHandle); return ret;`. -/
def masterSwitchRelease (env : HostServices) (g : Global) (this_ : BASS_VST_PLUGIN)
    (vstHandle : Nat) (opcode : MasterOpcode) (index value : Int) (ptr : Option (List Nat)) :
    Option (MasterReturn × Global) :=
  match masterSwitch env g this_ vstHandle opcode index value ptr with
  | none => none
  | some (r, g1) =>
    match unrefHandle g1 vstHandle with
    | none => none
    | some (_, g2) => some (r, g2)

/-- The handle `audioMasterCallbackImpl` works on: `aeffect_->resvd1` when the
descriptor pointer is set and the slot is non-zero (`aeffect_` is given by the
content of that slot, `none` for a NULL pointer), `s_inConstructionVstHandle`
otherwise. -/
def masterHandle (g : Global) (aeffect_ : Option Nat) : Nat :=
  match aeffect_ with
  | some resvd1 => if resvd1 ≠ 0 then resvd1 else g.s_inConstructionVstHandle
  | none => g.s_inConstructionVstHandle

/-- The record `amp` as `audioMasterCallbackImpl` fills it for the user callback
(`doDefault` is 1). -/
def masterParam (opcode : MasterOpcode) (index value : Int) (ptr : Option (List Nat))
    (opt : Rat) : BASS_VST_AUDIO_MASTER_PARAM :=
  { opcode := opcode, index := index, value := value, ptr := ptr, opt := opt, doDefault := 1 }

/-- The function `audioMasterCallbackImpl`. -/
def audioMasterCallbackImpl (env : HostServices) (g : Global) (aeffect_ : Option Nat)
    (opcode : MasterOpcode) (index value : Int) (ptr : Option (List Nat)) (opt : Rat) :
    Option (MasterReturn × Global) :=
  let vstHandle := masterHandle g aeffect_
  match refHandle g vstHandle with
  | (none, g1) => some (MasterReturn.plain 0, g1)
  | (some this_, g1) =>
    if this_.callback ≠ 0 then
      let callback := this_.callback
      let callbackUserData := this_.callbackUserData
      let amp := masterParam opcode index value ptr opt
      match unrefHandle g1 vstHandle with
      | none => none
      | some (_, g2) =>
        let o := env.userProc callback g2 vstHandle (CallbackAction.BASS_VST_AUDIO_MASTER amp)
          callbackUserData
        if o.doDefault = 0 then some (MasterReturn.plain o.ret, o.g)
        else
          match refHandle o.g vstHandle with
          | (none, g3) => some (MasterReturn.plain 0, g3)
          | (some this2, g3) => masterSwitchRelease env g3 this2 vstHandle opcode index value ptr
    else masterSwitchRelease env g1 this_ vstHandle opcode index value ptr

/-- Default handling of a request as the specification words it: the instance
of the handle is resolved, the request is answered by the host itself and the
instance is released; the answer is 0 when the handle does not resolve.  No user
callback is asked. -/
def defaultHandling (env : HostServices) (g : Global) (vstHandle : Nat)
    (opcode : MasterOpcode) (index value : Int) (ptr : Option (List Nat)) :
    Option (MasterReturn × Global) :=
  match refHandle g vstHandle with
  | (none, g1) => some (MasterReturn.plain 0, g1)
  | (some this_, g1) => masterSwitchRelease env g1 this_ vstHandle opcode index value ptr

/-- The host services `env` with the return value of every user callback
invocation replaced by what `f` gives; everything else a callback does stays. -/
def HostServices.withReturn (env : HostServices)
    (f : Nat → Global → Nat → CallbackAction → Nat → Nat) : HostServices :=
  { env with
    userProc := fun a g h action u => { env.userProc a g h action u with ret := f a g h action u } }

/-- The nine features named in the specification for which the host answers
`audioMasterCanDo` with 1. -/
def hostFeatures : List (List Nat) :=
  [ascii "supplyidle", ascii "sendvstevents", ascii "sendvstmidievent",
   ascii "sendvsttimeinfo", ascii "openfileselector", ascii "closefileselector",
   ascii "sizewindow", ascii "startstopprocess", ascii "shellcategory"]

/-- The bytes `x` and `y` are the same character when ASCII case is ignored, as
the specification words it: they are equal, or one of them is an upper-case letter
`A` .. `Z` (65 .. 90) and the other one is its lower-case form (32 higher).  This
is stated on the byte values, without the function `tolower` of the code. -/
def sameLetter (x y : Nat) : Bool :=
  x == y || (decide (65 ≤ x ∧ x ≤ 90) && y == x + 32)
    || (decide (65 ≤ y ∧ y ≤ 90) && x == y + 32)

/-- Two strings are equal when ASCII case is ignored, as the specification words
it: they have the same length and their bytes are pairwise the same character up
to ASCII case. -/
def eqIgnoreAsciiCase : List Nat → List Nat → Bool
  | [], [] => true
  | x :: a, y :: b => sameLetter x y && eqIgnoreAsciiCase a b
  | _, _ => false

/-! ## Information about an instance, the editor -/

/-- The fields of `BASS_VST_INFO` that `BASS_VST_GetInfo` fills (the pointer field
`aeffect` is left out); the three names are C strings. -/
structure BASS_VST_INFO where
  channelHandle : Nat
  uniqueID : Int
  effectName : List Nat
  effectVersion : Int
  effectVstVersion : Int
  hostVstVersion : Int
  productName : List Nat
  vendorName : List Nat
  vendorVersion : Int
  chansIn : Int
  chansOut : Int
  initialDelay : Int
  hasEditor : Int
  editorWidth : Int
  editorHeight : Int
  isInstrument : Int
  dspHandle : Nat
  deriving DecidableEq

/-- The guarded block of `BASS_VST_GetInfo` ("fill the return structure" and
"editor stuff").  A name buffer is handed to the module as an empty C string. -/
def getInfoFill (this_ : BASS_VST_PLUGIN) (info : BASS_VST_INFO) :
    Option (BASS_VST_INFO × BASS_VST_PLUGIN) :=
  match callDispatcher this_ Opcode.effGetEffectName 0 0 (some []) 0 with
  | none => none
  | some (r1, this1) =>
    match callDispatcher this1 Opcode.effGetProductString 0 0 (some []) 0 with
    | none => none
    | some (r2, this2) =>
      match callDispatcher this2 Opcode.effGetVendorString 0 0 (some []) 0 with
      | none => none
      | some (r3, this3) =>
        match this3.aeff with
        | none => none
        | some ae3 =>
          match callDispatcher this3 Opcode.effGetVendorVersion 0 0 none 0 with
          | none => none
          | some (r4, this4) =>
            match callDispatcher this4 Opcode.effGetVstVersion 0 0 none 0 with
            | none => none
            | some (r5, this5) =>
              match this5.aeff with
              | none => none
              | some ae5 =>
                let info1 : BASS_VST_INFO :=
                  { info with
                    effectName := cstr (r1.out.getD [])
                    productName := cstr (r2.out.getD [])
                    vendorName := cstr (r3.out.getD [])
                    channelHandle := this3.channelHandle
                    uniqueID := ae3.uniqueID
                    effectVersion := ae3.version
                    vendorVersion := toDWORD r4.ret
                    effectVstVersion := toDWORD r5.ret
                    hostVstVersion := kVstVersion
                    chansIn := ae5.numInputs
                    chansOut := ae5.numOutputs
                    initialDelay := ae5.initialDelay
                    isInstrument := if this5.type = PluginType.VSTinstrument then 1 else 0
                    dspHandle := this5.dspHandle
                    hasEditor := if ae5.effFlagsHasEditor then 1 else 0 }
                if info1.hasEditor ≠ 0 then
                  match callDispatcher this5 Opcode.effEditGetRect 0 0 (some []) 0 with
                  | none => none
                  | some (r6, this6) =>
                    match r6.rect with
                    | some rect =>
                      let editorWidth := rect.right - rect.left
                      let editorHeight := rect.bottom - rect.top
                      some ({ info1 with
                              editorWidth := if editorWidth < 0 then 0 else editorWidth
                              editorHeight := if editorHeight < 0 then 0 else editorHeight },
                            this6)
                    | none => some ({ info1 with hasEditor := 0 }, this6)
                else some (info1, this5)

/-- The function `BASS_VST_GetInfo`; `info` is the record behind the pointer
(`none` for NULL), the second component of the result its content on return. -/
def BASS_VST_GetInfo (g : Global) (vstHandle : Nat) (info : Option BASS_VST_INFO) :
    Option ((Bool × Option BASS_VST_INFO) × Global) :=
  match info with
  | none => some (RETURN_ERROR g BassError.BASS_ERROR_ILLPARAM (false, none))
  | some info0 =>
    match refHandle g vstHandle with
    | (none, g1) => some (RETURN_ERROR g1 BassError.BASS_ERROR_HANDLE (false, some info0))
    | (some this_, g1) =>
      match getInfoFill this_ info0 with
      | none => none
      | some (info1, this1) =>
        match unrefHandle (g1.put vstHandle this1) vstHandle with
        | none => none
        | some (_, g2) => some (RETURN_SUCCESS g2 (true, some info1))

/-- The loop of `BASS_VST_EmbedEditor` that remembers the current parameters:
`lastValues[paramIndex] = getParameter(paramIndex)` from `paramIndex` on; `todo`
is the number of rounds left. -/
def lastValuesLoop : Nat → Int → BASS_VST_PLUGIN → Option BASS_VST_PLUGIN
  | 0, _, this_ => some this_
  | todo + 1, paramIndex, this_ =>
    match callGetParameter this_ paramIndex with
    | none => none
    | some (v, this1) =>
      match writeArray this1.lastValues paramIndex v with
      | none => none
      | some l => lastValuesLoop todo (paramIndex + 1) { this1 with lastValues := some l }

/-- The local variable `info` of `BASS_VST_EmbedEditor` (`vstInfo` of
`BASS_VST_HasEditor`) before `BASS_VST_GetInfo` fills it (only `hasEditor` is read
afterwards, which is always written). -/
def infoOnStack : BASS_VST_INFO :=
  { channelHandle := 0, uniqueID := 0, effectName := [], effectVersion := 0,
    effectVstVersion := 0, hostVstVersion := 0, productName := [], vendorName := [],
    vendorVersion := 0, chansIn := 0, chansOut := 0, initialDelay := 0, hasEditor := 0,
    editorWidth := 0, editorHeight := 0, isInstrument := 0, dspHandle := 0 }

/-- The branch `if( parentWindow )` of `BASS_VST_EmbedEditor` up to the common
`unrefHandle` / `RETURN_SUCCESS`: embed and open the editor.  `g` is the state
after `refHandle`; `BASS_VST_GetInfo` works on the same instance through the
registry, so `*this_` is read from there afterwards. -/
def embedEditorOpen (env : HostServices) (g : Global) (this_ : BASS_VST_PLUGIN)
    (vstHandle parentWindow : Nat) : Option (Bool × Global) :=
  if this_.editorIsOpen then
    match unrefHandle g vstHandle with
    | none => none
    | some (_, g1) => some (RETURN_ERROR g1 BassError.BASS_ERROR_ALREADY false)
  else
    match BASS_VST_GetInfo g vstHandle (some infoOnStack) with
    | none => none
    | some ((ok, info), g1) =>
      if ok = false then
        match unrefHandle g1 vstHandle with
        | none => none
        | some (_, g2) => some (false, g2)
      else
        match info with
        | none => none
        | some info1 =>
          if info1.hasEditor = 0 then
            match unrefHandle g1 vstHandle with
            | none => none
            | some (_, g2) => some (RETURN_ERROR g2 BassError.BASS_ERROR_NOTAVAIL false)
          else
            match g1.handles vstHandle with
            | none => none
            | some this1 =>
              match this1.aeff with
              | none => none
              | some ae =>
                match (if ae.getParameter then
                    match env.validateLastValues g1 this1 with
                    | (numParam, g2, this2) =>
                      (lastValuesLoop numParam.toNat 0 this2).map (fun t => (g2, t))
                  else some (g1, this1)) with
                | none => none
                | some (g2, this3) =>
                  match callDispatcher this3 Opcode.effEditOpen 0 0 (some [parentWindow]) 0 with
                  | none => none
                  | some (_, this4) =>
                    let this5 := { this4 with editorIsOpen := true }
                    match env.updateIdleTimers g2
                        { this5 with needsIdle := this5.needsIdle ||| NEEDS_EDIT_IDLE } with
                    | (g3, this6) =>
                      match unrefHandle (checkForwarding (g3.put vstHandle this6)) vstHandle with
                      | none => none
                      | some (_, g4) => some (RETURN_SUCCESS g4 true)

/-- The `else` branch of `BASS_VST_EmbedEditor` up to the common `unrefHandle` /
`RETURN_SUCCESS`: unembed and close the editor.  `needsIdle` is a 32-bit field. -/
def embedEditorClose (env : HostServices) (g : Global) (this_ : BASS_VST_PLUGIN)
    (vstHandle : Nat) : Option (Bool × Global) :=
  if this_.editorIsOpen = false then
    match unrefHandle g vstHandle with
    | none => none
    | some (_, g1) => some (RETURN_ERROR g1 BassError.BASS_ERROR_ALREADY false)
  else
    match env.updateIdleTimers g
        { this_ with needsIdle := this_.needsIdle &&& (0xFFFFFFFF ^^^ NEEDS_EDIT_IDLE) } with
    | (g1, this1) =>
      match callDispatcher this1 Opcode.effEditClose 0 0 none 0 with
      | none => none
      | some (_, this2) =>
        let this3 := { this2 with editorIsOpen := false }
        match unrefHandle (checkForwarding (g1.put vstHandle this3)) vstHandle with
        | none => none
        | some (_, g2) => some (RETURN_SUCCESS g2 true)

/-- The function `BASS_VST_EmbedEditor`; `parentWindow` is the window handle (0
for NULL). -/
def BASS_VST_EmbedEditor (env : HostServices) (g : Global) (vstHandle parentWindow : Nat) :
    Option (Bool × Global) :=
  match refHandle g vstHandle with
  | (none, g1) => some (RETURN_ERROR g1 BassError.BASS_ERROR_HANDLE false)
  | (some this_, g1) =>
    if parentWindow ≠ 0 then embedEditorOpen env g1 this_ vstHandle parentWindow
    else embedEditorClose env g1 this_ vstHandle

/-! ## Rejected modules -/

/-- The descriptor `d` passes the validation of `loadVstLibrary`: the magic tag is
right, there is a processing entry and the dispatcher is not NULL. -/
def AEffect.passes (d : AEffect) : Prop :=
  d.magic = kEffectMagic
    ∧ ¬ (d.processDeprecated = false ∧ d.processReplacing = false ∧ d.canDoubleReplacing = false)
    ∧ d.dispatcher = true

/-- The load `r` started in the state `g` returns false with the error `e` (when
the engine's function table is set) and leaves no image loaded. -/
def LoadRejected (g : Global) (r : Option LoadResult) (e : BassError) : Prop :=
  ∃ r1, r = some r1 ∧ r1.ret = false ∧ (g.s_bassfunc = true → r1.g.lastError = e)
    ∧ r1.this_.hinst = none

/-- The first request `loadVstLibrary` sends to a module. -/
def categoryRequest : VstCall := VstCall.dispatcher Opcode.effGetPlugCategory 0 0 none 0

/-! ## Shell modules -/

/-- The request `effShellGetNextPlugin` as the enumeration loop sends it. -/
def shellRequest : VstCall := VstCall.dispatcher Opcode.effShellGetNextPlugin 0 0 (some []) 0

/-- The sub-modules a shell module advertises after the calls `t`: the name and id
it answers to each further `effShellGetNextPlugin` request, up to (and without) the
answer with id 0.  `fuel` bounds the number of requests; `none` means that the
module has not answered 0 within that bound. -/
def shellAnswers : Nat → VstModule → List VstCall → Option (List (List Nat × Int))
  | 0, _, _ => none
  | fuel + 1, m, t =>
    let r := m.dispatcher t Opcode.effShellGetNextPlugin 0 0 (some []) 0
    if r.ret = 0 then some []
    else
      match shellAnswers fuel m (t ++ [shellRequest]) with
      | none => none
      | some rest => some ((cstr (r.out.getD []), r.ret) :: rest)

/-- The listing entry of a sub-module: its name, a TAB, its id in decimal, a
NEWLINE. -/
def shellEntry (a : List Nat × Int) : List Nat := a.1 ++ [9] ++ decimal a.2 ++ [10]

/-- The entries that go into a buffer of `pluginListSize` bytes which already
holds `len` bytes: entries are taken in order as long as the next one leaves
room for the terminating NUL; the first one that does not ends the listing. -/
def fitEntries (pluginListSize : Int) : Int → List (List Nat) → List Nat
  | _, [] => []
  | len, e :: rest =>
    if pluginListSize > len + (e.length : Int) then
      e ++ fitEntries pluginListSize (len + (e.length : Int)) rest
    else []

/-- The sub-modules with a non-empty name. -/
def namedAnswers (answers : List (List Nat × Int)) : List (List Nat × Int) :=
  answers.filter (fun a => a.1 ≠ [])

/-- The listing of all sub-modules, one entry each, in order. -/
def fullListing (answers : List (List Nat × Int)) : List Nat :=
  (answers.map shellEntry).flatten

/-! ## Further concrete modules, instances and host services -/

/-- The descriptor of `gainModule`. -/
def gainDescriptor : AEffect := gainModule.desc []

/-- A module with the fixed descriptor `d` that answers 0 to every dispatcher
call. -/
def moduleWith (d : AEffect) : VstModule where
  desc := fun _ => d
  dispatcher := fun _ _ _ _ _ _ => { ret := 0, out := none, rect := none }
  getParameter := storedParam

/-- An image whose entry point returns the module `m`. -/
def libraryOf (m : VstModule) : VstLibrary := { canOpen := true, hasEntry := true, entry := some m }

/-- An image whose entry point returns a NULL descriptor. -/
def nullDescriptorLibrary : VstLibrary := { canOpen := true, hasEntry := true, entry := none }

/-- An image whose descriptor has a wrong magic tag. -/
def badMagicLibrary : VstLibrary := libraryOf (moduleWith { gainDescriptor with magic := 0 })

/-- An image whose descriptor has a NULL dispatcher. -/
def noDispatcherLibrary : VstLibrary :=
  libraryOf (moduleWith { gainDescriptor with dispatcher := false })

/-- An image of an effect without inputs and without outputs. -/
def noPinsLibrary : VstLibrary :=
  libraryOf (moduleWith { gainDescriptor with
    numInputs := 0
    numOutputs := 0 })

/-- An image of an effect with inputs but without outputs. -/
def noOutputsLibrary : VstLibrary :=
  libraryOf (moduleWith { gainDescriptor with numOutputs := 0 })

/-- A freshly created instrument instance with handle 1 (nothing loaded yet). -/
def freshInstrument : BASS_VST_PLUGIN :=
  { freshInstance with type := PluginType.VSTinstrument }

/-- The number of `effShellGetNextPlugin` requests among `calls`. -/
def shellRequests (calls : List VstCall) : Nat :=
  calls.countP (fun c =>
    match c with
    | VstCall.dispatcher Opcode.effShellGetNextPlugin _ _ _ _ => true
    | _ => false)

/-- A shell module with the two sub-modules "AB" (id 1) and "CD" (id 2). -/
def shellModule : VstModule where
  desc := fun _ => gainDescriptor
  dispatcher := fun calls opcode _ _ _ _ =>
    match opcode with
    | Opcode.effGetPlugCategory => { ret := kPlugCategShell, out := none, rect := none }
    | Opcode.effShellGetNextPlugin =>
      match shellRequests calls with
      | 0 => { ret := 1, out := some [65, 66], rect := none }
      | 1 => { ret := 2, out := some [67, 68], rect := none }
      | _ => { ret := 0, out := none, rect := none }
    | _ => { ret := 0, out := none, rect := none }
  getParameter := storedParam

/-- The image file of `shellModule`. -/
def shellLibrary : VstLibrary := libraryOf shellModule

/-- An opened instance of `gainModule` whose processing has not been started. -/
def openedInstance : BASS_VST_PLUGIN := { startedInstance with effStartProcessCalled := false }

/-- The started instance with its editor open. -/
def editorInstance : BASS_VST_PLUGIN :=
  { startedInstance with
    editorIsOpen := true
    needsIdle := NEEDS_EDIT_IDLE }

/-- The started instance with the user callback at address `a` registered. -/
def hookedInstance (a : Nat) : BASS_VST_PLUGIN := { startedInstance with callback := a }

/-- Host services for the scenarios: the helpers do nothing, the file dialog
answers 0, and a user callback leaves the process state as it is and returns
7; the one at address 1 handles every request itself (it clears `doDefault`),
every other one declines. -/
def quietHost : HostServices where
  BASS_VST_VERSION_HEX := 0x02040000
  clock := 0
  userProc := fun a g _ action _ =>
    match action with
    | CallbackAction.BASS_VST_AUDIO_MASTER amp =>
      { ret := 7, doDefault := if a = 1 then 0 else amp.doDefault, g := g }
    | _ => { ret := 7, doDefault := 0, g := g }
  validateLastValues := fun g this_ => (this_.numLastValues, g, this_)
  updateIdleTimers := fun g this_ => (g, this_)
  idleDo := fun g => g
  fileSelOpen := fun g this_ _ => (0, g, this_)
  fileSelClose := fun g this_ _ => (g, this_)

/-! ## Asking for the editor -/

/-- The function `BASS_VST_HasEditor`.  Its failure exits return without
`SET_ERROR`; the one for an unknown handle calls `unrefHandle` although nothing
was acquired. -/
def BASS_VST_HasEditor (g : Global) (vstHandle : Nat) : Option (Bool × Global) :=
  if vstHandle = 0 then some (false, g)
  else
    match refHandle g vstHandle with
    | (none, g1) =>
      match unrefHandle g1 vstHandle with
      | none => none
      | some (_, g2) => some (false, g2)
    | (some _, g1) =>
      match BASS_VST_GetInfo g1 vstHandle (some infoOnStack) with
      | none => none
      | some ((_, info), g2) =>
        match info with
        | none => none
        | some vstInfo =>
          match unrefHandle g2 vstHandle with
          | none => none
          | some (_, g3) => if vstInfo.hasEditor = 0 then some (false, g3) else some (true, g3)

/-! ## Presets -/

/-- The function `BASS_VST_StorePreset`.  After its two guards the function works
with the bank codec `CFxBank`, which is not part of the sources: that code is the
parameter `rest`, run on the state after `refHandle` and the resolved instance.
The guard for an unknown handle calls `unrefHandle` although nothing was
acquired; neither guard calls `SET_ERROR`. -/
def BASS_VST_StorePreset (rest : Global → BASS_VST_PLUGIN → Option (Bool × Global))
    (g : Global) (vstHandle : Nat) : Option (Bool × Global) :=
  if vstHandle = 0 then some (false, g)
  else
    match refHandle g vstHandle with
    | (none, g1) =>
      match unrefHandle g1 vstHandle with
      | none => none
      | some (_, g2) => some (false, g2)
    | (some this_, g1) => rest g1 this_

/-- The function `BASS_VST_RecallPreset`, with the same two guards; the code after
them (it loads the bank through `CFxBank`) is the parameter `rest`. -/
def BASS_VST_RecallPreset (rest : Global → BASS_VST_PLUGIN → Option (Bool × Global))
    (g : Global) (vstHandle : Nat) : Option (Bool × Global) :=
  if vstHandle = 0 then some (false, g)
  else
    match refHandle g vstHandle with
    | (none, g1) =>
      match unrefHandle g1 vstHandle with
      | none => none
      | some (_, g2) => some (false, g2)
    | (some this_, g1) => rest g1 this_

/-! ## Names and parameters of a program -/

/-- The statements that open the guarded block of `BASS_VST_GetProgramParam`,
`BASS_VST_SetProgramName` and `BASS_VST_SetProgramParam` (and the inner block of
`BASS_VST_GetProgramName`): read the current program into the `int`
`orgProgramIndex` and select `programIndex` when it differs. -/
def selectProgram (this_ : BASS_VST_PLUGIN) (programIndex : Int) :
    Option (Int × BASS_VST_PLUGIN) :=
  match callDispatcher this_ Opcode.effGetProgram 0 0 none 0 with
  | none => none
  | some (r, this1) =>
    let orgProgramIndex := toInt r.ret
    if orgProgramIndex ≠ programIndex then
      match callDispatcher this1 Opcode.effSetProgram 0 programIndex none 0 with
      | none => none
      | some (_, this2) => some (orgProgramIndex, this2)
    else some (orgProgramIndex, this1)

/-- The statement that closes those blocks: select `orgProgramIndex` again when
it differs from `programIndex`. -/
def restoreProgram (this_ : BASS_VST_PLUGIN) (orgProgramIndex programIndex : Int) :
    Option BASS_VST_PLUGIN :=
  if orgProgramIndex ≠ programIndex then
    match callDispatcher this_ Opcode.effSetProgram 0 orgProgramIndex none 0 with
    | none => none
    | some (_, this1) => some this1
  else some this_

/-- The C string in a name buffer after a dispatcher call that was handed the
buffer: what the module wrote, or the old content when it wrote nothing. -/
def nameAfter (buf : List Nat) (out : Option (List Nat)) : List Nat :=
  match out with
  | none => buf
  | some bytes => cstr bytes

/-- The guarded block of `BASS_VST_GetProgramName`. -/
def getProgramNameBody (this_ : BASS_VST_PLUGIN) (programIndex : Int) :
    Option BASS_VST_PLUGIN :=
  match callDispatcher this_ Opcode.effGetProgramNameIndexed programIndex 0
      (some this_.tempProgramNameBuf) 0 with
  | none => none
  | some (r, this1) =>
    let this2 := { this1 with tempProgramNameBuf := nameAfter this1.tempProgramNameBuf r.out }
    if r.ret = 0 then
      match selectProgram this2 programIndex with
      | none => none
      | some (orgProgramIndex, this3) =>
        match callDispatcher this3 Opcode.effGetProgramName 0 0
            (some this3.tempProgramNameBuf) 0 with
        | none => none
        | some (r2, this4) =>
          restoreProgram
            { this4 with tempProgramNameBuf := nameAfter this4.tempProgramNameBuf r2.out }
            orgProgramIndex programIndex
    else some this2

/-- The function `BASS_VST_GetProgramName`; the result is the C string in
`tempProgramNameBuf` (`none` for the NULL of `RETURN_ERROR`). -/
def BASS_VST_GetProgramName (g : Global) (vstHandle : Nat) (programIndex : Int) :
    Option (Option (List Nat) × Global) :=
  match refHandle_checkProgramIndex g vstHandle programIndex with
  | none => none
  | some (none, g1) => some (RETURN_ERROR g1 BassError.BASS_ERROR_HANDLE none)
  | some (some this_, g1) =>
    match getProgramNameBody this_ programIndex with
    | none => none
    | some this1 =>
      let this2 := { this1 with
        tempProgramNameBuf := this1.tempProgramNameBuf.take kVstMaxProgNameLen }
      match unrefHandle (g1.put vstHandle this2) vstHandle with
      | none => none
      | some (_, g2) => some (RETURN_SUCCESS g2 (some this2.tempProgramNameBuf))

/-- The loop of `BASS_VST_GetProgramParam`: `param[i] = getParameter(i)` from `i` on;
`todo` is the number of rounds left. -/
def programValuesLoop : Nat → Int → BASS_VST_PLUGIN → Option BASS_VST_PLUGIN
  | 0, _, this_ => some this_
  | todo + 1, i, this_ =>
    match callGetParameter this_ i with
    | none => none
    | some (v, this1) =>
      match writeArray this1.tempProgramValueBuf i v with
      | none => none
      | some l => programValuesLoop todo (i + 1) { this1 with tempProgramValueBuf := some l }

/-- The guarded block of `BASS_VST_GetProgramParam`.  The result carries the
value left in `*length`.  `realloc` succeeds or fails as the allocator says; the
cells of the new buffer are all written by the loop. -/
def getProgramParamBody (g : Global) (this_ : BASS_VST_PLUGIN) (programIndex : Int) :
    Option (Global × BASS_VST_PLUGIN × Nat) :=
  match selectProgram this_ programIndex with
  | none => none
  | some (orgProgramIndex, this1) =>
    match this1.aeff with
    | none => none
    | some ae =>
      let numParams := ae.numParams
      match malloc g with
      | (ok, g1) =>
        let this2 := { this1 with
          tempProgramValueBuf := if ok then some (List.replicate numParams.toNat 0) else none }
        match (if ok then
            (programValuesLoop numParams.toNat 0 this2).map
              (fun t => (t, (toDWORD numParams).toNat))
          else some (this2, 0)) with
        | none => none
        | some (this3, length) =>
          match restoreProgram this3 orgProgramIndex programIndex with
          | none => none
          | some this4 => some (g1, this4, length)

/-- The function `BASS_VST_GetProgramParam`.  `length` is the caller's `DWORD`
behind the pointer of that name (`none` for a NULL pointer, which the first
statement dereferences); the result is the returned array and the value left in
`*length`. -/
def BASS_VST_GetProgramParam (g : Global) (vstHandle : Nat) (programIndex : Int)
    (length : Option Nat) : Option ((Option (List Rat) × Nat) × Global) :=
  match length with
  | none => none
  | some _ =>
    match refHandle_checkProgramIndex g vstHandle programIndex with
    | none => none
    | some (none, g1) => some (RETURN_ERROR g1 BassError.BASS_ERROR_HANDLE (none, 0))
    | some (some this_, g1) =>
      match getProgramParamBody g1 this_ programIndex with
      | none => none
      | some (g2, this1, len) =>
        match unrefHandle (g2.put vstHandle this1) vstHandle with
        | none => none
        | some (_, g3) => some (RETURN_SUCCESS g3 (this1.tempProgramValueBuf, len))

/-- The function `BASS_VST_SetProgramName`; `newName__` is the C string behind the
pointer (`none` for NULL). -/
def BASS_VST_SetProgramName (g : Global) (vstHandle : Nat) (programIndex : Int)
    (newName__ : Option (List Nat)) : Option (Bool × Global) :=
  match newName__ with
  | none => some (RETURN_ERROR g BassError.BASS_ERROR_ILLPARAM false)
  | some name =>
    match refHandle_checkProgramIndex g vstHandle programIndex with
    | none => none
    | some (none, g1) => some (RETURN_ERROR g1 BassError.BASS_ERROR_HANDLE false)
    | some (some this_, g1) =>
      match selectProgram this_ programIndex with
      | none => none
      | some (orgProgramIndex, this1) =>
        let newName := (cstr name).take kVstMaxProgNameLen
        match callDispatcher this1 Opcode.effSetProgramName 0 0 (some newName) 0 with
        | none => none
        | some (_, this2) =>
          match restoreProgram this2 orgProgramIndex programIndex with
          | none => none
          | some this3 =>
            match unrefHandle (g1.put vstHandle this3) vstHandle with
            | none => none
            | some (_, g2) => some (RETURN_SUCCESS g2 true)

/-- The loop of `BASS_VST_SetProgramParam`:
`if (i < (int)length) setParameter(i, param[i])` from `i` on; `todo` is the number
of rounds left and `length` the value of `(int)length`. -/
def setProgramParamLoop : Nat → Int → BASS_VST_PLUGIN → List Rat → Int → Option BASS_VST_PLUGIN
  | 0, _, this_, _, _ => some this_
  | todo + 1, i, this_, param, length =>
    if i < length then
      match readArray (some param) i with
      | none => none
      | some v =>
        match callSetParameter this_ i v with
        | none => none
        | some this1 => setProgramParamLoop todo (i + 1) this1 param length
    else setProgramParamLoop todo (i + 1) this_ param length

/-- The function `BASS_VST_SetProgramParam`; `param` is the array behind the
pointer (`none` for NULL). -/
def BASS_VST_SetProgramParam (g : Global) (vstHandle : Nat) (programIndex : Int)
    (param : Option (List Rat)) (length : Nat) : Option (Bool × Global) :=
  match param with
  | none => some (RETURN_ERROR g BassError.BASS_ERROR_ILLPARAM false)
  | some values =>
    match refHandle_checkProgramIndex g vstHandle programIndex with
    | none => none
    | some (none, g1) => some (RETURN_ERROR g1 BassError.BASS_ERROR_HANDLE false)
    | some (some this_, g1) =>
      match selectProgram this_ programIndex with
      | none => none
      | some (orgProgramIndex, this1) =>
        match this1.aeff with
        | none => none
        | some ae =>
          let numParams := ae.numParams
          match setProgramParamLoop numParams.toNat 0 this1 values (toInt length) with
          | none => none
          | some this2 =>
            match restoreProgram this2 orgProgramIndex programIndex with
            | none => none
            | some this3 =>
              match unrefHandle (g1.put vstHandle this3) vstHandle with
              | none => none
              | some (_, g2) => some (RETURN_SUCCESS g2 true)

/-- The programs selected by the `effSetProgram` requests among `calls`, in
order. -/
def setProgramCalls (calls : List VstCall) : List Int :=
  calls.filterMap (fun c =>
    match c with
    | VstCall.dispatcher Opcode.effSetProgram _ v _ _ => some v
    | _ => none)

/-- The program a module has selected after `calls` when it started with the
program `init`: the one of the last `effSetProgram` request. -/
def selectedProgram (init : Int) (calls : List VstCall) : Int :=
  (setProgramCalls calls).getLast?.getD init

/-- A module whose `effGetProgram` answers the last program set (`init` before
any), and whose dispatcher, `getParameter` and `setParameter` are present. -/
structure TracksProgram (m : VstModule) (init : Int) : Prop where
  dispatcher_ptr : ∀ t, (m.desc t).dispatcher = true
  getParameter_ptr : ∀ t, (m.desc t).getParameter = true
  setParameter_ptr : ∀ t, (m.desc t).setParameter = true
  getProgram : ∀ t, (m.dispatcher t Opcode.effGetProgram 0 0 none 0).ret = selectedProgram init t

/-- What a per-program function leaves behind on the instance `p` (result `q`):
the selected program is the one before the call, and the `effSetProgram` requests
of the call are `switches`. -/
structure ProgramKept (init : Int) (p q : BASS_VST_PLUGIN) (switches : List Int) : Prop where
  calls : ∃ t, q.calls = p.calls ++ t ∧ setProgramCalls t = switches
  selected : selectedProgram init q.calls = selectedProgram init p.calls

/-- The instance `q` is the instance `p` of the module `m` after the further
module calls `t`: the module pointer and the reference count are those of `p`. -/
structure AfterCalls (m : VstModule) (p q : BASS_VST_PLUGIN) (t : List VstCall) : Prop where
  aeffect : q.aeffect = some m
  usage : q.handleUsage = p.handleUsage
  calls : q.calls = p.calls ++ t

/-- A module with three programs and two parameters that remembers the program
last set (program 0 at first). -/
def programModule : VstModule where
  desc := fun _ => { gainDescriptor with numPrograms := 3 }
  dispatcher := fun calls opcode _ _ _ _ =>
    match opcode with
    | Opcode.effGetProgram => { ret := selectedProgram 0 calls, out := none, rect := none }
    | _ => { ret := 0, out := none, rect := none }
  getParameter := storedParam

/-- A started instance of `programModule` with handle 1. -/
def programInstance : BASS_VST_PLUGIN := { startedInstance with aeffect := some programModule }

/-! ## Sequences of bypass and resume calls -/

/-- The values of the `effMainsChanged` requests among `calls`, in order (0 is
suspend, 1 is resume). -/
def mainsChangedCalls (calls : List VstCall) : List Int :=
  calls.filterMap (fun c =>
    match c with
    | VstCall.dispatcher Opcode.effMainsChanged _ v _ _ => some v
    | _ => none)

/-- The last mains-changed signal the module received (`none` before any). -/
def lastMains (calls : List VstCall) : Option Int := (mainsChangedCalls calls).getLast?

/-- A call of `BASS_VST_SetBypass` or of `BASS_VST_Resume`. -/
inductive BypassCall
  | setBypass (newDoBypass : Int)
  | resume
  deriving DecidableEq, Repr

/-- Perform one such call on the instance `vstHandle`. -/
def BypassCall.run (g : Global) (vstHandle : Nat) : BypassCall → Option (Bool × Global)
  | .setBypass newDoBypass => BASS_VST_SetBypass g vstHandle newDoBypass
  | .resume => BASS_VST_Resume g vstHandle

/-- Perform a sequence of such calls that all succeed (`none` as soon as one of
them does not return or returns false). -/
def runBypassCalls (vstHandle : Nat) : Global → List BypassCall → Option Global
  | g, [] => some g
  | g, c :: rest =>
    match c.run g vstHandle with
    | some (true, g1) => runBypassCalls vstHandle g1 rest
    | _ => none

/-- The started instance, bypassed: the module was sent suspend last. -/
def bypassedInstance : BASS_VST_PLUGIN :=
  { startedInstance with
    doBypass := 1
    calls := [VstCall.dispatcher Opcode.effMainsChanged 0 1 none 0,
              VstCall.dispatcher Opcode.effMainsChanged 0 0 none 0] }

/-- The started instance after its load: the module was sent resume last. -/
def resumedInstance : BASS_VST_PLUGIN :=
  { startedInstance with calls := [VstCall.dispatcher Opcode.effMainsChanged 0 1 none 0] }

/-! ## Sequences of editor calls and need-idle requests -/

/-- A call of `BASS_VST_EmbedEditor` on an instance or a request
`__audioMasterNeedIdleDeprecated` of its module. -/
inductive EditorCall
  | embedEditor (parentWindow : Nat)
  | needIdle (index value : Int) (ptr : Option (List Nat)) (opt : Rat)

/-- Perform one such call for the instance `vstHandle`, whatever it returns. -/
def EditorCall.run (env : HostServices) (g : Global) (vstHandle : Nat) :
    EditorCall → Option Global
  | .embedEditor parentWindow =>
    match BASS_VST_EmbedEditor env g vstHandle parentWindow with
    | none => none
    | some (_, g1) => some g1
  | .needIdle index value ptr opt =>
    match audioMasterCallbackImpl env g (some vstHandle)
        MasterOpcode.audioMasterNeedIdleDeprecated index value ptr opt with
    | none => none
    | some (_, g1) => some g1

/-- Perform a sequence of such calls. -/
def runEditorCalls (env : HostServices) (vstHandle : Nat) :
    Global → List EditorCall → Option Global
  | g, [] => some g
  | g, c :: rest =>
    match c.run env g vstHandle with
    | none => none
    | some g1 => runEditorCalls env vstHandle g1 rest

/-- The instances `p` and `q` agree in the editor-open flag and the idle needs. -/
def SameEditorState (p q : BASS_VST_PLUGIN) : Prop :=
  q.editorIsOpen = p.editorIsOpen ∧ q.needsIdle = p.needsIdle

/-- The helpers of the idle scheduler and the user callbacks leave the
editor-open flag and the idle needs of every instance as they are: a helper that
is handed `this_` returns it with these two fields unchanged, and an instance
that resolves after a user callback resolved before it with the same two
fields. -/
structure KeepsEditorState (env : HostServices) : Prop where
  validateLastValues : ∀ g p, SameEditorState p (env.validateLastValues g p).2.2
  updateIdleTimers : ∀ g p, SameEditorState p (env.updateIdleTimers g p).2
  userProc : ∀ a g h action u v q, (env.userProc a g h action u).g.handles v = some q →
    ∃ p, g.handles v = some p ∧ SameEditorState p q

/-- The editor-idle bit of the instance `vstHandle` is set exactly when its editor
is open. -/
def EditorIdleInv (g : Global) (vstHandle : Nat) : Prop :=
  ∀ q, g.handles vstHandle = some q →
    (q.needsIdle &&& NEEDS_EDIT_IDLE ≠ 0 ↔ q.editorIsOpen = true)

/-- The idle-outside-editor bit of the instance `vstHandle` in `g2` is the one it
had in `g1`. -/
def OutsideBitKept (g1 g2 : Global) (vstHandle : Nat) : Prop :=
  ∀ q, g2.handles vstHandle = some q →
    ∃ p, g1.handles vstHandle = some p
      ∧ q.needsIdle &&& NEEDS_IDLE_OUTSIDE_EDIT = p.needsIdle &&& NEEDS_IDLE_OUTSIDE_EDIT

/-- Whatever the registry of `g2` holds under `vstHandle` comes from what the
registry of `g1` held there, by `R`. -/
def HandleStep (R : BASS_VST_PLUGIN → BASS_VST_PLUGIN → Prop) (vstHandle : Nat)
    (g1 g2 : Global) : Prop :=
  ∀ q, g2.handles vstHandle = some q → ∃ p, g1.handles vstHandle = some p ∧ R p q

/-- The editor of `p` was closed and `q` is `p` with the editor opened: the flag is
set and the editor-idle bit is added to the idle needs. -/
def EditorOpened (p q : BASS_VST_PLUGIN) : Prop :=
  p.editorIsOpen = false ∧ q.editorIsOpen = true
    ∧ q.needsIdle = p.needsIdle ||| NEEDS_EDIT_IDLE

/-- The editor of `p` was open and `q` is `p` with the editor closed: the flag is
cleared and the editor-idle bit is taken from the (32-bit) idle needs. -/
def EditorClosed (p q : BASS_VST_PLUGIN) : Prop :=
  p.editorIsOpen = true ∧ q.editorIsOpen = false
    ∧ q.needsIdle = p.needsIdle &&& (0xFFFFFFFF ^^^ NEEDS_EDIT_IDLE)

/-- The instance `q` is `p` after a need-idle request was granted: the
idle-outside-editor bit is added to the idle needs. -/
def IdleRequested (p q : BASS_VST_PLUGIN) : Prop :=
  q.editorIsOpen = p.editorIsOpen ∧ q.needsIdle = p.needsIdle ||| NEEDS_IDLE_OUTSIDE_EDIT

/-- What one `BASS_VST_EmbedEditor` call does to the editor state of an instance. -/
def EmbedEffect (p q : BASS_VST_PLUGIN) : Prop :=
  SameEditorState p q ∨ EditorOpened p q ∨ EditorClosed p q

/-- What one need-idle request does to the editor state of an instance. -/
def NeedIdleEffect (p q : BASS_VST_PLUGIN) : Prop :=
  SameEditorState p q ∨ IdleRequested p q

/-- An instance of a module with an editor (handle 1, editor closed). -/
def editorModule : VstModule where
  desc := fun _ => { gainDescriptor with effFlagsHasEditor := true }
  dispatcher := fun _ opcode _ _ _ _ =>
    match opcode with
    | Opcode.effEditGetRect =>
      { ret := 1, out := none, rect := some { top := 0, left := 0, bottom := 100, right := 200 } }
    | _ => { ret := 0, out := none, rect := none }
  getParameter := storedParam

/-- A started instance of `editorModule` with handle 1. -/
def closedEditorInstance : BASS_VST_PLUGIN :=
  { startedInstance with aeffect := some editorModule }

/-! ## Partly queued events -/

/-- One or more `queueEventRaw` steps for the messages `msgs`, of which the
sub-sequence `sub` was queued: the queue grows by `sub`; when no error is left
everything was queued, and when an error is left that was not there before,
at least one message is missing.  An error once set stays. -/
structure PartlyQueued (s1 s2 : EventState) (msgs sub : List VstEvent) : Prop where
  step : QueueStep s1 s2
  queued : s2.2.1.queuedEvents = s1.2.1.queuedEvents ++ sub.map some
  sublist : sub.Sublist msgs
  full : s2.2.2 = BassError.BASS_OK → sub = msgs
  missing : s2.2.2 ≠ BassError.BASS_OK → s1.2.2 = BassError.BASS_OK → sub.length < msgs.length
  keep : s1.2.2 ≠ BassError.BASS_OK → s2.2.2 ≠ BassError.BASS_OK

/-- The messages of an event of `BASS_VST_ProcessEvent`, in the order of the
encoding table. -/
def eventMessages (midiCh : Nat) (bassEventId : MidiEventId) (param : Nat) : List VstEvent :=
  (eventBytes midiCh bassEventId param).map (fun t => rawMessage t.1 t.2.1 t.2.2)

/-- The started instance with 510 of the 512 slots of its event buffer used. -/
def nearlyFullInstance : BASS_VST_PLUGIN :=
  { startedInstance with
    midiEventsCurr := some { numEvents := 510,
                             events := fun _ => some (VstEvent.midi 0 true 0x90 60 100) } }

/-! ## Lemmas on the event queue -/

theorem malloc_of_heapOk (g : Global) (h : HeapOk g) :
    (malloc g).1 = true ∧ HeapOk (malloc g).2 ∧ (malloc g).2 = { g with heap := (malloc g).2.heap } := by
  unfold malloc
  cases hg : g.heap with
  | nil => exact ⟨rfl, h, by cases g; simp_all⟩
  | cons b rest =>
    have hb : b = true := h b (by simp [hg])
    refine ⟨hb, ?_, rfl⟩
    intro x hx
    exact h x (by simp [hg, hx])

theorem VstEvents.queued_push (q : VstEvents) (e : VstEvent) :
    (q.push e).queued = q.queued ++ [some e] := by
  unfold VstEvents.queued VstEvents.push
  simp only [List.range_succ, List.map_append, List.map_cons, List.map_nil, Function.update_same]
  congr 1
  apply List.map_congr_left
  intro i hi
  have : i ≠ q.numEvents := Nat.ne_of_lt (List.mem_range.mp hi)
  simp [Function.update_noteq this]

theorem queueEventRaw_midi_appended (g : Global) (this_ : BASS_VST_PLUGIN) (a b c : Nat)
    (err : BassError) (hheap : HeapOk g) (hroom : this_.numQueued < MAX_MIDI_EVENTS) :
    Appended (g, this_, err) (queueEventRaw g this_ a b c none 0 err)
      [VstEvent.midi 0 true (toChar a) (toChar b) (toChar c)] := by
  obtain ⟨hm1, hm2, hm3⟩ := malloc_of_heapOk g hheap
  cases hq : this_.midiEventsCurr with
  | none =>
    have hinit : initMidiEvents g this_ = ((malloc g).2, { this_ with midiEventsCurr := some { numEvents := 0, events := fun _ => none } }) := by
      unfold initMidiEvents
      rw [hq]
      rcases hmg : malloc g with ⟨ok, g1⟩
      rw [hmg] at hm1
      simp at hm1
      subst hm1
      rfl
    obtain ⟨hn1, hn2, hn3⟩ := malloc_of_heapOk _ hm2
    rcases hmg2 : malloc (malloc g).2 with ⟨ok2, g2⟩
    rw [hmg2] at hn1 hn2 hn3
    simp at hn1 hn2 hn3
    subst hn1
    have hpos : ¬ (0 ≥ MAX_MIDI_EVENTS) := by unfold MAX_MIDI_EVENTS; omega
    unfold queueEventRaw
    simp only [hinit, hpos, if_false, hmg2]
    constructor
    · exact hn2
    · simp only; rw [hn3, hm3]
    · rfl
    · rfl
    · simp [BASS_VST_PLUGIN.numQueued, hq, VstEvents.push]
    · simp only [BASS_VST_PLUGIN.queuedEvents, hq, VstEvents.queued_push]
      simp [VstEvents.queued]
  | some q =>
    have hinit : initMidiEvents g this_ = (g, this_) := by
      unfold initMidiEvents
      rw [hq]
    have hlt : ¬ (q.numEvents ≥ MAX_MIDI_EVENTS) := by
      simp [BASS_VST_PLUGIN.numQueued, hq] at hroom
      omega
    unfold queueEventRaw
    simp only [hinit, hq, hlt, if_false]
    cases hslot : q.events q.numEvents with
    | some e0 =>
      simp only
      constructor
      · exact hheap
      · rfl
      · rfl
      · rfl
      · simp [BASS_VST_PLUGIN.numQueued, hq, VstEvents.push]
      · simp [BASS_VST_PLUGIN.queuedEvents, hq, VstEvents.queued_push]
    | none =>
      rcases hmg : malloc g with ⟨ok, g1⟩
      rw [hmg] at hm1 hm2 hm3
      simp at hm1 hm2 hm3
      subst hm1
      simp only
      constructor
      · exact hm2
      · exact hm3
      · rfl
      · rfl
      · simp [BASS_VST_PLUGIN.numQueued, hq, VstEvents.push]
      · simp [BASS_VST_PLUGIN.queuedEvents, hq, VstEvents.queued_push]

theorem appended_trans {s1 s2 s3 : EventState} {m1 m2 : List VstEvent}
    (h12 : Appended s1 s2 m1) (h23 : Appended s2 s3 m2) : Appended s1 s3 (m1 ++ m2) where
  heap := h23.heap
  glob := by rw [h23.glob, h12.glob]
  inst := by rw [h23.inst, h12.inst]
  err := by rw [h23.err, h12.err]
  num := by rw [h23.num, h12.num, List.length_append, Nat.add_assoc]
  queued := by rw [h23.queued, h12.queued, List.map_append, List.append_assoc]

theorem appended_room {s1 s2 : EventState} {m : List VstEvent} (h : Appended s1 s2 m)
    {k : Nat} (hk : s1.2.1.numQueued + m.length + k ≤ MAX_MIDI_EVENTS) (hk0 : 0 < k) :
    s2.2.1.numQueued < MAX_MIDI_EVENTS := by
  rw [h.num]; omega

theorem RAWBYTES_appended (s : EventState) (a b c : Nat) (hheap : HeapOk s.1)
    (hroom : s.2.1.numQueued < MAX_MIDI_EVENTS) :
    Appended s (RAWBYTES s a b c) [VstEvent.midi 0 true (toChar a) (toChar b) (toChar c)] := by
  obtain ⟨g, p, e⟩ := s
  exact queueEventRaw_midi_appended g p a b c e hheap hroom

theorem CONTROLLER_appended (midiCh : Nat) (s : EventState) (b c : Nat) (hheap : HeapOk s.1)
    (hroom : s.2.1.numQueued < MAX_MIDI_EVENTS) :
    Appended s (CONTROLLER midiCh s b c)
      [VstEvent.midi 0 true (toChar (0xB0 + toChar midiCh)) (toChar b) (toChar c)] :=
  RAWBYTES_appended s _ b c hheap hroom

theorem COMMAND_appended (midiCh : Nat) (s : EventState) (a b c : Nat) (hheap : HeapOk s.1)
    (hroom : s.2.1.numQueued < MAX_MIDI_EVENTS) :
    Appended s (COMMAND midiCh s a b c)
      [VstEvent.midi 0 true (toChar (a + toChar midiCh)) (toChar b) (toChar c)] :=
  RAWBYTES_appended s _ b c hheap hroom

theorem refHandle_some (g : Global) (h : Nat) (p : BASS_VST_PLUGIN) (hp : g.handles h = some p) :
    refHandle g h = (some { p with handleUsage := p.handleUsage + 1 },
      g.put h { p with handleUsage := p.handleUsage + 1 }) := by
  unfold refHandle; rw [hp]

theorem refHandle_none (g : Global) (h : Nat) (hp : g.handles h = none) :
    refHandle g h = (none, g) := by
  unfold refHandle; rw [hp]

theorem unrefHandle_put (g : Global) (h : Nat) (p : BASS_VST_PLUGIN) (hl : 1 < p.handleUsage) :
    unrefHandle (g.put h p) h
      = some (true, g.put h { p with handleUsage := p.handleUsage - 1 }) := by
  have hne : ¬ (p.handleUsage - 1 = 0) := by omega
  simp [unrefHandle, Global.put, hne]

theorem finishEvent_appended (g : Global) (h : Nat) (p : BASS_VST_PLUGIN)
    (s2 : EventState) (msgs : List VstEvent) (hlive : 0 < p.handleUsage)
    (happ : Appended (g.put h { p with handleUsage := p.handleUsage + 1 },
      { p with handleUsage := p.handleUsage + 1 }, BassError.BASS_OK) s2 msgs) :
    ∃ g2 p2, finishEvent h s2 = some (true, g2) ∧ EventPost g h p msgs g2 p2 := by
  obtain ⟨g1, p1, e1⟩ := s2
  have he : e1 = BassError.BASS_OK := happ.err
  have hi := happ.inst
  have hg := happ.glob
  simp only at he hi hg
  have hu : p1.handleUsage = p.handleUsage + 1 := by rw [hi]
  have hl1 : 1 < p1.handleUsage := by omega
  unfold finishEvent
  simp only [unrefHandle_put _ h p1 hl1, he, if_true]
  refine ⟨_, { p1 with handleUsage := p1.handleUsage - 1 }, rfl, ?_⟩
  constructor
  · simp [RETURN_SUCCESS, SET_ERROR, Global.put]
    split <;> simp
  · have := happ.queued
    simpa [BASS_VST_PLUGIN.queuedEvents] using this
  · have := happ.num
    simpa [BASS_VST_PLUGIN.numQueued] using this
  · rw [hi]; simp [hu]
  · have := happ.heap
    simp only [RETURN_SUCCESS, SET_ERROR, Global.put, HeapOk] at this ⊢
    split <;> simpa using this
  · intro hb
    rw [hg]
    simp [RETURN_SUCCESS, SET_ERROR, Global.put, hb]
  · intro h2 hne
    rw [hg]
    simp only [RETURN_SUCCESS, SET_ERROR, Global.put]
    split <;> simp [Function.update_noteq hne]

theorem ProcessEvent_appended (g : Global) (h midiCh : Nat) (id : MidiEventId) (param : Nat)
    (p : BASS_VST_PLUGIN) (msgs : List VstEvent)
    (hres : g.handles h = some p) (hlive : 0 < p.handleUsage)
    (happ : Appended (g.put h { p with handleUsage := p.handleUsage + 1 },
        { p with handleUsage := p.handleUsage + 1 }, BassError.BASS_OK)
      (processEventSwitch midiCh id param (g.put h { p with handleUsage := p.handleUsage + 1 },
        { p with handleUsage := p.handleUsage + 1 }, BassError.BASS_OK)) msgs) :
    ∃ g2 p2, BASS_VST_ProcessEvent g h midiCh id param = some (true, g2)
      ∧ EventPost g h p msgs g2 p2 := by
  unfold BASS_VST_ProcessEvent
  rw [refHandle_some g h p hres]
  exact finishEvent_appended g h p _ msgs hlive happ


theorem appended_refl (s : EventState) (hheap : HeapOk s.1) : Appended s s [] where
  heap := hheap
  glob := rfl
  inst := rfl
  err := rfl
  num := rfl
  queued := by simp

theorem foldl_RAWBYTES_appended (l : List (Nat × Nat × Nat)) :
    ∀ (s : EventState), HeapOk s.1 → s.2.1.numQueued + l.length ≤ MAX_MIDI_EVENTS →
      Appended s (l.foldl (fun s t => RAWBYTES s t.1 t.2.1 t.2.2) s)
        (l.map (fun t => rawMessage t.1 t.2.1 t.2.2)) := by
  induction l with
  | nil => intro s hheap _; exact appended_refl s hheap
  | cons t rest ih =>
    intro s hheap hroom
    simp only [List.length_cons] at hroom
    have h1 := RAWBYTES_appended s t.1 t.2.1 t.2.2 hheap (by omega)
    have hn := h1.num
    simp only [List.length_singleton] at hn
    have h2 := ih (RAWBYTES s t.1 t.2.1 t.2.2) h1.heap (by omega)
    exact appended_trans h1 h2

theorem processEventSwitch_eq_foldl (midiCh : Nat) (id : MidiEventId) (param : Nat)
    (s : EventState) (hid : id.supported = true) :
    processEventSwitch midiCh id param s
      = (eventBytes midiCh id param).foldl (fun s t => RAWBYTES s t.1 t.2.1 t.2.2) s := by
  cases id <;> first | rfl | (simp [MidiEventId.supported] at hid)

theorem eventBytes_length (midiCh : Nat) (id : MidiEventId) (param : Nat)
    (hid : id.supported = true) :
    1 ≤ (eventBytes midiCh id param).length ∧ (eventBytes midiCh id param).length ≤ 6 := by
  cases id <;> first | (simp [MidiEventId.supported] at hid; done) | (simp [eventBytes])

/-- A supported event on a live instance with memory and room for its messages is
queued: the call succeeds and appends the messages of the encoding table. -/
theorem ProcessEvent_supported (g : Global) (h midiCh : Nat) (id : MidiEventId) (param : Nat)
    (p : BASS_VST_PLUGIN) (hres : g.handles h = some p) (hlive : 0 < p.handleUsage)
    (hheap : HeapOk g) (hid : id.supported = true)
    (hroom : p.numQueued + (eventBytes midiCh id param).length ≤ MAX_MIDI_EVENTS) :
    ∃ g2 p2, BASS_VST_ProcessEvent g h midiCh id param = some (true, g2)
      ∧ EventPost g h p ((eventBytes midiCh id param).map
          (fun t => rawMessage t.1 t.2.1 t.2.2)) g2 p2 := by
  apply ProcessEvent_appended g h midiCh id param p _ hres hlive
  rw [processEventSwitch_eq_foldl _ _ _ _ hid]
  apply foldl_RAWBYTES_appended
  · exact hheap
  · exact hroom


/-! ## Note events (C1) -/

theorem LOBYTE_word (n v : Nat) (hn : n < 256) : LOBYTE (v * 256 + n) = n := by
  unfold LOBYTE; omega

theorem HIBYTE_word (n v : Nat) (hn : n < 256) (hv : v < 256) : HIBYTE (v * 256 + n) = v := by
  unfold HIBYTE
  rw [Nat.shiftRight_eq_div_pow]
  norm_num
  omega

theorem eventBytes_note (c n v : Nat) (hc : c < 16) (hn : n < 256) (hv : v < 256) :
    (eventBytes c MidiEventId.MIDI_EVENT_NOTE (v * 256 + n)).map
      (fun t => rawMessage t.1 t.2.1 t.2.2) = [noteMessage c n v] := by
  have hcc : toChar c = c := by unfold toChar; omega
  simp only [eventBytes, LOBYTE_word n v hn, HIBYTE_word n v hn hv, hcc, List.map_cons,
    List.map_nil, rawMessage, noteMessage]
  by_cases h0 : v = 0
  · subst h0
    simp only [ne_eq, not_true_eq_false, if_false]
    have h1 : toChar (0x80 + c) = 0x80 + c := by unfold toChar; omega
    have h2 : toChar n = n := by unfold toChar; omega
    have h3 : toChar 64 = 64 := by unfold toChar; omega
    rw [h1, h2, h3]
  · simp only [ne_eq, h0, not_false_eq_true, if_true]
    have h1 : toChar (0x90 + c) = 0x90 + c := by unfold toChar; omega
    have h2 : toChar n = n := by unfold toChar; omega
    have h3 : toChar v = v := by unfold toChar; omega
    rw [h1, h2, h3]

theorem ProcessEvent_note_post (g : Global) (h : Nat) (p : BASS_VST_PLUGIN) (c n v : Nat)
    (hres : g.handles h = some p) (hlive : 0 < p.handleUsage) (hheap : HeapOk g)
    (hroom : p.numQueued < MAX_MIDI_EVENTS) (hc : c < 16) (hn : n < 256) (hv : v < 256) :
    ∃ g2 p2, BASS_VST_ProcessEvent g h c MidiEventId.MIDI_EVENT_NOTE (v * 256 + n)
        = some (true, g2) ∧ EventPost g h p [noteMessage c n v] g2 p2 := by
  have hlen : (eventBytes c MidiEventId.MIDI_EVENT_NOTE (v * 256 + n)).length = 1 := rfl
  obtain ⟨g2, p2, hcall, hpost⟩ := ProcessEvent_supported g h c MidiEventId.MIDI_EVENT_NOTE
    (v * 256 + n) p hres hlive hheap rfl (by rw [hlen]; omega)
  rw [eventBytes_note c n v hc hn hv] at hpost
  exact ⟨g2, p2, hcall, hpost⟩

/-- C1: on a live instance whose queue has room (and with memory available) a
note event on channel `c < 16` with note `n` and velocity `v` is accepted and
appends exactly one record: `[0x90+c, n, v]` for `v ≠ 0`, `[0x80+c, n, 64]` for
`v = 0`; two successive note events append their records in call order. -/
theorem processEvent_note_appends (g : Global) (h : Nat) (p : BASS_VST_PLUGIN) (c n v : Nat)
    (hres : g.handles h = some p) (hlive : 0 < p.handleUsage) (hheap : HeapOk g)
    (hc : c < 16) (hn : n < 256) (hv : v < 256) :
    (p.numQueued < MAX_MIDI_EVENTS →
      ∃ g2 p2, BASS_VST_ProcessEvent g h c MidiEventId.MIDI_EVENT_NOTE (v * 256 + n)
          = some (true, g2)
        ∧ g2.handles h = some p2
        ∧ p2.queuedEvents = p.queuedEvents ++ [some (noteMessage c n v)])
    ∧ (p.numQueued + 2 ≤ MAX_MIDI_EVENTS →
      ∀ c2 n2 v2 : Nat, c2 < 16 → n2 < 256 → v2 < 256 →
      ∃ g1 g2 p2, BASS_VST_ProcessEvent g h c MidiEventId.MIDI_EVENT_NOTE (v * 256 + n)
          = some (true, g1)
        ∧ BASS_VST_ProcessEvent g1 h c2 MidiEventId.MIDI_EVENT_NOTE (v2 * 256 + n2)
          = some (true, g2)
        ∧ g2.handles h = some p2
        ∧ p2.queuedEvents
          = p.queuedEvents ++ [some (noteMessage c n v), some (noteMessage c2 n2 v2)]) := by
  constructor
  · intro hroom
    obtain ⟨g2, p2, hcall, hpost⟩ := ProcessEvent_note_post g h p c n v hres hlive hheap hroom hc hn hv
    exact ⟨g2, p2, hcall, hpost.resolves, by simpa using hpost.queued⟩
  · intro hroom c2 n2 v2 hc2 hn2 hv2
    obtain ⟨g1, p1, hcall1, hpost1⟩ :=
      ProcessEvent_note_post g h p c n v hres hlive hheap (by omega) hc hn hv
    have hlive1 : 0 < p1.handleUsage := by rw [hpost1.inst]; exact hlive
    have hroom1 : p1.numQueued < MAX_MIDI_EVENTS := by
      rw [hpost1.num]; simp only [List.length_singleton]; omega
    obtain ⟨g2, p2, hcall2, hpost2⟩ :=
      ProcessEvent_note_post g1 h p1 c2 n2 v2 hpost1.resolves hlive1 hpost1.heap hroom1 hc2 hn2 hv2
    refine ⟨g1, g2, p2, hcall1, hcall2, hpost2.resolves, ?_⟩
    rw [hpost2.queued, hpost1.queued]
    simp

theorem HeapOk_processWith (p : BASS_VST_PLUGIN) : HeapOk (processWith p) := by
  intro b hb
  simp [processWith] at hb

/-- The scenario of the specification: note on (channel 0, note 60, velocity 100) then
note off (note 60) on the empty queue of a started instance leaves exactly
`[0x90,60,100]` and `[0x80,60,64]`, in this order. -/
theorem processEvent_note_appends_witness :
    ∃ g1 g2 p2,
      BASS_VST_ProcessEvent (processWith startedInstance) 1 0 MidiEventId.MIDI_EVENT_NOTE
          (100 * 256 + 60) = some (true, g1)
      ∧ BASS_VST_ProcessEvent g1 1 0 MidiEventId.MIDI_EVENT_NOTE (0 * 256 + 60) = some (true, g2)
      ∧ g2.handles 1 = some p2
      ∧ p2.queuedEvents
          = [some (VstEvent.midi 0 true 0x90 60 100), some (VstEvent.midi 0 true 0x80 60 64)] :=
  (processEvent_note_appends (processWith startedInstance) 1 startedInstance 0 60 100
    (by rfl) (by decide) (HeapOk_processWith _) (by decide) (by decide) (by decide)).2
    (by decide) 0 60 0 (by decide) (by decide) (by decide)

/-! ## A full queue (C2) -/

/-- C2: when the number of queued events equals `MAX_MIDI_EVENTS`, `queueEventRaw`
(3-byte or sysex) reports `BASS_ERROR_MEM` and changes neither the instance (its
event count and its queued records in particular) nor the process state. -/
theorem queueEventRaw_full (g : Global) (this_ : BASS_VST_PLUGIN) (midi0 midi1 midi2 : Nat)
    (sysexDump : Option (List Nat)) (sysexBytes : Nat) (error : BassError)
    (hfull : this_.numQueued = MAX_MIDI_EVENTS) :
    (queueEventRaw g this_ midi0 midi1 midi2 sysexDump sysexBytes error).2.2
        = BassError.BASS_ERROR_MEM
    ∧ (queueEventRaw g this_ midi0 midi1 midi2 sysexDump sysexBytes error).2.2
        ≠ BassError.BASS_OK
    ∧ (queueEventRaw g this_ midi0 midi1 midi2 sysexDump sysexBytes error).2.1.numQueued
        = this_.numQueued
    ∧ (queueEventRaw g this_ midi0 midi1 midi2 sysexDump sysexBytes error).2.1.queuedEvents
        = this_.queuedEvents
    ∧ (queueEventRaw g this_ midi0 midi1 midi2 sysexDump sysexBytes error).2.1 = this_
    ∧ (queueEventRaw g this_ midi0 midi1 midi2 sysexDump sysexBytes error).1 = g := by
  have key : queueEventRaw g this_ midi0 midi1 midi2 sysexDump sysexBytes error
      = (g, this_, BassError.BASS_ERROR_MEM) := by
    cases hq : this_.midiEventsCurr with
    | none =>
      simp [BASS_VST_PLUGIN.numQueued, hq, MAX_MIDI_EVENTS] at hfull
    | some q =>
      have hn : q.numEvents ≥ MAX_MIDI_EVENTS := by
        simp [BASS_VST_PLUGIN.numQueued, hq] at hfull
        omega
      unfold queueEventRaw initMidiEvents
      simp only [hq, hn, if_true]
  rw [key]
  exact ⟨rfl, fun hne => BassError.noConfusion hne, rfl, rfl, rfl, rfl⟩

/-- A 3-byte event offered to the full buffer of `fullInstance`. -/
theorem queueEventRaw_full_witness :
    (queueEventRaw (processWith fullInstance) fullInstance 0x90 60 100 none 0
        BassError.BASS_OK).2.2 = BassError.BASS_ERROR_MEM
    ∧ (queueEventRaw (processWith fullInstance) fullInstance 0x90 60 100 none 0
        BassError.BASS_OK).2.2 ≠ BassError.BASS_OK
    ∧ (queueEventRaw (processWith fullInstance) fullInstance 0x90 60 100 none 0
        BassError.BASS_OK).2.1.numQueued = fullInstance.numQueued
    ∧ (queueEventRaw (processWith fullInstance) fullInstance 0x90 60 100 none 0
        BassError.BASS_OK).2.1.queuedEvents = fullInstance.queuedEvents
    ∧ (queueEventRaw (processWith fullInstance) fullInstance 0x90 60 100 none 0
        BassError.BASS_OK).2.1 = fullInstance
    ∧ (queueEventRaw (processWith fullInstance) fullInstance 0x90 60 100 none 0
        BassError.BASS_OK).1 = processWith fullInstance :=
  queueEventRaw_full (processWith fullInstance) fullInstance 0x90 60 100 none 0
    BassError.BASS_OK (by rfl)


/-! ## The bound on the queue length (C3) -/

theorem queueStep_refl (s : EventState) : QueueStep s s := ⟨rfl, rfl, fun h => h⟩

theorem queueStep_trans {s1 s2 s3 : EventState} (h12 : QueueStep s1 s2) (h23 : QueueStep s2 s3) :
    QueueStep s1 s3 where
  glob := by rw [h23.glob, h12.glob]
  inst := by rw [h23.inst, h12.inst]
  bound := fun h => h23.bound (h12.bound h)

theorem malloc_glob (g : Global) : (malloc g).2 = { g with heap := (malloc g).2.heap } := by
  unfold malloc
  cases hg : g.heap with
  | nil => cases g; simp_all
  | cons b rest => rfl

theorem queueEventRaw_step (g : Global) (this_ : BASS_VST_PLUGIN) (a b c : Nat)
    (dump : Option (List Nat)) (n : Nat) (err : BassError) :
    QueueStep (g, this_, err) (queueEventRaw g this_ a b c dump n err) := by
  have hinit : QueueStep (g, this_, err) ((initMidiEvents g this_).1, (initMidiEvents g this_).2, err) := by
    unfold initMidiEvents
    cases hq : this_.midiEventsCurr with
    | some q => exact queueStep_refl _
    | none =>
      have hg := malloc_glob g
      rcases hmg : malloc g with ⟨ok, g1⟩
      rw [hmg] at hg
      cases ok
      · exact ⟨hg, rfl, fun h => h⟩
      · refine ⟨hg, rfl, fun _ => ?_⟩
        simp [BASS_VST_PLUGIN.numQueued]
  refine queueStep_trans hinit ?_
  rcases hi : initMidiEvents g this_ with ⟨g1, this1⟩
  unfold queueEventRaw
  simp only [hi]
  cases hq : this1.midiEventsCurr with
  | none => exact ⟨rfl, rfl, fun h => h⟩
  | some q =>
    simp only
    by_cases hfull : q.numEvents ≥ MAX_MIDI_EVENTS
    · simp only [hfull, if_true]; exact ⟨rfl, rfl, fun h => h⟩
    · simp only [hfull, if_false]
      have hpush : ∀ e : VstEvent, ∀ gx : Global, gx = { g1 with heap := gx.heap } →
          QueueStep (g1, this1, err)
            (gx, { this1 with midiEventsCurr := some (q.push e) }, err) := by
        intro e gx hgx
        refine ⟨hgx, rfl, fun _ => ?_⟩
        simp only [BASS_VST_PLUGIN.numQueued, VstEvents.push]
        omega
      have hg := malloc_glob g1
      cases dump with
      | some d =>
        simp only
        rcases hmg : malloc g1 with ⟨ok, g2⟩
        rw [hmg] at hg
        cases ok
        · exact ⟨hg, rfl, fun h => h⟩
        · exact hpush _ g2 hg
      | none =>
        simp only
        cases hslot : q.events q.numEvents with
        | some e0 => exact hpush _ g1 rfl
        | none =>
          simp only
          rcases hmg : malloc g1 with ⟨ok, g2⟩
          rw [hmg] at hg
          cases ok
          · exact ⟨hg, rfl, fun h => h⟩
          · exact hpush _ g2 hg

theorem foldl_RAWBYTES_step (l : List (Nat × Nat × Nat)) :
    ∀ s : EventState, QueueStep s (l.foldl (fun s t => RAWBYTES s t.1 t.2.1 t.2.2) s) := by
  induction l with
  | nil => intro s; exact queueStep_refl s
  | cons t rest ih =>
    intro s
    exact queueStep_trans (queueEventRaw_step s.1 s.2.1 t.1 t.2.1 t.2.2 none 0 s.2.2) (ih _)

theorem processEventSwitch_step (midiCh : Nat) (id : MidiEventId) (param : Nat) (s : EventState) :
    QueueStep s (processEventSwitch midiCh id param s) := by
  by_cases hid : id.supported = true
  · rw [processEventSwitch_eq_foldl _ _ _ _ hid]
    exact foldl_RAWBYTES_step _ s
  · cases id <;> first | (simp [MidiEventId.supported] at hid; done) | exact ⟨rfl, rfl, fun h => h⟩


theorem SET_ERROR_handles (g : Global) (e : BassError) : (SET_ERROR g e).handles = g.handles := by
  unfold SET_ERROR; split <;> rfl

theorem finishEvent_spec (g : Global) (h : Nat) (p : BASS_VST_PLUGIN) (e0 : BassError)
    (s2 : EventState) (hstep : QueueStep (g.put h { p with handleUsage := p.handleUsage + 1 },
      { p with handleUsage := p.handleUsage + 1 }, e0) s2) :
    (∀ r g2, finishEvent h s2 = some (r, g2) →
      ∀ h2 p2, g2.handles h2 = some p2 →
        (h2 ≠ h → g.handles h2 = some p2)
        ∧ (h2 = h → p2 = { p with midiEventsCurr := s2.2.1.midiEventsCurr }))
    ∧ (0 < p.handleUsage → ∃ r g2, finishEvent h s2 = some (r, g2)) := by
  obtain ⟨g1, p1, e1⟩ := s2
  have hi := hstep.inst
  have hg := hstep.glob
  simp only at hi hg
  have hu : p1.handleUsage = p.handleUsage + 1 := by rw [hi]
  have hback : { p1 with handleUsage := p1.handleUsage - 1 }
      = { p with midiEventsCurr := p1.midiEventsCurr } := by
    rw [hi]; simp
  constructor
  · intro r g2 hfin h2 p2 hp2
    unfold finishEvent unrefHandle at hfin
    simp only [Global.put, Function.update_same] at hfin
    split at hfin
    · exact absurd hfin (by simp)
    · rename_i _ r1 g3 hun
      have hg2 : g2.handles = g3.handles := by
        split at hfin
        · simp only [RETURN_SUCCESS, Option.some.injEq, Prod.mk.injEq] at hfin
          rw [← hfin.2, SET_ERROR_handles]
        · simp only [RETURN_ERROR, Option.some.injEq, Prod.mk.injEq] at hfin
          rw [← hfin.2, SET_ERROR_handles]
      rw [hg2] at hp2
      split at hun
      · split at hun
        · exact absurd hun (by simp)
        · simp only [Option.some.injEq, Prod.mk.injEq] at hun
          rw [← hun.2] at hp2
          simp only [Function.update_idem] at hp2
          by_cases hh : h2 = h
          · subst hh; simp at hp2
          · rw [Function.update_noteq hh, hg] at hp2
            simp only [Global.put, Function.update_noteq hh] at hp2
            exact ⟨fun _ => hp2, fun hc => absurd hc hh⟩
      · simp only [Option.some.injEq, Prod.mk.injEq] at hun
        rw [← hun.2] at hp2
        simp only [Function.update_idem] at hp2
        by_cases hh : h2 = h
        · subst hh
          simp only [Function.update_same, Option.some.injEq] at hp2
          refine ⟨fun hc => absurd rfl hc, fun _ => ?_⟩
          rw [← hp2, hback]
        · rw [Function.update_noteq hh, hg] at hp2
          simp only [Global.put, Function.update_noteq hh] at hp2
          exact ⟨fun _ => hp2, fun hc => absurd hc hh⟩
  · intro hlive
    have hl1 : 1 < p1.handleUsage := by omega
    unfold finishEvent
    rw [unrefHandle_put _ h p1 hl1]
    simp only
    split
    · exact ⟨_, _, rfl⟩
    · exact ⟨_, _, rfl⟩


theorem eventTail_spec (g : Global) (h : Nat) (f : EventState → EventState)
    (hf : ∀ s, QueueStep s (f s)) (hb : QueueBounded g) :
    (∀ r g2,
      (match refHandle g h with
        | (none, g1) => some (RETURN_ERROR g1 BassError.BASS_ERROR_HANDLE false)
        | (some this_, g1) => finishEvent h (f (g1, this_, BassError.BASS_OK))) = some (r, g2) →
      QueueBounded g2 ∧ (AllLive g → AllLive g2))
    ∧ (AllLive g → ∃ r g2,
      (match refHandle g h with
        | (none, g1) => some (RETURN_ERROR g1 BassError.BASS_ERROR_HANDLE false)
        | (some this_, g1) => finishEvent h (f (g1, this_, BassError.BASS_OK))) = some (r, g2)) := by
  cases hres : g.handles h with
  | none =>
    rw [refHandle_none g h hres]
    constructor
    · intro r g2 hcall
      simp only [RETURN_ERROR, Option.some.injEq, Prod.mk.injEq] at hcall
      have hh : g2.handles = g.handles := by rw [← hcall.2, SET_ERROR_handles]
      constructor
      · intro h2 p2 hp2; rw [hh] at hp2; exact hb h2 p2 hp2
      · intro hl h2 p2 hp2; rw [hh] at hp2; exact hl h2 p2 hp2
    · intro _; exact ⟨_, _, rfl⟩
  | some p =>
    rw [refHandle_some g h p hres]
    simp only
    have hstep := hf (g.put h { p with handleUsage := p.handleUsage + 1 },
      { p with handleUsage := p.handleUsage + 1 }, BassError.BASS_OK)
    obtain ⟨hinv, htot⟩ := finishEvent_spec g h p BassError.BASS_OK _ hstep
    constructor
    · intro r g2 hcall
      constructor
      · intro h2 p2 hp2
        obtain ⟨hne, heq⟩ := hinv r g2 hcall h2 p2 hp2
        by_cases hh : h2 = h
        · rw [heq hh]
          have := hstep.bound (hb h p hres)
          simpa [BASS_VST_PLUGIN.numQueued] using this
        · exact hb h2 p2 (hne hh)
      · intro hl h2 p2 hp2
        obtain ⟨hne, heq⟩ := hinv r g2 hcall h2 p2 hp2
        by_cases hh : h2 = h
        · rw [heq hh]; exact hl h p hres
        · exact hl h2 p2 (hne hh)
    · intro hl
      exact htot (hl h p hres)

theorem EventCall_run_spec (g : Global) (c : EventCall) (hb : QueueBounded g) :
    (∀ r g2, c.run g = some (r, g2) → QueueBounded g2 ∧ (AllLive g → AllLive g2))
    ∧ (AllLive g → ∃ r g2, c.run g = some (r, g2)) := by
  cases c with
  | processEvent h midiCh id param =>
    exact eventTail_spec g h (processEventSwitch midiCh id param)
      (processEventSwitch_step midiCh id param) hb
  | processEventRaw h ptr pointee param =>
    unfold EventCall.run BASS_VST_ProcessEventRaw
    by_cases hp : param = 0
    · have := eventTail_spec g h
        (fun s => queueEventRaw s.1 s.2.1 (((ptr % 2 ^ 32) &&& 0xFFFFFF) >>> 16)
          ((((ptr % 2 ^ 32) &&& 0xFFFFFF) >>> 8) &&& 0xFF) (((ptr % 2 ^ 32) &&& 0xFFFFFF) &&& 0xFF)
          none 0 s.2.2)
        (fun s => queueEventRaw_step _ _ _ _ _ _ _ _) hb
      simpa only [hp, if_true] using this
    · have := eventTail_spec g h
        (fun s => queueEventRaw s.1 s.2.1 0 0 0 (if ptr = 0 then none else some pointee) param
          s.2.2)
        (fun s => queueEventRaw_step _ _ _ _ _ _ _ _) hb
      simpa only [hp, if_false] using this

theorem runEventCalls_spec (calls : List EventCall) :
    ∀ g : Global, QueueBounded g →
      (∀ g2, runEventCalls g calls = some g2 → QueueBounded g2)
      ∧ (AllLive g → ∃ g2, runEventCalls g calls = some g2) := by
  induction calls with
  | nil =>
    intro g hb
    exact ⟨fun g2 h2 => by simp only [runEventCalls, Option.some.injEq] at h2; rw [← h2]; exact hb,
      fun _ => ⟨g, rfl⟩⟩
  | cons c rest ih =>
    intro g hb
    obtain ⟨hinv, htot⟩ := EventCall_run_spec g c hb
    constructor
    · intro g2 hrun
      unfold runEventCalls at hrun
      cases hc : c.run g with
      | none => rw [hc] at hrun; exact absurd hrun (by simp)
      | some rg =>
        obtain ⟨r, g1⟩ := rg
        rw [hc] at hrun
        exact (ih g1 (hinv r g1 hc).1).1 g2 hrun
    · intro hl
      obtain ⟨r, g1, hc⟩ := htot hl
      obtain ⟨g2, hrun⟩ := (ih g1 (hinv r g1 hc).1).2 ((hinv r g1 hc).2 hl)
      exact ⟨g2, by unfold runEventCalls; rw [hc]; exact hrun⟩

/-- C3: starting from empty queues, after any sequence of `BASS_VST_ProcessEvent`
and `BASS_VST_ProcessEventRaw` calls no instance holds more than
`MAX_MIDI_EVENTS` queued events; and when every instance is referenced by its
creator the sequence runs to its end. -/
theorem queue_length_bounded (g : Global) (calls : List EventCall)
    (hempty : ∀ h p, g.handles h = some p → p.numQueued = 0) :
    (∀ g2, runEventCalls g calls = some g2 →
      ∀ h p, g2.handles h = some p → p.numQueued ≤ MAX_MIDI_EVENTS)
    ∧ (AllLive g → ∃ g2, runEventCalls g calls = some g2) := by
  have hb : QueueBounded g := by
    intro h p hp
    rw [hempty h p hp]
    exact Nat.zero_le _
  exact runEventCalls_spec calls g hb


theorem processWith_handles (q : BASS_VST_PLUGIN) (h : Nat) (p : BASS_VST_PLUGIN)
    (hp : (processWith q).handles h = some p) : h = q.vstHandle ∧ p = q := by
  simp only [processWith] at hp
  split at hp
  · rename_i hh
    exact ⟨hh, by simpa using hp.symm⟩
  · exact absurd hp (by simp)

/-- A note event followed by a raw 3-byte event and a sysex event on the started instance:
the sequence runs and the queue stays within the capacity. -/
theorem queue_length_bounded_witness :
    ∃ g2, runEventCalls (processWith startedInstance)
        [EventCall.processEvent 1 0 MidiEventId.MIDI_EVENT_NOTE (100 * 256 + 60),
         EventCall.processEventRaw 1 0x903C64 [] 0,
         EventCall.processEventRaw 1 1 [0xF0, 0x7E, 0xF7] 3] = some g2
      ∧ ∀ h p, g2.handles h = some p → p.numQueued ≤ MAX_MIDI_EVENTS :=
  have hw := queue_length_bounded (processWith startedInstance)
    [EventCall.processEvent 1 0 MidiEventId.MIDI_EVENT_NOTE (100 * 256 + 60),
     EventCall.processEventRaw 1 0x903C64 [] 0,
     EventCall.processEventRaw 1 1 [0xF0, 0x7E, 0xF7] 3]
    (fun h p hp => by rw [(processWith_handles _ h p hp).2]; rfl)
  (hw.2 (fun h p hp => by rw [(processWith_handles _ h p hp).2]; decide)).elim
    (fun g2 hg2 => ⟨g2, hg2, hw.1 g2 hg2⟩)

/-! ## Number and order of the messages of one event (C4, C5) -/

/-- C4 (counterexample): `MIDI_EVENT_FINETUNE` on the empty queue of the started instance
succeeds and leaves six queued messages, more than four. -/
theorem processEvent_finetune_appends_six :
    (BASS_VST_ProcessEvent (processWith startedInstance) 1 0
        MidiEventId.MIDI_EVENT_FINETUNE 0).map
      (fun r => (r.1, (r.2.handles 1).map (fun p => p.numQueued))) = some (true, some 6)
    ∧ startedInstance.numQueued = 0 ∧ ¬ (6 ≤ startedInstance.numQueued + 4) := by
  decide

/-- C4 (amended): every supported event id, for every channel and parameter, on a
live instance with memory and room for six messages, is accepted and appends at
least one and at most six records, each of them a 3-byte MIDI record. -/
theorem processEvent_appends_one_to_six (g : Global) (h midiCh : Nat) (id : MidiEventId)
    (param : Nat) (p : BASS_VST_PLUGIN) (hres : g.handles h = some p)
    (hlive : 0 < p.handleUsage) (hheap : HeapOk g) (hid : id.supported = true)
    (hroom : p.numQueued + 6 ≤ MAX_MIDI_EVENTS) :
    ∃ (g2 : Global) (p2 : BASS_VST_PLUGIN) (msgs : List VstEvent), BASS_VST_ProcessEvent g h midiCh id param = some (true, g2)
      ∧ g2.handles h = some p2
      ∧ p2.queuedEvents = p.queuedEvents ++ msgs.map some
      ∧ p2.numQueued = p.numQueued + msgs.length
      ∧ 1 ≤ msgs.length ∧ msgs.length ≤ 6
      ∧ ∀ m ∈ msgs, ∃ a b c, m = VstEvent.midi 0 true a b c := by
  obtain ⟨hlen1, hlen6⟩ := eventBytes_length midiCh id param hid
  obtain ⟨g2, p2, hcall, hpost⟩ :=
    ProcessEvent_supported g h midiCh id param p hres hlive hheap hid (by omega)
  refine ⟨g2, p2, _, hcall, hpost.resolves, hpost.queued, hpost.num, ?_, ?_, ?_⟩
  · simpa using hlen1
  · simpa using hlen6
  · intro m hm
    simp only [List.mem_map] at hm
    obtain ⟨t, _, rfl⟩ := hm
    exact ⟨_, _, _, rfl⟩

/-- The program-change event on the started instance appends one record. -/
theorem processEvent_appends_one_to_six_witness :
    ∃ (g2 : Global) (p2 : BASS_VST_PLUGIN) (msgs : List VstEvent), BASS_VST_ProcessEvent (processWith startedInstance) 1 0
          MidiEventId.MIDI_EVENT_PROGRAM 5 = some (true, g2)
      ∧ g2.handles 1 = some p2
      ∧ p2.queuedEvents = startedInstance.queuedEvents ++ msgs.map some
      ∧ p2.numQueued = startedInstance.numQueued + msgs.length
      ∧ 1 ≤ msgs.length ∧ msgs.length ≤ 6
      ∧ ∀ m ∈ msgs, ∃ a b c, m = VstEvent.midi 0 true a b c :=
  processEvent_appends_one_to_six (processWith startedInstance) 1 0
    MidiEventId.MIDI_EVENT_PROGRAM 5 startedInstance (by rfl) (by decide)
    (HeapOk_processWith _) (by rfl) (by decide)


theorem rawMessage_controlChange (c b v : Nat) (hc : c < 16) (hb : b < 256) (hv : v < 256) :
    rawMessage (0xB0 + toChar c) b v = controlChange c b v := by
  unfold rawMessage controlChange toChar
  have h1 : (0xB0 + c % 256) % 256 = 0xB0 + c := by omega
  have h2 : b % 256 = b := by omega
  have h3 : v % 256 = v := by omega
  rw [h1, h2, h3]

theorem and_0x7F (x : Nat) : x &&& 0x7F = x % 128 := Nat.and_pow_two_sub_one_eq_mod x 7

theorem toChar_and_0x7F (x : Nat) : toChar x &&& 0x7F = x &&& 0x7F := by
  rw [and_0x7F, and_0x7F]; unfold toChar; omega

theorem and_0x7F_lt (x : Nat) : x &&& 0x7F < 256 := by
  rw [and_0x7F]; omega

/-- C5: for a channel `c < 16` and any parameter, on a live instance with memory
and room, the registered-parameter events append controller messages on status
`0xB0 + c` in the order select RPN (CC101, CC100), data entry, reset to null
(CC101 = 127, CC100 = 127): `MIDI_EVENT_FINETUNE` appends CC101=0, CC100=1,
CC6=(p>>7)&0x7F, CC38=p&0x7F, CC101=127, CC100=127; `MIDI_EVENT_PITCHRANGE` and
`MIDI_EVENT_COARSETUNE` append CC101=0, CC100=0 (resp. 2), CC6=low byte of p,
CC101=127, CC100=127. -/
theorem processEvent_rpn_sequences (g : Global) (h c param : Nat) (p : BASS_VST_PLUGIN)
    (hres : g.handles h = some p) (hlive : 0 < p.handleUsage) (hheap : HeapOk g)
    (hc : c < 16) (hroom : p.numQueued + 6 ≤ MAX_MIDI_EVENTS) :
    (∃ g2 p2, BASS_VST_ProcessEvent g h c MidiEventId.MIDI_EVENT_FINETUNE param = some (true, g2)
      ∧ g2.handles h = some p2
      ∧ p2.queuedEvents = p.queuedEvents ++
          [some (controlChange c 101 0), some (controlChange c 100 1),
           some (controlChange c 6 ((param >>> 7) &&& 0x7F)),
           some (controlChange c 38 (param &&& 0x7F)),
           some (controlChange c 101 127), some (controlChange c 100 127)])
    ∧ (∃ g2 p2, BASS_VST_ProcessEvent g h c MidiEventId.MIDI_EVENT_PITCHRANGE param
          = some (true, g2)
      ∧ g2.handles h = some p2
      ∧ p2.queuedEvents = p.queuedEvents ++
          [some (controlChange c 101 0), some (controlChange c 100 0),
           some (controlChange c 6 (param % 256)),
           some (controlChange c 101 127), some (controlChange c 100 127)])
    ∧ (∃ g2 p2, BASS_VST_ProcessEvent g h c MidiEventId.MIDI_EVENT_COARSETUNE param
          = some (true, g2)
      ∧ g2.handles h = some p2
      ∧ p2.queuedEvents = p.queuedEvents ++
          [some (controlChange c 101 0), some (controlChange c 100 2),
           some (controlChange c 6 (param % 256)),
           some (controlChange c 101 127), some (controlChange c 100 127)]) := by
  have hlo : param % 256 < 256 := Nat.mod_lt _ (by decide)
  refine ⟨?_, ?_, ?_⟩
  · obtain ⟨g2, p2, hcall, hpost⟩ := ProcessEvent_supported g h c
      MidiEventId.MIDI_EVENT_FINETUNE param p hres hlive hheap rfl
      (by simp only [eventBytes, List.length_cons, List.length_nil]; omega)
    refine ⟨g2, p2, hcall, hpost.resolves, ?_⟩
    rw [hpost.queued]
    simp only [eventBytes, List.map_cons, List.map_nil, toChar_and_0x7F]
    rw [rawMessage_controlChange c 101 0 hc (by decide) (by decide),
      rawMessage_controlChange c 100 1 hc (by decide) (by decide),
      rawMessage_controlChange c 6 _ hc (by decide) (and_0x7F_lt _),
      rawMessage_controlChange c 38 _ hc (by decide) (and_0x7F_lt _),
      rawMessage_controlChange c 101 127 hc (by decide) (by decide),
      rawMessage_controlChange c 100 127 hc (by decide) (by decide)]
  · obtain ⟨g2, p2, hcall, hpost⟩ := ProcessEvent_supported g h c
      MidiEventId.MIDI_EVENT_PITCHRANGE param p hres hlive hheap rfl
      (by simp only [eventBytes, List.length_cons, List.length_nil]; omega)
    refine ⟨g2, p2, hcall, hpost.resolves, ?_⟩
    rw [hpost.queued]
    simp only [eventBytes, List.map_cons, List.map_nil, LOBYTE]
    rw [rawMessage_controlChange c 101 0 hc (by decide) (by decide),
      rawMessage_controlChange c 100 0 hc (by decide) (by decide),
      rawMessage_controlChange c 6 _ hc (by decide) hlo,
      rawMessage_controlChange c 101 127 hc (by decide) (by decide),
      rawMessage_controlChange c 100 127 hc (by decide) (by decide)]
  · obtain ⟨g2, p2, hcall, hpost⟩ := ProcessEvent_supported g h c
      MidiEventId.MIDI_EVENT_COARSETUNE param p hres hlive hheap rfl
      (by simp only [eventBytes, List.length_cons, List.length_nil]; omega)
    refine ⟨g2, p2, hcall, hpost.resolves, ?_⟩
    rw [hpost.queued]
    simp only [eventBytes, List.map_cons, List.map_nil, LOBYTE]
    rw [rawMessage_controlChange c 101 0 hc (by decide) (by decide),
      rawMessage_controlChange c 100 2 hc (by decide) (by decide),
      rawMessage_controlChange c 6 _ hc (by decide) hlo,
      rawMessage_controlChange c 101 127 hc (by decide) (by decide),
      rawMessage_controlChange c 100 127 hc (by decide) (by decide)]

/-- The fine-tune event with parameter `0x2000` (centre) on channel 3 of the
started instance. -/
theorem processEvent_rpn_sequences_witness :
    ∃ g2 p2, BASS_VST_ProcessEvent (processWith startedInstance) 1 3
        MidiEventId.MIDI_EVENT_FINETUNE 0x2000 = some (true, g2)
      ∧ g2.handles 1 = some p2
      ∧ p2.queuedEvents = startedInstance.queuedEvents ++
          [some (controlChange 3 101 0), some (controlChange 3 100 1),
           some (controlChange 3 6 ((0x2000 >>> 7) &&& 0x7F)),
           some (controlChange 3 38 (0x2000 &&& 0x7F)),
           some (controlChange 3 101 127), some (controlChange 3 100 127)] :=
  (processEvent_rpn_sequences (processWith startedInstance) 1 3 0x2000 startedInstance
    (by rfl) (by decide) (HeapOk_processWith _) (by decide) (by decide)).1


/-! ## Invalid handles and parameter indices (C6, C7) -/

theorem Global.put_put (g : Global) (h : Nat) (p q : BASS_VST_PLUGIN) :
    (g.put h p).put h q = g.put h q := by
  simp [Global.put, Function.update_idem]

theorem Global.put_self (g : Global) (h : Nat) (p : BASS_VST_PLUGIN)
    (hres : g.handles h = some p) : g.put h p = g := by
  cases g
  simp only [Global.put, Global.mk.injEq, true_and, and_true]
  simp only at hres
  rw [← hres]
  exact Function.update_eq_self h _

/-- Acquire followed by release of a referenced instance restores the state. -/
theorem unrefHandle_refHandle (g : Global) (h : Nat) (p : BASS_VST_PLUGIN)
    (hres : g.handles h = some p) (hlive : 0 < p.handleUsage) :
    unrefHandle (refHandle g h).2 h = some (true, g) := by
  rw [refHandle_some g h p hres]
  simp only
  rw [unrefHandle_put _ h _ (by simp only; omega)]
  simp only [Global.put_put]
  have hp : ({ p with handleUsage := p.handleUsage + 1 - 1 } : BASS_VST_PLUGIN) = p := by
    cases p; simp
  rw [hp, Global.put_self g h p hres]

theorem SET_ERROR_of_bassfunc (g : Global) (e : BassError) (hb : g.s_bassfunc = true) :
    SET_ERROR g e = { g with lastError := e } := by
  simp [SET_ERROR, hb]

/-- C7: on a handle that the registry does not resolve, each of the listed
operations returns 0 (false, NULL) and sets the last error to
`BASS_ERROR_HANDLE`; the registry, and with it the list of calls made into every
module, is unchanged.  (`BASS_VST_GetChunk` is called with a non-NULL `length`,
which it writes before it looks at the handle.) -/
theorem unresolved_handle_fails (g : Global) (h : Nat) (hun : g.handles h = none)
    (hb : g.s_bassfunc = true) :
    BASS_VST_GetParamCount g h
        = some (0, { g with lastError := BassError.BASS_ERROR_HANDLE })
    ∧ (∀ i, BASS_VST_GetParam g h i
        = some (0, { g with lastError := BassError.BASS_ERROR_HANDLE }))
    ∧ (∀ i v, BASS_VST_SetParam g h i v
        = some (false, { g with lastError := BassError.BASS_ERROR_HANDLE }))
    ∧ (∀ isPreset length, BASS_VST_GetChunk g h isPreset (some length)
        = some ((none, 0), { g with lastError := BassError.BASS_ERROR_HANDLE }))
    ∧ (∀ isPreset chunk length, BASS_VST_SetChunk g h isPreset chunk length
        = some (0, { g with lastError := BassError.BASS_ERROR_HANDLE }))
    ∧ BASS_VST_GetProgram g h
        = some (0, { g with lastError := BassError.BASS_ERROR_HANDLE })
    ∧ (∀ i, BASS_VST_SetProgram g h i
        = some (false, { g with lastError := BassError.BASS_ERROR_HANDLE }))
    ∧ (∀ b, BASS_VST_SetBypass g h b
        = some (false, { g with lastError := BassError.BASS_ERROR_HANDLE }))
    ∧ BASS_VST_Resume g h
        = some (false, { g with lastError := BassError.BASS_ERROR_HANDLE })
    ∧ (∀ midiCh id param, BASS_VST_ProcessEvent g h midiCh id param
        = some (false, { g with lastError := BassError.BASS_ERROR_HANDLE }))
    ∧ (∀ ptr pointee param, BASS_VST_ProcessEventRaw g h ptr pointee param
        = some (false, { g with lastError := BassError.BASS_ERROR_HANDLE }))
    ∧ (∀ opCode index value ptr opt, BASS_VST_Dispatcher g h opCode index value ptr opt
        = some (0, { g with lastError := BassError.BASS_ERROR_HANDLE })) := by
  have hr := refHandle_none g h hun
  have he := SET_ERROR_of_bassfunc g BassError.BASS_ERROR_HANDLE hb
  refine ⟨?_, ?_, ?_, ?_, ?_, ?_, ?_, ?_, ?_, ?_, ?_, ?_⟩
  · simp only [BASS_VST_GetParamCount, hr, RETURN_ERROR, he]
  · intro i; simp only [BASS_VST_GetParam, refHandle_checkParamIndex, hr, RETURN_ERROR, he]
  · intro i v; simp only [BASS_VST_SetParam, refHandle_checkParamIndex, hr, RETURN_ERROR, he]
  · intro b len; simp only [BASS_VST_GetChunk, getChunkBody, hr, RETURN_ERROR, he]
  · intro b c l; simp only [BASS_VST_SetChunk, hr, RETURN_ERROR, he]
  · simp only [BASS_VST_GetProgram, hr, RETURN_ERROR, he]
  · intro i; simp only [BASS_VST_SetProgram, refHandle_checkProgramIndex, hr, RETURN_ERROR, he]
  · intro b; simp only [BASS_VST_SetBypass, hr, RETURN_ERROR, he]
  · simp only [BASS_VST_Resume, hr, RETURN_ERROR, he]
  · intro c id param; simp only [BASS_VST_ProcessEvent, hr, RETURN_ERROR, he]
  · intro ptr pointee param; simp only [BASS_VST_ProcessEventRaw, hr, RETURN_ERROR, he]
  · intro o i v ptr opt; simp only [BASS_VST_Dispatcher, hr, RETURN_ERROR, he]

/-- Handle 7 was never created in the process that holds the started instance
under handle 1. -/
theorem unresolved_handle_fails_witness :
    BASS_VST_GetParamCount (processWith startedInstance) 7
        = some (0, { processWith startedInstance with lastError := BassError.BASS_ERROR_HANDLE })
    ∧ BASS_VST_Resume (processWith startedInstance) 7
        = some (false,
            { processWith startedInstance with lastError := BassError.BASS_ERROR_HANDLE }) :=
  have hw := unresolved_handle_fails (processWith startedInstance) 7 (by rfl) (by rfl)
  ⟨hw.1, hw.2.2.2.2.2.2.2.2.1⟩


theorem checkIndexFail_refHandle (g : Global) (h : Nat) (p : BASS_VST_PLUGIN)
    (hres : g.handles h = some p) (hlive : 0 < p.handleUsage) :
    checkIndexFail (refHandle g h).2 h = some (none, g) := by
  unfold checkIndexFail
  rw [unrefHandle_refHandle g h p hres hlive]

theorem aeff_of_aeffect (p : BASS_VST_PLUGIN) (m : VstModule) (hm : p.aeffect = some m) :
    p.aeff = some (m.desc p.calls) := by
  unfold BASS_VST_PLUGIN.aeff; rw [hm]

theorem checkParamIndex_out_of_range (g : Global) (h : Nat) (p : BASS_VST_PLUGIN)
    (m : VstModule) (i : Int) (hres : g.handles h = some p) (hlive : 0 < p.handleUsage)
    (hm : p.aeffect = some m) (hi : i < 0 ∨ (m.desc p.calls).numParams ≤ i) :
    refHandle_checkParamIndex g h i = some (none, g) := by
  have hfail := checkIndexFail_refHandle g h p hres hlive
  rw [refHandle_some g h p hres] at hfail
  unfold refHandle_checkParamIndex
  rw [refHandle_some g h p hres]
  simp only
  by_cases hneg : i < 0
  · simp only [hneg, if_true]; exact hfail
  · have hge : i ≥ (m.desc p.calls).numParams := by
      rcases hi with h1 | h1
      · exact absurd h1 hneg
      · exact h1
    have ha : ({ p with handleUsage := p.handleUsage + 1 } : BASS_VST_PLUGIN).aeff
        = some (m.desc p.calls) := aeff_of_aeffect _ m hm
    simp only [hneg, if_false, ha, hge, true_or, if_true]
    exact hfail

/-- C6 (counterexample): on the started instance, whose module has two parameters,
index 2 makes `BASS_VST_GetParam`, `BASS_VST_SetParam` and `BASS_VST_GetParamInfo`
fail with `BASS_ERROR_HANDLE`, which is not `BASS_ERROR_ILLPARAM`. -/
theorem param_index_error_is_handle :
    (BASS_VST_GetParam (processWith startedInstance) 1 2).map (fun r => r.2.lastError)
        = some BassError.BASS_ERROR_HANDLE
    ∧ (BASS_VST_SetParam (processWith startedInstance) 1 2 (3 / 4)).map
        (fun r => (r.1, r.2.lastError)) = some (false, BassError.BASS_ERROR_HANDLE)
    ∧ (BASS_VST_GetParamInfo (processWith startedInstance) 1 2 (some { defaultValue := 0 })).map
        (fun r => (r.1.1, r.2.lastError)) = some (false, BassError.BASS_ERROR_HANDLE)
    ∧ BassError.BASS_ERROR_HANDLE ≠ BassError.BASS_ERROR_ILLPARAM := by
  decide

/-- C6 (amended): for a resolvable, referenced instance and a parameter index that
is negative or not below the module's parameter count, `BASS_VST_GetParam`,
`BASS_VST_SetParam` and `BASS_VST_GetParamInfo` (with a non-NULL `info`) return 0 with
last error `BASS_ERROR_HANDLE` and leave the state, in particular the list of
calls made into the module, unchanged; `BASS_VST_GetParamInfo` with a NULL `info`
fails with `BASS_ERROR_ILLPARAM`. -/
theorem param_index_out_of_range (g : Global) (h : Nat) (p : BASS_VST_PLUGIN) (m : VstModule)
    (i : Int) (hres : g.handles h = some p) (hlive : 0 < p.handleUsage)
    (hb : g.s_bassfunc = true) (hm : p.aeffect = some m)
    (hi : i < 0 ∨ (m.desc p.calls).numParams ≤ i) :
    BASS_VST_GetParam g h i = some (0, { g with lastError := BassError.BASS_ERROR_HANDLE })
    ∧ (∀ v, BASS_VST_SetParam g h i v
        = some (false, { g with lastError := BassError.BASS_ERROR_HANDLE }))
    ∧ (∀ info, BASS_VST_GetParamInfo g h i (some info)
        = some ((false, some info), { g with lastError := BassError.BASS_ERROR_HANDLE }))
    ∧ BASS_VST_GetParamInfo g h i none
        = some ((false, none), { g with lastError := BassError.BASS_ERROR_ILLPARAM }) := by
  have hc := checkParamIndex_out_of_range g h p m i hres hlive hm hi
  have he := SET_ERROR_of_bassfunc g BassError.BASS_ERROR_HANDLE hb
  have he2 := SET_ERROR_of_bassfunc g BassError.BASS_ERROR_ILLPARAM hb
  refine ⟨?_, ?_, ?_, ?_⟩
  · simp only [BASS_VST_GetParam, hc, RETURN_ERROR, he]
  · intro v; simp only [BASS_VST_SetParam, hc, RETURN_ERROR, he]
  · intro info; simp only [BASS_VST_GetParamInfo, hc, RETURN_ERROR, he]
  · simp only [BASS_VST_GetParamInfo, RETURN_ERROR, he2]

/-- Index 2 and index -1 on the started instance (two parameters). -/
theorem param_index_out_of_range_witness :
    BASS_VST_GetParam (processWith startedInstance) 1 2
        = some (0, { processWith startedInstance with
                      lastError := BassError.BASS_ERROR_HANDLE })
    ∧ BASS_VST_GetParam (processWith startedInstance) 1 (-1)
        = some (0, { processWith startedInstance with
                      lastError := BassError.BASS_ERROR_HANDLE }) :=
  ⟨(param_index_out_of_range (processWith startedInstance) 1 startedInstance gainModule 2
      (by rfl) (by decide) (by rfl) (by rfl) (Or.inr (by decide))).1,
   (param_index_out_of_range (processWith startedInstance) 1 startedInstance gainModule (-1)
      (by rfl) (by decide) (by rfl) (by rfl) (Or.inl (by decide))).1⟩


/-! ## Bypass (C10) -/

theorem callDispatcher_eq (p : BASS_VST_PLUGIN) (m : VstModule) (op : Opcode) (i v : Int)
    (ptr : Option (List Nat)) (opt : Rat) (hm : p.aeffect = some m)
    (hd : (m.desc p.calls).dispatcher = true) :
    callDispatcher p op i v ptr opt
      = some (m.dispatcher p.calls op i v ptr opt,
          { p with calls := p.calls ++ [VstCall.dispatcher op i v ptr opt] }) := by
  unfold callDispatcher
  rw [hm]
  simp only [hd, if_true]

/-- The end of a public function on a referenced instance: write `q` back and
release the handle. -/
theorem release_after (g : Global) (h : Nat) (p0 q : BASS_VST_PLUGIN)
    (hq : 1 < q.handleUsage) :
    unrefHandle ((g.put h p0).put h q) h
      = some (true, g.put h { q with handleUsage := q.handleUsage - 1 }) := by
  rw [Global.put_put, unrefHandle_put _ h q hq]

theorem SetBypass_started (g : Global) (h : Nat) (p q : BASS_VST_PLUGIN) (b : Int)
    (hres : g.handles h = some p) (hlive : 0 < p.handleUsage)
    (hstart : p.effStartProcessCalled = true)
    (hbody : setBypassBody { p with handleUsage := p.handleUsage + 1 } b = some q)
    (hq : q.handleUsage = p.handleUsage + 1) :
    BASS_VST_SetBypass g h b
      = some (true, SET_ERROR (g.put h { q with handleUsage := p.handleUsage })
          BassError.BASS_OK) := by
  unfold BASS_VST_SetBypass
  rw [refHandle_some g h p hres]
  have hs : ({ p with handleUsage := p.handleUsage + 1 } : BASS_VST_PLUGIN).effStartProcessCalled
      = true := hstart
  have hq1 : 1 < q.handleUsage := by omega
  have hq2 : q.handleUsage - 1 = p.handleUsage := by omega
  generalize ({ p with handleUsage := p.handleUsage + 1 } : BASS_VST_PLUGIN) = p0 at hs hbody ⊢
  simp only [hs, hbody, Bool.true_eq_false, if_false, release_after g h p0 q hq1, hq2]
  rfl

theorem GetBypass_live (g : Global) (h : Nat) (p : BASS_VST_PLUGIN)
    (hres : g.handles h = some p) (hlive : 0 < p.handleUsage) :
    BASS_VST_GetBypass g h = some (p.doBypass, SET_ERROR g BassError.BASS_OK) := by
  have hu := unrefHandle_refHandle g h p hres hlive
  unfold BASS_VST_GetBypass
  rw [refHandle_some g h p hres] at hu ⊢
  simp only [hu]
  rfl

theorem SetBypass_on (g : Global) (h : Nat) (p : BASS_VST_PLUGIN) (m : VstModule)
    (hres : g.handles h = some p) (hlive : 0 < p.handleUsage)
    (hstart : p.effStartProcessCalled = true) (hoff : p.doBypass = 0)
    (hm : p.aeffect = some m) (hd : ∀ t, (m.desc t).dispatcher = true) :
    ∃ g1, BASS_VST_SetBypass g h 1 = some (true, g1)
      ∧ g1.handles h = some { p with
          doBypass := 1,
          calls := p.calls ++ [VstCall.dispatcher Opcode.effMainsChanged 0 0 none 0] } := by
  have hbody : setBypassBody { p with handleUsage := p.handleUsage + 1 } 1
      = some { p with
          handleUsage := p.handleUsage + 1, doBypass := 1,
          calls := p.calls ++ [VstCall.dispatcher Opcode.effMainsChanged 0 0 none 0] } := by
    unfold setBypassBody
    simp only [hoff, ne_eq, one_ne_zero, not_false_eq_true, if_true]
    rw [callDispatcher_eq _ m _ _ _ _ _ (by exact hm) (hd _)]
  refine ⟨_, SetBypass_started g h p _ 1 hres hlive hstart hbody rfl, ?_⟩
  simp only [SET_ERROR_handles, Global.put, Function.update_same]

theorem SetBypass_off (g : Global) (h : Nat) (p : BASS_VST_PLUGIN) (m : VstModule)
    (hres : g.handles h = some p) (hlive : 0 < p.handleUsage)
    (hstart : p.effStartProcessCalled = true) (hon : p.doBypass = 1)
    (hm : p.aeffect = some m) (hd : ∀ t, (m.desc t).dispatcher = true) :
    ∃ g1, BASS_VST_SetBypass g h 0 = some (true, g1)
      ∧ g1.handles h = some { p with
          doBypass := 0,
          calls := p.calls ++ [VstCall.dispatcher Opcode.effMainsChanged 0 1 none 0] } := by
  have hbody : setBypassBody { p with handleUsage := p.handleUsage + 1 } 0
      = some { p with
          handleUsage := p.handleUsage + 1, doBypass := 0,
          calls := p.calls ++ [VstCall.dispatcher Opcode.effMainsChanged 0 1 none 0] } := by
    unfold setBypassBody
    simp only [hon, ne_eq, zero_ne_one, not_false_eq_true, if_true, not_true_eq_false, if_false]
    rw [callDispatcher_eq _ m _ _ _ _ _ (by exact hm) (hd _)]
  refine ⟨_, SetBypass_started g h p _ 0 hres hlive hstart hbody rfl, ?_⟩
  simp only [SET_ERROR_handles, Global.put, Function.update_same]

/-- C10: on a started, referenced instance that is not bypassed,
`BASS_VST_SetBypass(true)` followed by `BASS_VST_SetBypass(false)` both succeed;
together they send the module exactly `effMainsChanged` with value 0 (suspend)
and then `effMainsChanged` with value 1 (resume), change nothing else of the instance,
and `BASS_VST_GetBypass` reports false afterwards. -/
theorem setBypass_toggle (g : Global) (h : Nat) (p : BASS_VST_PLUGIN) (m : VstModule)
    (hres : g.handles h = some p) (hlive : 0 < p.handleUsage)
    (hstart : p.effStartProcessCalled = true) (hoff : p.doBypass = 0)
    (hm : p.aeffect = some m) (hd : ∀ t, (m.desc t).dispatcher = true) :
    ∃ g1 g2 g3,
      BASS_VST_SetBypass g h 1 = some (true, g1)
      ∧ BASS_VST_SetBypass g1 h 0 = some (true, g2)
      ∧ g2.handles h = some { p with calls := p.calls ++
          [VstCall.dispatcher Opcode.effMainsChanged 0 0 none 0,
           VstCall.dispatcher Opcode.effMainsChanged 0 1 none 0] }
      ∧ BASS_VST_GetBypass g2 h = some (0, g3) := by
  obtain ⟨g1, hcall1, hres1⟩ := SetBypass_on g h p m hres hlive hstart hoff hm hd
  obtain ⟨g2, hcall2, hres2⟩ := SetBypass_off g1 h _ m hres1 hlive hstart rfl hm hd
  have hp2 : ({ ({ p with
        doBypass := 1,
        calls := p.calls ++ [VstCall.dispatcher Opcode.effMainsChanged 0 0 none 0] }
        : BASS_VST_PLUGIN) with
      doBypass := 0,
      calls := (p.calls ++ [VstCall.dispatcher Opcode.effMainsChanged 0 0 none 0])
        ++ [VstCall.dispatcher Opcode.effMainsChanged 0 1 none 0] } : BASS_VST_PLUGIN)
      = { p with calls := p.calls ++ [VstCall.dispatcher Opcode.effMainsChanged 0 0 none 0,
            VstCall.dispatcher Opcode.effMainsChanged 0 1 none 0] } := by
    cases p
    simp only at hoff
    simp [hoff]
  rw [hp2] at hres2
  have h3 := GetBypass_live g2 h _ hres2 hlive
  simp only [hoff] at h3
  exact ⟨g1, g2, _, hcall1, hcall2, hres2, h3⟩

/-- The started instance: bypass on, then off. -/
theorem setBypass_toggle_witness :
    ∃ g1 g2 g3,
      BASS_VST_SetBypass (processWith startedInstance) 1 1 = some (true, g1)
      ∧ BASS_VST_SetBypass g1 1 0 = some (true, g2)
      ∧ g2.handles 1 = some { startedInstance with calls := startedInstance.calls ++
          [VstCall.dispatcher Opcode.effMainsChanged 0 0 none 0,
           VstCall.dispatcher Opcode.effMainsChanged 0 1 none 0] }
      ∧ BASS_VST_GetBypass g2 1 = some (0, g3) :=
  setBypass_toggle (processWith startedInstance) 1 startedInstance gainModule
    (by rfl) (by decide) (by rfl) (by rfl) (by rfl) (fun _ => rfl)



/-! ## Setting and reading a parameter (C8) -/

theorem storesParams_gainModule : StoresParams gainModule where
  getParameter_ptr := fun _ => rfl
  setParameter_ptr := fun _ => rfl
  count_set := fun _ _ _ => rfl
  count_get := fun _ _ => rfl
  get_after_set := by
    intro t i v j
    show storedParam (t ++ [VstCall.setParameter i v]) j = _
    unfold storedParam
    rw [List.foldl_append]
    simp only [List.foldl_cons, List.foldl_nil]
    by_cases hij : j = i
    · simp [hij]
    · have : ¬ i = j := fun hc => hij hc.symm
      simp [hij, this]
      rfl
  get_after_get := by
    intro t i j
    show storedParam (t ++ [VstCall.getParameter i]) j = storedParam t j
    unfold storedParam
    rw [List.foldl_append]
    rfl

theorem callGetParameter_eq (p : BASS_VST_PLUGIN) (m : VstModule) (i : Int)
    (hm : p.aeffect = some m) (hd : (m.desc p.calls).getParameter = true) :
    callGetParameter p i
      = some (m.getParameter p.calls i, { p with calls := p.calls ++ [VstCall.getParameter i] }) := by
  unfold callGetParameter
  rw [hm]
  simp only [hd, if_true]

theorem callSetParameter_eq (p : BASS_VST_PLUGIN) (m : VstModule) (i : Int) (v : Rat)
    (hm : p.aeffect = some m) (hd : (m.desc p.calls).setParameter = true) :
    callSetParameter p i v
      = some { p with calls := p.calls ++ [VstCall.setParameter i v] } := by
  unfold callSetParameter
  rw [hm]
  simp only [hd, if_true]

theorem checkParamIndex_valid (g : Global) (h : Nat) (p : BASS_VST_PLUGIN) (m : VstModule)
    (i : Int) (hres : g.handles h = some p) (hm : p.aeffect = some m)
    (hget : (m.desc p.calls).getParameter = true) (hset : (m.desc p.calls).setParameter = true)
    (hi0 : 0 ≤ i) (hi : i < (m.desc p.calls).numParams) :
    refHandle_checkParamIndex g h i
      = some (some { p with handleUsage := p.handleUsage + 1 },
          g.put h { p with handleUsage := p.handleUsage + 1 }) := by
  unfold refHandle_checkParamIndex
  rw [refHandle_some g h p hres]
  have ha : ({ p with handleUsage := p.handleUsage + 1 } : BASS_VST_PLUGIN).aeff
      = some (m.desc p.calls) := aeff_of_aeffect _ m hm
  have h1 : ¬ i < 0 := by omega
  have h2 : ¬ i ≥ (m.desc p.calls).numParams := by omega
  simp only [h1, if_false, ha, h2, hget, hset, Bool.true_eq_false, or_self, if_false]

theorem GetParam_valid (g : Global) (h : Nat) (p : BASS_VST_PLUGIN) (m : VstModule)
    (i : Int) (hres : g.handles h = some p) (hlive : 0 < p.handleUsage)
    (hm : p.aeffect = some m)
    (hget : (m.desc p.calls).getParameter = true) (hset : (m.desc p.calls).setParameter = true)
    (hi0 : 0 ≤ i) (hi : i < (m.desc p.calls).numParams) :
    BASS_VST_GetParam g h i
      = some (m.getParameter p.calls i,
          SET_ERROR (g.put h { p with calls := p.calls ++ [VstCall.getParameter i] })
            BassError.BASS_OK) := by
  unfold BASS_VST_GetParam
  rw [checkParamIndex_valid g h p m i hres hm hget hset hi0 hi]
  simp only
  rw [callGetParameter_eq _ m i (by exact hm) (by exact hget)]
  simp only
  rw [release_after g h _ _ (by simp only; omega)]
  simp only [Nat.add_sub_cancel]
  rfl


theorem lastValues_write (p : BASS_VST_PLUGIN) (i : Int) (v : Rat) (hi0 : 0 ≤ i)
    (hok : LastValuesOk p) :
    ∃ lv, (if p.editorIsOpen = true ∧ i < p.numLastValues
        then (writeArray p.lastValues i v).map (fun l => { p with lastValues := some l })
        else some p) = some { p with lastValues := lv }
      ∧ LastValuesOk { p with lastValues := lv } := by
  by_cases hc : p.editorIsOpen = true ∧ i < p.numLastValues
  · obtain ⟨l, hl, hlen⟩ := hok hc.1
    refine ⟨some (l.set i.toNat v), ?_, ?_⟩
    · have h1 : ¬ (i < 0 ∨ (l.length : Int) ≤ i) := by omega
      simp only [hc, and_self, if_true, writeArray, hl, h1, if_false, Option.map_some']
    · intro _
      exact ⟨_, rfl, by simpa using hlen⟩
  · refine ⟨p.lastValues, ?_, ?_⟩
    · simp only [hc, if_false]
    · exact hok

theorem SetParam_valid (g : Global) (h : Nat) (p : BASS_VST_PLUGIN) (m : VstModule)
    (i : Int) (v : Rat) (hres : g.handles h = some p) (hlive : 0 < p.handleUsage)
    (hm : p.aeffect = some m)
    (hget : (m.desc p.calls).getParameter = true) (hset : (m.desc p.calls).setParameter = true)
    (hi0 : 0 ≤ i) (hi : i < (m.desc p.calls).numParams) (hok : LastValuesOk p) :
    ∃ lv, BASS_VST_SetParam g h i v
      = some (true, SET_ERROR (g.put h
          { p with calls := p.calls ++ [VstCall.setParameter i v], lastValues := lv })
          BassError.BASS_OK)
      ∧ LastValuesOk { p with calls := p.calls ++ [VstCall.setParameter i v], lastValues := lv } := by
  have hok1 : LastValuesOk { p with handleUsage := p.handleUsage + 1 } := hok
  obtain ⟨lv, hw, hlv⟩ := lastValues_write { p with handleUsage := p.handleUsage + 1 } i v hi0 hok1
  refine ⟨lv, ?_, hlv⟩
  unfold BASS_VST_SetParam
  rw [checkParamIndex_valid g h p m i hres hm hget hset hi0 hi]
  simp only
  rw [hw]
  simp only
  rw [callSetParameter_eq _ m i v (by exact hm) (by exact hset)]
  simp only
  rw [release_after g h _ _ (by simp only; omega)]
  simp only [Nat.add_sub_cancel]
  rfl

theorem SET_ERROR_lastError (g : Global) (e : BassError) (hb : g.s_bassfunc = true) :
    (SET_ERROR g e).lastError = e := by
  simp [SET_ERROR, hb]

theorem SET_ERROR_bassfunc (g : Global) (e : BassError) :
    (SET_ERROR g e).s_bassfunc = g.s_bassfunc := by
  unfold SET_ERROR; split <;> rfl

theorem SET_ERROR_put_handles (g : Global) (h : Nat) (p : BASS_VST_PLUGIN) (e : BassError) :
    (SET_ERROR (g.put h p) e).handles h = some p := by
  simp only [SET_ERROR_handles, Global.put, Function.update_same]

/-- C8: for a resolvable, referenced instance of a module that stores parameter
values faithfully and a valid index `i`, `BASS_VST_SetParam(h, i, v)` succeeds with
last error `BASS_OK`, a following `BASS_VST_GetParam(h, i)` returns `v` with
last error `BASS_OK`, and every other valid parameter reads the same value after
the set as before it. -/
theorem setParam_then_getParam (g : Global) (h : Nat) (p : BASS_VST_PLUGIN) (m : VstModule)
    (i : Int) (v : Rat) (hres : g.handles h = some p) (hlive : 0 < p.handleUsage)
    (hb : g.s_bassfunc = true) (hm : p.aeffect = some m) (hs : StoresParams m)
    (hi0 : 0 ≤ i) (hi : i < (m.desc p.calls).numParams) (hok : LastValuesOk p) :
    ∃ g1 g2, BASS_VST_SetParam g h i v = some (true, g1)
      ∧ g1.lastError = BassError.BASS_OK
      ∧ BASS_VST_GetParam g1 h i = some (v, g2)
      ∧ g2.lastError = BassError.BASS_OK
      ∧ ∀ j : Int, 0 ≤ j → j < (m.desc p.calls).numParams → j ≠ i →
          ∃ x ga gb, BASS_VST_GetParam g h j = some (x, ga)
            ∧ BASS_VST_GetParam g1 h j = some (x, gb) := by
  obtain ⟨lv, hset, _⟩ := SetParam_valid g h p m i v hres hlive hm
    (hs.getParameter_ptr _) (hs.setParameter_ptr _) hi0 hi hok
  have hcount := hs.count_set p.calls i v
  have hget1 : ∀ j : Int, 0 ≤ j → j < (m.desc p.calls).numParams →
      BASS_VST_GetParam (SET_ERROR (g.put h
          { p with calls := p.calls ++ [VstCall.setParameter i v], lastValues := lv })
          BassError.BASS_OK) h j
        = some (m.getParameter (p.calls ++ [VstCall.setParameter i v]) j,
            SET_ERROR ((SET_ERROR (g.put h
              { p with calls := p.calls ++ [VstCall.setParameter i v], lastValues := lv })
              BassError.BASS_OK).put h
                { p with calls := (p.calls ++ [VstCall.setParameter i v])
                            ++ [VstCall.getParameter j], lastValues := lv })
              BassError.BASS_OK) := by
    intro j hj0 hj
    exact GetParam_valid _ h _ m j (SET_ERROR_put_handles _ _ _ _) hlive hm
      (hs.getParameter_ptr _) (hs.setParameter_ptr _) hj0 (by simp only [hcount]; exact hj)
  have hb1 : (SET_ERROR (g.put h
      { p with calls := p.calls ++ [VstCall.setParameter i v], lastValues := lv })
      BassError.BASS_OK).s_bassfunc = true := by
    rw [SET_ERROR_bassfunc]; exact hb
  have hgi := hget1 i hi0 hi
  rw [hs.get_after_set] at hgi
  simp only [if_true] at hgi
  refine ⟨_, _, hset, ?_, hgi, ?_, ?_⟩
  · exact SET_ERROR_lastError _ _ hb
  · exact SET_ERROR_lastError _ _ hb1
  · intro j hj0 hj hne
    have hgj := hget1 j hj0 hj
    rw [hs.get_after_set] at hgj
    simp only [hne, if_false] at hgj
    exact ⟨m.getParameter p.calls j, _, _,
      GetParam_valid g h p m j hres hlive hm (hs.getParameter_ptr _) (hs.setParameter_ptr _)
        hj0 hj, hgj⟩

theorem lastValuesOk_startedInstance : LastValuesOk startedInstance := by
  intro hopen
  exact absurd hopen (by decide)

/-- The scenario of the specification: set parameter 0 of the started instance to
0.75, then read it. -/
theorem setParam_then_getParam_witness :
    ∃ g1 g2, BASS_VST_SetParam (processWith startedInstance) 1 0 (3 / 4) = some (true, g1)
      ∧ g1.lastError = BassError.BASS_OK
      ∧ BASS_VST_GetParam g1 1 0 = some (3 / 4, g2)
      ∧ g2.lastError = BassError.BASS_OK
      ∧ ∀ j : Int, 0 ≤ j → j < (gainModule.desc startedInstance.calls).numParams → j ≠ 0 →
          ∃ x ga gb, BASS_VST_GetParam (processWith startedInstance) 1 j = some (x, ga)
            ∧ BASS_VST_GetParam g1 1 j = some (x, gb) :=
  setParam_then_getParam (processWith startedInstance) 1 startedInstance gainModule 0 (3 / 4)
    (by rfl) (by decide) (by rfl) (by rfl) storesParams_gainModule (by decide) (by decide)
    lastValuesOk_startedInstance


/-! ## The default-value snapshot of `loadVstLibrary` (C9) -/

/-- The calls `getParameter(k)`, …, `getParameter(k+n-1)`. -/
theorem get_after_gets (m : VstModule) (hs : StoresParams m) (t : List VstCall) (j : Int) :
    ∀ (n k : Nat),
      m.getParameter (t ++ snapshotCalls k n) j
        = m.getParameter t j := by
  intro n
  induction n generalizing t with
  | zero => intro k; simp [snapshotCalls]
  | succ n ih =>
    intro k
    have hc : snapshotCalls k (n + 1)
        = [VstCall.getParameter (Int.ofNat k)] ++ snapshotCalls (k + 1) n := by
      simp [snapshotCalls, List.range'_succ]
    rw [hc, ← List.append_assoc, ih, hs.get_after_get]

/-- C11: for a resolvable, referenced instance whose processing has not been
started (`effStartProcessCalled` is false), `BASS_VST_Resume` and
`BASS_VST_SetBypass` (with any argument) return false with `BASS_ERROR_NOPLAY`; the
process state they leave differs from the one before in the error slot only, so
the instance record is the same: nothing was sent to the module (`calls`) and
`doBypass` is unchanged. -/
theorem resume_setBypass_not_started (g : Global) (vstHandle : Nat) (p : BASS_VST_PLUGIN)
    (newDoBypass : Int) (hres : g.handles vstHandle = some p) (hlive : 0 < p.handleUsage)
    (hb : g.s_bassfunc = true) (hns : p.effStartProcessCalled = false) :
    BASS_VST_Resume g vstHandle
        = some (false, { g with lastError := BassError.BASS_ERROR_NOPLAY })
      ∧ BASS_VST_SetBypass g vstHandle newDoBypass
        = some (false, { g with lastError := BassError.BASS_ERROR_NOPLAY }) := by
  have hu := unrefHandle_refHandle g vstHandle p hres hlive
  have hr := refHandle_some g vstHandle p hres
  constructor
  · unfold BASS_VST_Resume
    rw [hr] at hu ⊢
    simp only [hns, if_true] at hu ⊢
    rw [hu]
    simp only [RETURN_ERROR, SET_ERROR_of_bassfunc g _ hb]
  · unfold BASS_VST_SetBypass
    rw [hr] at hu ⊢
    simp only [hns, if_true] at hu ⊢
    rw [hu]
    simp only [RETURN_ERROR, SET_ERROR_of_bassfunc g _ hb]

/-- Resume and bypass on the opened instance that was never started. -/
theorem resume_setBypass_not_started_witness :
    BASS_VST_Resume (processWith openedInstance) 1
        = some (false, { processWith openedInstance with
            lastError := BassError.BASS_ERROR_NOPLAY })
      ∧ BASS_VST_SetBypass (processWith openedInstance) 1 1
        = some (false, { processWith openedInstance with
            lastError := BassError.BASS_ERROR_NOPLAY }) :=
  resume_setBypass_not_started (processWith openedInstance) 1 openedInstance 1 (by rfl)
    (by decide) (by rfl) (by rfl)

/-- C12: for a resolvable, referenced instance, `BASS_VST_EmbedEditor` with a
non-null parent window while the editor is open, and with a null parent window
while the editor is closed, returns false with `BASS_ERROR_ALREADY`; the process
state it leaves differs from the one before in the error slot only, so no
`effEditOpen` / `effEditClose` was sent (`calls`) and `editorIsOpen` and `needsIdle`
are unchanged.  This holds whatever the helper functions of the host do. -/
theorem embedEditor_already (env : HostServices) (g : Global) (vstHandle parentWindow : Nat)
    (p : BASS_VST_PLUGIN) (hres : g.handles vstHandle = some p) (hlive : 0 < p.handleUsage)
    (hb : g.s_bassfunc = true)
    (hstate : (parentWindow ≠ 0 ∧ p.editorIsOpen = true)
      ∨ (parentWindow = 0 ∧ p.editorIsOpen = false)) :
    BASS_VST_EmbedEditor env g vstHandle parentWindow
      = some (false, { g with lastError := BassError.BASS_ERROR_ALREADY }) := by
  have hu := unrefHandle_refHandle g vstHandle p hres hlive
  have hr := refHandle_some g vstHandle p hres
  unfold BASS_VST_EmbedEditor
  rw [hr] at hu ⊢
  rcases hstate with ⟨hw, ho⟩ | ⟨hw, ho⟩
  · simp only [hw, ne_eq, not_false_eq_true, if_true, embedEditorOpen, ho] at hu ⊢
    rw [hu]
    simp only [RETURN_ERROR, SET_ERROR_of_bassfunc g _ hb]
  · simp only [hw, ne_eq, not_true_eq_false, if_false, embedEditorClose, ho, if_true] at hu ⊢
    rw [hu]
    simp only [RETURN_ERROR, SET_ERROR_of_bassfunc g _ hb]

/-- Opening the editor of the instance whose editor is open (parent window 5),
and closing the editor of the instance whose editor is closed. -/
theorem embedEditor_already_witness :
    BASS_VST_EmbedEditor quietHost (processWith editorInstance) 1 5
        = some (false, { processWith editorInstance with
            lastError := BassError.BASS_ERROR_ALREADY })
      ∧ BASS_VST_EmbedEditor quietHost (processWith startedInstance) 1 0
        = some (false, { processWith startedInstance with
            lastError := BassError.BASS_ERROR_ALREADY }) :=
  ⟨embedEditor_already quietHost (processWith editorInstance) 1 5 editorInstance (by rfl)
      (by decide) (by rfl) (Or.inl ⟨by decide, by rfl⟩),
    embedEditor_already quietHost (processWith startedInstance) 1 0 startedInstance (by rfl)
      (by decide) (by rfl) (Or.inr ⟨by rfl, by rfl⟩)⟩


/-! ## Balance of references -/

/-- C13 (the defect): on a resolvable instance whose module does not set
`effFlagsProgramChunks`, `BASS_VST_GetChunk` and `BASS_VST_SetChunk` return through
`RETURN_ERROR(BASS_ERROR_NOTAVAIL)` without `unrefHandle`: the registry is left with
the reference count of the instance one higher than before the call. -/
theorem chunk_notavail_keeps_reference (g : Global) (vstHandle : Nat) (p : BASS_VST_PLUGIN)
    (m : VstModule) (isPreset : Bool) (chunk : Option (List Nat)) (length : Nat)
    (hres : g.handles vstHandle = some p) (hm : p.aeffect = some m)
    (hflag : (m.desc p.calls).effFlagsProgramChunks = false) (hb : g.s_bassfunc = true) :
    BASS_VST_GetChunk g vstHandle isPreset (some length)
        = some ((none, 0),
            { g.put vstHandle { p with handleUsage := p.handleUsage + 1 } with
              lastError := BassError.BASS_ERROR_NOTAVAIL })
      ∧ BASS_VST_SetChunk g vstHandle isPreset chunk length
        = some (0,
            { g.put vstHandle { p with handleUsage := p.handleUsage + 1 } with
              lastError := BassError.BASS_ERROR_NOTAVAIL }) := by
  have hr := refHandle_some g vstHandle p hres
  have ha : ({ p with handleUsage := p.handleUsage + 1 } : BASS_VST_PLUGIN).aeff
      = some (m.desc p.calls) := aeff_of_aeffect _ m hm
  have hb2 : (g.put vstHandle { p with handleUsage := p.handleUsage + 1 }).s_bassfunc = true := hb
  constructor
  · unfold BASS_VST_GetChunk getChunkBody
    simp only [hr, ha, hflag, if_true, RETURN_ERROR, SET_ERROR_of_bassfunc _ _ hb2]
  · unfold BASS_VST_SetChunk
    simp only [hr, ha, hflag, if_true, RETURN_ERROR, SET_ERROR_of_bassfunc _ _ hb2]

/-- The started instance of `gainModule` (no chunk support) is referenced once
before `BASS_VST_GetChunk` and twice after it. -/
theorem chunk_notavail_keeps_reference_witness :
    startedInstance.handleUsage = 1
      ∧ (BASS_VST_GetChunk (processWith startedInstance) 1 false (some 0)
          = some ((none, 0),
              { (processWith startedInstance).put 1
                  { startedInstance with handleUsage := startedInstance.handleUsage + 1 } with
                lastError := BassError.BASS_ERROR_NOTAVAIL })
        ∧ BASS_VST_SetChunk (processWith startedInstance) 1 false none 0
          = some (0,
              { (processWith startedInstance).put 1
                  { startedInstance with handleUsage := startedInstance.handleUsage + 1 } with
                lastError := BassError.BASS_ERROR_NOTAVAIL })) :=
  ⟨by rfl, chunk_notavail_keeps_reference (processWith startedInstance) 1 startedInstance
    gainModule false none 0 (by rfl) (by rfl) (by rfl) (by rfl)⟩


/-! ## Requests of the module: what the host can do -/

theorem tolower_ne_zero (c : Nat) (h : c ≠ 0) : tolower c ≠ 0 := by
  unfold tolower
  split <;> omega

theorem sameLetter_iff (x y : Nat) : sameLetter x y = true ↔ tolower x = tolower y := by
  simp only [sameLetter, tolower, Bool.or_eq_true, Bool.and_eq_true, beq_iff_eq,
    decide_eq_true_eq]
  split_ifs <;> omega

theorem strcasecmp_eq_zero_iff (a : List Nat) :
    ∀ b : List Nat, (∀ x ∈ a, x ≠ 0) → (∀ x ∈ b, x ≠ 0) →
      (strcasecmp a b = 0 ↔ eqIgnoreAsciiCase a b = true) := by
  induction a with
  | nil =>
    intro b _ hb
    cases b with
    | nil => simp [strcasecmp, eqIgnoreAsciiCase]
    | cons y ys =>
      have hy := tolower_ne_zero y (hb y (List.mem_cons_self _ _))
      simp only [strcasecmp, eqIgnoreAsciiCase]
      constructor
      · intro h
        omega
      · intro h
        exact absurd h (by simp)
  | cons x xs ih =>
    intro b ha hb
    cases b with
    | nil =>
      have hx := tolower_ne_zero x (ha x (List.mem_cons_self _ _))
      simp only [strcasecmp, eqIgnoreAsciiCase]
      constructor
      · intro h
        omega
      · intro h
        exact absurd h (by simp)
    | cons y ys =>
      have ih2 := ih ys (fun z hz => ha z (List.mem_cons_of_mem _ hz))
        (fun z hz => hb z (List.mem_cons_of_mem _ hz))
      simp only [strcasecmp, eqIgnoreAsciiCase, Bool.and_eq_true, sameLetter_iff]
      by_cases hxy : tolower x = tolower y
      · simp only [hxy, if_true, true_and]
        exact ih2
      · simp only [hxy, if_false, false_and, iff_false]
        omega

theorem cstr_ne_zero (buf : List Nat) : ∀ x ∈ cstr buf, x ≠ 0 := by
  intro x hx
  have := List.mem_takeWhile_imp hx
  simpa using this

theorem canDoCondition_iff (s : List Nat) (hs : ∀ x ∈ s, x ≠ 0) :
    canDoCondition s = true ↔ ∃ f ∈ hostFeatures, eqIgnoreAsciiCase s f = true := by
  have key : ∀ f ∈ hostFeatures, (strcasecmp s f = 0 ↔ eqIgnoreAsciiCase s f = true) := by
    intro f hf
    apply strcasecmp_eq_zero_iff s f hs
    revert f
    decide
  simp only [hostFeatures, List.mem_cons, List.mem_singleton, List.not_mem_nil, or_false,
    forall_eq_or_imp, forall_eq] at key
  obtain ⟨k1, k2, k3, k4, k5, k6, k7, k8, k9⟩ := key
  simp only [canDoCondition, Bool.or_eq_true, beq_iff_eq, k1, k2, k3, k4, k5, k6, k7, k8, k9,
    hostFeatures, List.mem_cons, List.mem_singleton, List.not_mem_nil, or_false,
    exists_eq_or_imp, exists_eq_left, or_assoc]


/-! ## Requests of the module: the user callback and default handling -/

theorem audioMaster_hooked (env : HostServices) (g : Global) (aeffect_ : Option Nat)
    (opcode : MasterOpcode) (index value : Int) (ptr : Option (List Nat)) (opt : Rat)
    (p : BASS_VST_PLUGIN) (hres : g.handles (masterHandle g aeffect_) = some p)
    (hlive : 0 < p.handleUsage) (hcb : p.callback ≠ 0) :
    audioMasterCallbackImpl env g aeffect_ opcode index value ptr opt
      = if (env.userProc p.callback g (masterHandle g aeffect_)
            (CallbackAction.BASS_VST_AUDIO_MASTER (masterParam opcode index value ptr opt))
            p.callbackUserData).doDefault = 0
        then some (MasterReturn.plain (env.userProc p.callback g (masterHandle g aeffect_)
            (CallbackAction.BASS_VST_AUDIO_MASTER (masterParam opcode index value ptr opt))
            p.callbackUserData).ret,
          (env.userProc p.callback g (masterHandle g aeffect_)
            (CallbackAction.BASS_VST_AUDIO_MASTER (masterParam opcode index value ptr opt))
            p.callbackUserData).g)
        else defaultHandling env (env.userProc p.callback g (masterHandle g aeffect_)
            (CallbackAction.BASS_VST_AUDIO_MASTER (masterParam opcode index value ptr opt))
            p.callbackUserData).g (masterHandle g aeffect_) opcode index value ptr := by
  have hu := unrefHandle_refHandle g _ p hres hlive
  have hr := refHandle_some g _ p hres
  unfold audioMasterCallbackImpl defaultHandling
  simp only
  rw [hr] at hu ⊢
  simp only [hcb, ne_eq, not_false_eq_true, if_true] at hu ⊢
  rw [hu]

theorem audioMaster_unhooked (env : HostServices) (g : Global) (aeffect_ : Option Nat)
    (opcode : MasterOpcode) (index value : Int) (ptr : Option (List Nat)) (opt : Rat)
    (hcb : ∀ p, g.handles (masterHandle g aeffect_) = some p → p.callback = 0) :
    audioMasterCallbackImpl env g aeffect_ opcode index value ptr opt
      = defaultHandling env g (masterHandle g aeffect_) opcode index value ptr := by
  unfold audioMasterCallbackImpl defaultHandling
  cases hres : g.handles (masterHandle g aeffect_) with
  | none => simp only [refHandle_none g _ hres]
  | some p =>
    simp only [refHandle_some g _ p hres, hcb p hres, ne_eq, not_true_eq_false, if_false]

theorem masterSwitch_withReturn (env : HostServices)
    (f : Nat → Global → Nat → CallbackAction → Nat → Nat) (g : Global) (p : BASS_VST_PLUGIN)
    (h : Nat) (opcode : MasterOpcode) (index value : Int) (ptr : Option (List Nat)) :
    masterSwitch (env.withReturn f) g p h opcode index value ptr
      = masterSwitch env g p h opcode index value ptr := by
  cases opcode <;> rfl

theorem defaultHandling_withReturn (env : HostServices)
    (f : Nat → Global → Nat → CallbackAction → Nat → Nat) (g : Global)
    (h : Nat) (opcode : MasterOpcode) (index value : Int) (ptr : Option (List Nat)) :
    defaultHandling (env.withReturn f) g h opcode index value ptr
      = defaultHandling env g h opcode index value ptr := by
  unfold defaultHandling masterSwitchRelease
  simp only [masterSwitch_withReturn]

theorem masterSwitch_answer (env : HostServices) (g g' : Global) (p : BASS_VST_PLUGIN)
    (h : Nat) (opcode : MasterOpcode) (index value : Int) (ptr : Option (List Nat))
    (c u : Nat) (hop : opcode ≠ MasterOpcode.audioMasterOpenFileSelector)
    (hf : g'.channelFreq = g.channelFreq) (hl : g'.s_language = g.s_language) :
    (masterSwitch env g' { p with callback := c, callbackUserData := u } h opcode index value
        ptr).map Prod.fst
      = (masterSwitch env g p h opcode index value ptr).map Prod.fst := by
  cases opcode with
  | audioMasterOpenFileSelector => exact absurd rfl hop
  | audioMasterUpdateDisplay =>
    simp only [masterSwitch]
    split_ifs <;> rfl
  | audioMasterSizeWindow =>
    simp only [masterSwitch]
    split_ifs <;> rfl
  | audioMasterGetSampleRate => simp [masterSwitch, getSampleRate, hf]
  | audioMasterGetLanguage => simp [masterSwitch, hl]
  | audioMasterGetVendorString => cases ptr <;> simp [masterSwitch]
  | audioMasterGetProductString => cases ptr <;> simp [masterSwitch]
  | audioMasterCanDo => cases ptr <;> simp [masterSwitch]
  | _ => simp [masterSwitch]

/-- C14: when the instance of the request resolves, is referenced and has a user
callback registered, and the callback clears `doDefault` for the request (whatever
the opcode and operands), `audioMasterCallbackImpl` returns exactly the value the
callback returned and leaves the process state exactly as the callback left it:
nothing of the default handling is done (no change of `needsIdle` or `vstTimeInfo`,
no further callback invocation, no call into the module).  The callback is
entered in the state of the call, with the reference taken on entry released. -/
theorem audioMaster_callback_handles (env : HostServices) (g : Global) (aeffect_ : Option Nat)
    (opcode : MasterOpcode) (index value : Int) (ptr : Option (List Nat)) (opt : Rat)
    (p : BASS_VST_PLUGIN) (hres : g.handles (masterHandle g aeffect_) = some p)
    (hlive : 0 < p.handleUsage) (hcb : p.callback ≠ 0)
    (hdone : (env.userProc p.callback g (masterHandle g aeffect_)
        (CallbackAction.BASS_VST_AUDIO_MASTER (masterParam opcode index value ptr opt))
        p.callbackUserData).doDefault = 0) :
    audioMasterCallbackImpl env g aeffect_ opcode index value ptr opt
      = some (MasterReturn.plain (env.userProc p.callback g (masterHandle g aeffect_)
            (CallbackAction.BASS_VST_AUDIO_MASTER (masterParam opcode index value ptr opt))
            p.callbackUserData).ret,
          (env.userProc p.callback g (masterHandle g aeffect_)
            (CallbackAction.BASS_VST_AUDIO_MASTER (masterParam opcode index value ptr opt))
            p.callbackUserData).g) := by
  rw [audioMaster_hooked env g aeffect_ opcode index value ptr opt p hres hlive hcb, if_pos hdone]

/-- The callback at address 1 of `quietHost` answers a time request with 7; the
process state stays as it was. -/
theorem audioMaster_callback_handles_witness :
    audioMasterCallbackImpl quietHost (processWith (hookedInstance 1)) (some 1)
        MasterOpcode.audioMasterGetTime 0 512 none 0
      = some (MasterReturn.plain 7, processWith (hookedInstance 1)) :=
  audioMaster_callback_handles quietHost (processWith (hookedInstance 1)) (some 1)
    MasterOpcode.audioMasterGetTime 0 512 none 0 (hookedInstance 1) (by rfl) (by decide)
    (by decide) (by rfl)

/-- C15: when the instance of the request resolves, is referenced and has a user
callback registered, and the callback leaves `doDefault` set, the result of
`audioMasterCallbackImpl` is the result of default handling in the state the
callback left; it is the same whatever values user callbacks return.  Default
handling is what `audioMasterCallbackImpl` does in any state in which no callback is
registered for the instance, and it is not run when the callback clears
`doDefault`: then the result is the callback's return value and state.  The value
the `switch` of default handling answers does not depend on which callback is
registered with the instance (for `audioMasterOpenFileSelector` the answer is that
of `fileSelOpen`, which is not part of the sources). -/
theorem audioMaster_declined_is_default (env : HostServices) (g : Global)
    (aeffect_ : Option Nat) (opcode : MasterOpcode) (index value : Int)
    (ptr : Option (List Nat)) (opt : Rat) (p : BASS_VST_PLUGIN)
    (hres : g.handles (masterHandle g aeffect_) = some p) (hlive : 0 < p.handleUsage)
    (hcb : p.callback ≠ 0)
    (hdecl : (env.userProc p.callback g (masterHandle g aeffect_)
        (CallbackAction.BASS_VST_AUDIO_MASTER (masterParam opcode index value ptr opt))
        p.callbackUserData).doDefault ≠ 0) :
    audioMasterCallbackImpl env g aeffect_ opcode index value ptr opt
        = defaultHandling env (env.userProc p.callback g (masterHandle g aeffect_)
            (CallbackAction.BASS_VST_AUDIO_MASTER (masterParam opcode index value ptr opt))
            p.callbackUserData).g (masterHandle g aeffect_) opcode index value ptr
      ∧ (∀ f, audioMasterCallbackImpl (env.withReturn f) g aeffect_ opcode index value ptr opt
          = audioMasterCallbackImpl env g aeffect_ opcode index value ptr opt)
      ∧ (∀ (g0 : Global) (a0 : Option Nat),
          (∀ p0, g0.handles (masterHandle g0 a0) = some p0 → p0.callback = 0) →
          audioMasterCallbackImpl env g0 a0 opcode index value ptr opt
            = defaultHandling env g0 (masterHandle g0 a0) opcode index value ptr)
      ∧ (∀ (env0 : HostServices),
          (env0.userProc p.callback g (masterHandle g aeffect_)
            (CallbackAction.BASS_VST_AUDIO_MASTER (masterParam opcode index value ptr opt))
            p.callbackUserData).doDefault = 0 →
          audioMasterCallbackImpl env0 g aeffect_ opcode index value ptr opt
            = some (MasterReturn.plain (env0.userProc p.callback g (masterHandle g aeffect_)
                  (CallbackAction.BASS_VST_AUDIO_MASTER (masterParam opcode index value ptr opt))
                  p.callbackUserData).ret,
                (env0.userProc p.callback g (masterHandle g aeffect_)
                  (CallbackAction.BASS_VST_AUDIO_MASTER (masterParam opcode index value ptr opt))
                  p.callbackUserData).g))
      ∧ (opcode ≠ MasterOpcode.audioMasterOpenFileSelector →
          ∀ (g1 g2 : Global) (q : BASS_VST_PLUGIN) (c u : Nat),
            g2.channelFreq = g1.channelFreq → g2.s_language = g1.s_language →
            (masterSwitch env g2 { q with callback := c, callbackUserData := u }
                (masterHandle g aeffect_) opcode index value ptr).map Prod.fst
              = (masterSwitch env g1 q (masterHandle g aeffect_) opcode index value
                  ptr).map Prod.fst) := by
  refine ⟨?_, ?_, ?_, ?_, ?_⟩
  · rw [audioMaster_hooked env g aeffect_ opcode index value ptr opt p hres hlive hcb,
      if_neg hdecl]
  · intro f
    rw [audioMaster_hooked env g aeffect_ opcode index value ptr opt p hres hlive hcb,
      audioMaster_hooked (env.withReturn f) g aeffect_ opcode index value ptr opt p hres hlive
        hcb, if_neg hdecl]
    have hd : ((env.withReturn f).userProc p.callback g (masterHandle g aeffect_)
        (CallbackAction.BASS_VST_AUDIO_MASTER (masterParam opcode index value ptr opt))
        p.callbackUserData).doDefault ≠ 0 := hdecl
    rw [if_neg hd, defaultHandling_withReturn]
    rfl
  · intro g0 a0 h0
    exact audioMaster_unhooked env g0 a0 opcode index value ptr opt h0
  · intro env0 h0
    rw [audioMaster_hooked env0 g aeffect_ opcode index value ptr opt p hres hlive hcb,
      if_pos h0]
  · intro hop g1 g2 q c u hf hl
    exact masterSwitch_answer env g1 g2 q _ opcode index value ptr c u hop hf hl


/-- The callback at address 2 of `quietHost` declines: a version request is
answered by default handling with 2400, not with the 7 the callback returned. -/
theorem audioMaster_declined_is_default_witness :
    audioMasterCallbackImpl quietHost (processWith (hookedInstance 2)) (some 1)
        MasterOpcode.audioMasterVersion 0 0 none 0
      = defaultHandling quietHost (processWith (hookedInstance 2)) 1
          MasterOpcode.audioMasterVersion 0 0 none
      ∧ defaultHandling quietHost (processWith (hookedInstance 2)) 1
          MasterOpcode.audioMasterVersion 0 0 none
        = some (MasterReturn.plain 2400, processWith (hookedInstance 2)) :=
  ⟨(audioMaster_declined_is_default quietHost (processWith (hookedInstance 2)) (some 1)
      MasterOpcode.audioMasterVersion 0 0 none 0 (hookedInstance 2) (by rfl) (by decide)
      (by decide) (by decide)).1,
    by
      have hu := unrefHandle_refHandle (processWith (hookedInstance 2)) 1 (hookedInstance 2)
        (by rfl) (by decide)
      have hr := refHandle_some (processWith (hookedInstance 2)) 1 (hookedInstance 2) (by rfl)
      unfold defaultHandling
      rw [hr] at hu ⊢
      simp only [masterSwitchRelease, masterSwitch, kVstVersion] at hu ⊢
      rw [hu]⟩

/-- C16: for an instance that resolves, is referenced and has no user callback,
and every string `s` (the C string in the buffer `ptr` points to), the request
`audioMasterCanDo` returns 1 if `s` equals, ignoring ASCII case, one of the nine
features of `hostFeatures` ("supplyidle", "sendvstevents", "sendvstmidievent",
"sendvsttimeinfo", "openfileselector", "closefileselector", "sizewindow",
"startstopprocess", "shellcategory"), and 0 otherwise; the process state stays as
it was.  Equality up to ASCII case is `eqIgnoreAsciiCase`, which is stated on the
byte values and does not use the `tolower` / `strcasecmp` of the code. -/
theorem audioMaster_canDo (env : HostServices) (g : Global) (aeffect_ : Option Nat)
    (index value : Int) (buf : List Nat) (opt : Rat) (p : BASS_VST_PLUGIN)
    (hres : g.handles (masterHandle g aeffect_) = some p) (hlive : 0 < p.handleUsage)
    (hcb : p.callback = 0) :
    ∃ v : Int, audioMasterCallbackImpl env g aeffect_ MasterOpcode.audioMasterCanDo index value
          (some buf) opt = some (MasterReturn.plain v, g)
      ∧ (v = 1 ↔ ∃ f ∈ hostFeatures, eqIgnoreAsciiCase (cstr buf) f = true)
      ∧ (v = 1 ∨ v = 0) := by
  have hu := unrefHandle_refHandle g _ p hres hlive
  have hr := refHandle_some g _ p hres
  refine ⟨if canDoCondition (cstr buf) then 1 else 0, ?_, ?_, ?_⟩
  · unfold audioMasterCallbackImpl
    simp only
    rw [hr] at hu ⊢
    simp only [hcb, ne_eq, not_true_eq_false, if_false, masterSwitchRelease, masterSwitch] at hu ⊢
    rw [hu]
  · rw [← canDoCondition_iff (cstr buf) (cstr_ne_zero buf)]
    cases canDoCondition (cstr buf) <;> simp
  · cases canDoCondition (cstr buf) <;> simp

/-- The started instance asks for "SizeWindow" (mixed case): the answer is 1, as
it is for "SHELLCATEGORY"; "sizewindows" (one letter more), "sizewindo" (one
letter less) and "size_window" are answered 0.  The bytes next to the letters (91
and 123, 64 and 96) differ by 32 as well and are not the same character. -/
theorem audioMaster_canDo_witness :
    (∃ v : Int, audioMasterCallbackImpl quietHost (processWith startedInstance) (some 1)
          MasterOpcode.audioMasterCanDo 0 0 (some (ascii "SizeWindow")) 0
          = some (MasterReturn.plain v, processWith startedInstance)
      ∧ (v = 1 ↔ ∃ f ∈ hostFeatures, eqIgnoreAsciiCase (cstr (ascii "SizeWindow")) f = true)
      ∧ (v = 1 ∨ v = 0))
    ∧ (["SizeWindow", "SHELLCATEGORY", "sizewindows", "sizewindo", "size_window"].map
        (fun s => (audioMasterCallbackImpl quietHost (processWith startedInstance) (some 1)
          MasterOpcode.audioMasterCanDo 0 0 (some (ascii s)) 0).map (fun r => r.1)))
      = [some (MasterReturn.plain 1), some (MasterReturn.plain 1),
          some (MasterReturn.plain 0), some (MasterReturn.plain 0),
          some (MasterReturn.plain 0)]
    ∧ eqIgnoreAsciiCase (ascii "SizeWindow") (ascii "sizewindow") = true
    ∧ eqIgnoreAsciiCase (ascii "sizewindow") (ascii "sizewindow@") = false
    ∧ eqIgnoreAsciiCase [91] [123] = false
    ∧ eqIgnoreAsciiCase [64] [96] = false :=
  ⟨audioMaster_canDo quietHost (processWith startedInstance) (some 1) 0 0 (ascii "SizeWindow") 0
    startedInstance (by rfl) (by decide) (by rfl), by decide, by decide, by decide, by decide,
    by decide⟩


/-! ## Time information -/

theorem and_two_pow_ne_zero (x i : Nat) : x &&& 2 ^ i ≠ 0 ↔ x.testBit i = true := by
  rw [Nat.and_two_pow]
  cases x.testBit i <;> simp

theorem testBit_ite_two_pow (c : Prop) [Decidable c] (k i : Nat) :
    (if c then 2 ^ k else 0 : Nat).testBit i = (decide c && decide (k = i)) := by
  by_cases h : c <;> simp [h, Nat.testBit_two_pow]

theorem ite_or_flag (c : Prop) [Decidable c] (a k : Nat) :
    (if c then a ||| k else a) = a ||| (if c then k else 0) := by
  split <;> simp

theorem or_eq_zero_iff_nat (a b : Nat) : a ||| b = 0 ↔ a = 0 ∧ b = 0 := by
  constructor
  · intro h
    constructor
    · apply Nat.eq_of_testBit_eq
      intro i
      have := congrArg (fun n => Nat.testBit n i) h
      simp only [Nat.testBit_or, Nat.zero_testBit, Bool.or_eq_false_iff] at this ⊢
      exact this.1
    · apply Nat.eq_of_testBit_eq
      intro i
      have := congrArg (fun n => Nat.testBit n i) h
      simp only [Nat.testBit_or, Nat.zero_testBit, Bool.or_eq_false_iff] at this ⊢
      exact this.2
  · rintro ⟨rfl, rfl⟩
    rfl

theorem and_two_flags_ne_zero (x i j : Nat) :
    x &&& (2 ^ i ||| 2 ^ j) ≠ 0 ↔ x.testBit i = true ∨ x.testBit j = true := by
  rw [Nat.and_or_distrib_left, ne_eq, or_eq_zero_iff_nat, not_and_or,
    ← ne_eq, ← ne_eq, and_two_pow_ne_zero, and_two_pow_ne_zero]

theorem calcVstTimeInfo_flags (clock : Nat) (g : Global) (p : BASS_VST_PLUGIN) (toCalc : Int) :
    (calcVstTimeInfo clock g p toCalc).vstTimeInfo.flags
      = kVstTransportPlaying
        ||| (if requestBits toCalc &&& kVstNanosValid ≠ 0 then kVstNanosValid else 0)
        ||| (if requestBits toCalc &&& kVstTimeSigValid ≠ 0 then kVstTimeSigValid else 0)
        ||| (if requestBits toCalc &&& (kVstTempoValid ||| kVstPpqPosValid) ≠ 0
              then kVstTempoValid else 0)
        ||| (if requestBits toCalc &&& kVstPpqPosValid ≠ 0 then kVstPpqPosValid else 0)
        ||| (if requestBits toCalc &&& kVstSmpteValid ≠ 0 then kVstSmpteValid else 0)
        ||| (if requestBits toCalc &&& kVstCyclePosValid ≠ 0 then kVstCyclePosValid else 0) := by
  simp only [calcVstTimeInfo, apply_ite VstTimeInfo.flags, ite_or_flag]

theorem calcVstTimeInfo_testBit (clock : Nat) (g : Global) (p : BASS_VST_PLUGIN) (toCalc : Int)
    (i : Nat) :
    (calcVstTimeInfo clock g p toCalc).vstTimeInfo.flags.testBit i
      = (decide (1 = i)
        || (requestBits toCalc).testBit 8 && decide (8 = i)
        || (requestBits toCalc).testBit 13 && decide (13 = i)
        || ((requestBits toCalc).testBit 10 || (requestBits toCalc).testBit 9) && decide (10 = i)
        || (requestBits toCalc).testBit 9 && decide (9 = i)
        || (requestBits toCalc).testBit 14 && decide (14 = i)
        || (requestBits toCalc).testBit 12 && decide (12 = i)) := by
  rw [calcVstTimeInfo_flags]
  simp only [kVstTransportPlaying, kVstNanosValid, kVstTimeSigValid, kVstTempoValid,
    kVstPpqPosValid, kVstSmpteValid, kVstCyclePosValid, Nat.one_shiftLeft, Nat.testBit_or,
    testBit_ite_two_pow, Nat.testBit_two_pow, and_two_pow_ne_zero, and_two_flags_ne_zero,
    Bool.decide_or, Bool.decide_eq_true]

/-- C17 (counterexample): a request mask with only the musical-position bit
(`kVstPpqPosValid`, 512) makes `calcVstTimeInfo` set the tempo validity flag although
the tempo bit is not in the mask. -/
theorem calcVstTimeInfo_tempo_without_request :
    (calcVstTimeInfo 0 (processWith startedInstance) startedInstance 512).vstTimeInfo.flags
        &&& kVstTempoValid ≠ 0
      ∧ requestBits 512 &&& kVstTempoValid = 0 := by
  decide

/-- C17 (amended): for every request mask, after `calcVstTimeInfo` each of the
validity flags for the nanosecond clock, the time signature, SMPTE and the
loop-cycle bounds is set exactly when its own bit is set in the mask, and the
tempo flag is set exactly when the tempo bit or the musical-position bit is set in
the mask. -/
theorem calcVstTimeInfo_validity_flags (clock : Nat) (g : Global) (p : BASS_VST_PLUGIN)
    (toCalc : Int) :
    ((calcVstTimeInfo clock g p toCalc).vstTimeInfo.flags &&& kVstNanosValid ≠ 0
        ↔ requestBits toCalc &&& kVstNanosValid ≠ 0)
      ∧ ((calcVstTimeInfo clock g p toCalc).vstTimeInfo.flags &&& kVstTimeSigValid ≠ 0
        ↔ requestBits toCalc &&& kVstTimeSigValid ≠ 0)
      ∧ ((calcVstTimeInfo clock g p toCalc).vstTimeInfo.flags &&& kVstSmpteValid ≠ 0
        ↔ requestBits toCalc &&& kVstSmpteValid ≠ 0)
      ∧ ((calcVstTimeInfo clock g p toCalc).vstTimeInfo.flags &&& kVstCyclePosValid ≠ 0
        ↔ requestBits toCalc &&& kVstCyclePosValid ≠ 0)
      ∧ ((calcVstTimeInfo clock g p toCalc).vstTimeInfo.flags &&& kVstTempoValid ≠ 0
        ↔ (requestBits toCalc &&& kVstTempoValid ≠ 0
            ∨ requestBits toCalc &&& kVstPpqPosValid ≠ 0)) := by
  simp only [kVstNanosValid, kVstTimeSigValid, kVstTempoValid, kVstPpqPosValid,
    kVstSmpteValid, kVstCyclePosValid, Nat.one_shiftLeft, and_two_pow_ne_zero,
    calcVstTimeInfo_testBit]
  simp


/-! ## Failure exits of `loadVstLibrary` -/

theorem closeVstLibrary_hinst (p : BASS_VST_PLUGIN)
    (hd : ∀ m, p.aeffect = some m → (m.desc p.calls).dispatcher = true) :
    ∃ q, closeVstLibrary p = some q ∧ q.hinst = none := by
  unfold closeVstLibrary
  cases hh : p.hinst with
  | none => exact ⟨p, rfl, hh⟩
  | some l =>
    cases hm : p.aeffect with
    | none => exact ⟨_, rfl, rfl⟩
    | some m =>
      simp only
      rw [callDispatcher_eq _ m _ _ _ _ _ (by exact hm) (hd m hm)]
      exact ⟨_, rfl, rfl⟩

theorem loadFailClose_rejected (g0 g : Global) (p : BASS_VST_PLUGIN) (e : BassError)
    (list : Option (List Nat)) (f : Global → Global)
    (hd : ∀ m, p.aeffect = some m → (m.desc p.calls).dispatcher = true)
    (hb : g0.s_bassfunc = true → g.s_bassfunc = true)
    (hf : ∀ g1, (f g1).lastError = g1.lastError) :
    LoadRejected g0 ((loadFailClose g p e list).map (fun r => { r with g := f r.g })) e := by
  obtain ⟨q, hq, hh⟩ := closeVstLibrary_hinst p hd
  unfold loadFailClose
  rw [hq]
  refine ⟨_, rfl, rfl, ?_, hh⟩
  intro h0
  simp only [hf, SET_ERROR_of_bassfunc g e (hb h0)]

theorem loadFailClose_rejected_plain (g0 g : Global) (p : BASS_VST_PLUGIN) (e : BassError)
    (list : Option (List Nat))
    (hd : ∀ m, p.aeffect = some m → (m.desc p.calls).dispatcher = true)
    (hb : g0.s_bassfunc = true → g.s_bassfunc = true) :
    LoadRejected g0 (loadFailClose g p e list) e := by
  have h := loadFailClose_rejected g0 g p e list id hd hb (fun _ => rfl)
  obtain ⟨r1, h1, h2⟩ := h
  cases hl : loadFailClose g p e list with
  | none => rw [hl] at h1; exact absurd h1 (by simp)
  | some r =>
    rw [hl] at h1
    simp only [Option.map_some', Option.some.injEq, id] at h1
    exact ⟨r, rfl, by rw [← h1] at h2; exact h2⟩

theorem load_null_descriptor (fuel : Nat) (g : Global) (p : BASS_VST_PLUGIN) (lib : VstLibrary)
    (createFlags : Nat) (list : Option (List Nat)) (size pluginID : Int)
    (hopen : lib.canOpen = true) (hentry : lib.hasEntry = true) (hnull : lib.entry = none) :
    LoadRejected g (loadVstLibrary fuel g p lib createFlags list size pluginID)
      BassError.BASS_ERROR_FILEFORM := by
  unfold loadVstLibrary
  simp only [hopen, if_true, hentry, Bool.true_eq_false, if_false, hnull, BASS_VST_PLUGIN.aeff]
  exact loadFailClose_rejected g _ _ _ list (fun g1 => { g1 with s_inConstructionVstHandle := 0 })
    (fun m hm => absurd hm (by simp)) (fun h => h) (fun _ => rfl)

theorem load_bad_descriptor (fuel : Nat) (g : Global) (p : BASS_VST_PLUGIN) (lib : VstLibrary)
    (createFlags : Nat) (list : Option (List Nat)) (size pluginID : Int) (m : VstModule)
    (hopen : lib.canOpen = true) (hentry : lib.hasEntry = true) (hm : lib.entry = some m)
    (hdisp : (m.desc []).dispatcher = true)
    (hbad : (m.desc []).magic ≠ kEffectMagic
      ∨ ((m.desc []).processDeprecated = false ∧ (m.desc []).processReplacing = false
          ∧ (m.desc []).canDoubleReplacing = false)) :
    LoadRejected g (loadVstLibrary fuel g p lib createFlags list size pluginID)
      BassError.BASS_ERROR_FILEFORM := by
  unfold loadVstLibrary
  have hcond : (m.desc []).magic ≠ kEffectMagic
      ∨ ((m.desc []).processDeprecated = false ∧ (m.desc []).processReplacing = false
          ∧ (m.desc []).canDoubleReplacing = false)
      ∨ (m.desc []).dispatcher = false := by
    rcases hbad with h | h
    · exact Or.inl h
    · exact Or.inr (Or.inl h)
  simp only [hopen, if_true, hentry, Bool.true_eq_false, if_false, hm, BASS_VST_PLUGIN.aeff,
    hcond]
  exact loadFailClose_rejected g _ _ _ list (fun g1 => { g1 with s_inConstructionVstHandle := 0 })
    (fun m1 hm1 => by
      simp only [Option.some.injEq] at hm1
      rw [← hm1]
      exact hdisp) (fun h => h) (fun _ => rfl)

theorem load_pins (fuel : Nat) (g : Global) (p : BASS_VST_PLUGIN) (lib : VstLibrary)
    (createFlags : Nat) (list : Option (List Nat)) (size pluginID : Int) (m : VstModule)
    (hopen : lib.canOpen = true) (hentry : lib.hasEntry = true) (hm : lib.entry = some m)
    (hok : (m.desc []).passes)
    (hshell : ¬ ((m.dispatcher [] Opcode.effGetPlugCategory 0 0 none 0).ret = kPlugCategShell
      ∧ pluginID = 0))
    (hdisp : (m.desc [categoryRequest]).dispatcher = true) :
    (p.type = PluginType.VSTeffect ∧ (m.desc [categoryRequest]).numInputs ≤ 0 →
      LoadRejected g (loadVstLibrary fuel g p lib createFlags list size pluginID)
        BassError.BASS_VST_ERROR_NOINPUTS)
    ∧ (¬ (p.type = PluginType.VSTeffect ∧ (m.desc [categoryRequest]).numInputs ≤ 0) →
        ((m.desc [categoryRequest]).numOutputs ≤ 0
          ∨ (p.type = PluginType.VSTinstrument
              ∧ (m.desc [categoryRequest]).effFlagsIsSynth = false)) →
      LoadRejected g (loadVstLibrary fuel g p lib createFlags list size pluginID)
        BassError.BASS_VST_ERROR_NOOUTPUTS) := by
  obtain ⟨hmagic, hproc, hd0⟩ := hok
  have hcond : ¬ ((m.desc []).magic ≠ kEffectMagic
      ∨ ((m.desc []).processDeprecated = false ∧ (m.desc []).processReplacing = false
          ∧ (m.desc []).canDoubleReplacing = false)
      ∨ (m.desc []).dispatcher = false) := by
    rintro (h | h | h)
    · exact h hmagic
    · exact hproc h
    · rw [hd0] at h; exact absurd h (by simp)
  have hload : loadVstLibrary fuel g p lib createFlags list size pluginID
      = loadOpen { g with s_inConstructionVstHandle := 0 }
          { p with
            createFlags := createFlags
            hinst := some lib
            pluginID := pluginID
            aeffect := some m
            calls := [categoryRequest]
            resvd1 := p.vstHandle } list := by
    unfold loadVstLibrary
    simp only [hopen, if_true, hentry, Bool.true_eq_false, if_false, hm, BASS_VST_PLUGIN.aeff,
      hcond, loadShell]
    rw [callDispatcher_eq _ m _ _ _ _ _ (by rfl) (by exact hd0)]
    simp only [hshell, if_false, List.nil_append, categoryRequest]
  rw [hload]
  unfold loadOpen
  simp only [BASS_VST_PLUGIN.aeff]
  constructor
  · intro h
    simp only [h, and_self, if_true]
    exact loadFailClose_rejected_plain g _ _ _ list
      (fun m1 hm1 => by
        simp only [Option.some.injEq] at hm1
        rw [← hm1]
        exact hdisp) (fun h => h)
  · intro h1 h2
    simp only [h1, if_false, h2, if_true]
    exact loadFailClose_rejected_plain g _ _ _ list
      (fun m1 hm1 => by
        simp only [Option.some.injEq] at hm1
        rw [← hm1]
        exact hdisp) (fun h => h)

/-- C18 (counterexample): an image whose descriptor has a NULL dispatcher does not
make `loadVstLibrary` return at all (the failure exit calls through the NULL
pointer), and an effect without inputs and without outputs is rejected with
`BASS_VST_ERROR_NOINPUTS`, not with `BASS_VST_ERROR_NOOUTPUTS`. -/
theorem loadVstLibrary_reject_counterexample :
    (loadVstLibrary 0 (processWith freshInstance) freshInstance noDispatcherLibrary 0 none 0
        0).map (fun r => r.ret) = none
      ∧ (loadVstLibrary 0 (processWith freshInstance) freshInstance noPinsLibrary 0 none 0
          0).map (fun r => (r.ret, r.g.lastError))
        = some (false, BassError.BASS_VST_ERROR_NOINPUTS) := by
  decide


/-- C18 (amended): for every instance `p` (effect or instrument) and every image
that opens and has an entry point, `loadVstLibrary` returns false with
`BASS_ERROR_FILEFORM` when the entry point returns a NULL descriptor, and when it
returns a descriptor with a non-NULL dispatcher that has a wrong magic tag or no
processing entry.  For a descriptor that passes validation and is not a shell
module opened without a sub-module id it returns false with
`BASS_VST_ERROR_NOINPUTS` for an effect-kind instance whose module reports
`numInputs <= 0`, and with `BASS_VST_ERROR_NOOUTPUTS` when that input check does not
apply and `numOutputs <= 0` or the instance is an instrument and the module lacks
the synth flag.  In each case `hinst` is NULL on return. -/
theorem loadVstLibrary_rejects (fuel : Nat) (g : Global) (p : BASS_VST_PLUGIN)
    (lib : VstLibrary) (createFlags : Nat) (list : Option (List Nat)) (size pluginID : Int)
    (hopen : lib.canOpen = true) (hentry : lib.hasEntry = true) :
    (lib.entry = none →
        LoadRejected g (loadVstLibrary fuel g p lib createFlags list size pluginID)
          BassError.BASS_ERROR_FILEFORM)
      ∧ (∀ m, lib.entry = some m → (m.desc []).dispatcher = true →
          ((m.desc []).magic ≠ kEffectMagic
            ∨ ((m.desc []).processDeprecated = false ∧ (m.desc []).processReplacing = false
                ∧ (m.desc []).canDoubleReplacing = false)) →
        LoadRejected g (loadVstLibrary fuel g p lib createFlags list size pluginID)
          BassError.BASS_ERROR_FILEFORM)
      ∧ (∀ m, lib.entry = some m → (m.desc []).passes →
          ¬ ((m.dispatcher [] Opcode.effGetPlugCategory 0 0 none 0).ret = kPlugCategShell
            ∧ pluginID = 0) →
          (m.desc [categoryRequest]).dispatcher = true →
          p.type = PluginType.VSTeffect → (m.desc [categoryRequest]).numInputs ≤ 0 →
        LoadRejected g (loadVstLibrary fuel g p lib createFlags list size pluginID)
          BassError.BASS_VST_ERROR_NOINPUTS)
      ∧ (∀ m, lib.entry = some m → (m.desc []).passes →
          ¬ ((m.dispatcher [] Opcode.effGetPlugCategory 0 0 none 0).ret = kPlugCategShell
            ∧ pluginID = 0) →
          (m.desc [categoryRequest]).dispatcher = true →
          ¬ (p.type = PluginType.VSTeffect ∧ (m.desc [categoryRequest]).numInputs ≤ 0) →
          ((m.desc [categoryRequest]).numOutputs ≤ 0
            ∨ (p.type = PluginType.VSTinstrument
                ∧ (m.desc [categoryRequest]).effFlagsIsSynth = false)) →
        LoadRejected g (loadVstLibrary fuel g p lib createFlags list size pluginID)
          BassError.BASS_VST_ERROR_NOOUTPUTS) :=
  ⟨fun hnull => load_null_descriptor fuel g p lib createFlags list size pluginID hopen hentry
      hnull,
    fun m hm hdisp hbad => load_bad_descriptor fuel g p lib createFlags list size pluginID m
      hopen hentry hm hdisp hbad,
    fun m hm hok hshell hdisp ht hin =>
      (load_pins fuel g p lib createFlags list size pluginID m hopen hentry hm hok hshell
        hdisp).1 ⟨ht, hin⟩,
    fun m hm hok hshell hdisp hin hout =>
      (load_pins fuel g p lib createFlags list size pluginID m hopen hentry hm hok hshell
        hdisp).2 hin hout⟩

/-- The rejected loads, each from the theorem at a concrete image and instance: a
NULL descriptor and a wrong magic tag loaded into a fresh instrument instance
(FILEFORM), an effect without inputs and outputs loaded into a fresh effect
instance (NOINPUTS), an effect without outputs loaded into the effect instance
(NOOUTPUTS), and a module without the synth flag loaded into the instrument
instance (NOOUTPUTS). -/
theorem loadVstLibrary_rejects_witness :
    LoadRejected (processWith freshInstrument)
        (loadVstLibrary 0 (processWith freshInstrument) freshInstrument nullDescriptorLibrary 0
          none 0 0) BassError.BASS_ERROR_FILEFORM
      ∧ LoadRejected (processWith freshInstrument)
        (loadVstLibrary 0 (processWith freshInstrument) freshInstrument badMagicLibrary 0 none
          0 0) BassError.BASS_ERROR_FILEFORM
      ∧ LoadRejected (processWith freshInstance)
        (loadVstLibrary 0 (processWith freshInstance) freshInstance noPinsLibrary 0 none 0 0)
        BassError.BASS_VST_ERROR_NOINPUTS
      ∧ LoadRejected (processWith freshInstance)
        (loadVstLibrary 0 (processWith freshInstance) freshInstance noOutputsLibrary 0 none 0 0)
        BassError.BASS_VST_ERROR_NOOUTPUTS
      ∧ LoadRejected (processWith freshInstrument)
        (loadVstLibrary 0 (processWith freshInstrument) freshInstrument gainLibrary 0 none 0 0)
        BassError.BASS_VST_ERROR_NOOUTPUTS :=
  ⟨(loadVstLibrary_rejects 0 (processWith freshInstrument) freshInstrument
      nullDescriptorLibrary 0 none 0 0 rfl rfl).1 rfl,
    (loadVstLibrary_rejects 0 (processWith freshInstrument) freshInstrument badMagicLibrary 0
      none 0 0 rfl rfl).2.1 _ rfl (by rfl) (Or.inl (by decide)),
    (loadVstLibrary_rejects 0 (processWith freshInstance) freshInstance noPinsLibrary 0 none 0
      0 rfl rfl).2.2.1 _ rfl ⟨by decide, by decide, by rfl⟩ (by decide) (by rfl) (by rfl)
      (by decide),
    (loadVstLibrary_rejects 0 (processWith freshInstance) freshInstance noOutputsLibrary 0 none
      0 0 rfl rfl).2.2.2 _ rfl ⟨by decide, by decide, by rfl⟩ (by decide) (by rfl) (by decide)
      (Or.inl (by decide)),
    (loadVstLibrary_rejects 0 (processWith freshInstrument) freshInstrument gainLibrary 0 none
      0 0 rfl rfl).2.2.2 _ rfl ⟨by decide, by decide, by rfl⟩ (by decide) (by rfl) (by decide)
      (Or.inr ⟨by rfl, by rfl⟩)⟩


theorem closeVstLibrary_some_hinst (p q : BASS_VST_PLUGIN) (h : closeVstLibrary p = some q) :
    q.hinst = none := by
  unfold closeVstLibrary at h
  split at h
  · simp only [Option.some.injEq] at h
    rw [← h]
    assumption
  · split at h
    · split at h
      · exact absurd h (by simp)
      · simp only [Option.some.injEq] at h
        rw [← h]
    · simp only [Option.some.injEq] at h
      rw [← h]

theorem loadFailClose_hinst (g : Global) (p : BASS_VST_PLUGIN) (e : BassError)
    (list : Option (List Nat)) (r : LoadResult) (h : loadFailClose g p e list = some r) :
    r.this_.hinst = none := by
  unfold loadFailClose at h
  split at h
  · exact absurd h (by simp)
  · rename_i q hq
    simp only [Option.some.injEq] at h
    rw [← h]
    exact closeVstLibrary_some_hinst p q hq

theorem loadSnapshot_false (g : Global) (p : BASS_VST_PLUGIN) (list : Option (List Nat))
    (r : LoadResult) (h : loadSnapshot g p list = some r) (hret : r.ret = false) :
    (malloc g).1 = false ∨ (malloc (malloc g).2).1 = false := by
  unfold loadSnapshot at h
  simp only at h
  split at h
  · exact absurd h (by simp)
  · split at h
    · simp only [Option.some.injEq] at h
      rw [← h] at hret
      exact absurd hret (by simp)
    · split at h
      · exact absurd h (by simp)
      · split at h
        · exact absurd h (by simp)
        · split at h
          · exact absurd h (by simp)
          · split at h
            · by_cases hm : (malloc g).1 = false ∨ (malloc (malloc g).2).1 = false
              · exact hm
              · simp only [hm, if_false] at h
                split at h
                · exact absurd h (by simp)
                · simp only [Option.some.injEq] at h
                  rw [← h] at hret
                  exact absurd hret (by simp)
            · simp only [Option.some.injEq] at h
              rw [← h] at hret
              exact absurd hret (by simp)

theorem malloc_inConstruction (g : Global) (a : Nat) :
    malloc { g with s_inConstructionVstHandle := a }
      = ((malloc g).1, { (malloc g).2 with s_inConstructionVstHandle := a }) := by
  obtain ⟨b, m, e, c, l, hs, heap, f⟩ := g
  cases heap <;> rfl

theorem loadOpen_false (g : Global) (p : BASS_VST_PLUGIN) (list : Option (List Nat))
    (r : LoadResult) (h : loadOpen g p list = some r) (hret : r.ret = false) :
    r.this_.hinst = none ∨ (malloc g).1 = false ∨ (malloc (malloc g).2).1 = false := by
  unfold loadOpen at h
  split at h
  · exact absurd h (by simp)
  · split at h
    · exact Or.inl (loadFailClose_hinst _ _ _ _ r h)
    · split at h
      · exact Or.inl (loadFailClose_hinst _ _ _ _ r h)
      · split at h
        · exact absurd h (by simp)
        · try simp only at h
          split at h
          · exact absurd h (by simp)
          · split at h
            · exact Or.inl (loadFailClose_hinst _ _ _ _ r h)
            · try simp only at h
              split at h
              · exact absurd h (by simp)
              · split at h
                · exact absurd h (by simp)
                · split at h
                  · exact absurd h (by simp)
                  · split at h
                    · exact absurd h (by simp)
                    · exact Or.inr (loadSnapshot_false _ _ _ r h hret)

/-- Every exit of `loadVstLibrary` that returns false leaves `hinst` NULL, except when
one of the two allocations of the parameter snapshot failed. -/
theorem loadVstLibrary_false_exits (fuel : Nat) (g : Global) (p : BASS_VST_PLUGIN)
    (lib : VstLibrary) (createFlags : Nat) (list : Option (List Nat)) (size pluginID : Int)
    (r : LoadResult) (h : loadVstLibrary fuel g p lib createFlags list size pluginID = some r)
    (hret : r.ret = false) :
    r.this_.hinst = none ∨ (malloc g).1 = false ∨ (malloc (malloc g).2).1 = false := by
  unfold loadVstLibrary at h
  simp only at h
  split at h
  · rename_i hh
    simp only [Option.some.injEq] at h
    rw [← h]
    exact Or.inl hh
  · split at h
    · exact Or.inl (loadFailClose_hinst _ _ _ _ r h)
    · have hmap : ∀ (g0 : Global) (q : BASS_VST_PLUGIN) (e : BassError),
          (loadFailClose g0 q e list).map
            (fun r0 => { r0 with g := { r0.g with s_inConstructionVstHandle := 0 } }) = some r →
          r.this_.hinst = none := by
        intro g0 q e hm
        cases hl : loadFailClose g0 q e list with
        | none => rw [hl] at hm; exact absurd hm (by simp)
        | some r0 =>
          rw [hl] at hm
          simp only [Option.map_some', Option.some.injEq] at hm
          rw [← hm]
          exact loadFailClose_hinst _ _ _ _ r0 hl
      split at h
      · exact Or.inl (hmap _ _ _ h)
      · split at h
        · exact Or.inl (hmap _ _ _ h)
        · unfold loadShell at h
          split at h
          · exact absurd h (by simp)
          · split at h
            · split at h
              · exact absurd h (by simp)
              · exact Or.inl (loadFailClose_hinst _ _ _ _ r h)
            · rcases loadOpen_false _ _ _ r h hret with h1 | h1
              · exact Or.inl h1
              · simp only [malloc_inConstruction] at h1
                exact Or.inr h1

/-- C19 (the defect): loading `gainLibrary` when the allocation of `defaultValues`
fails returns false with `BASS_ERROR_MEM`, and the image is still loaded (`hinst` is
not NULL): this exit does not call `closeVstLibrary`. -/
theorem loadVstLibrary_mem_failure_keeps_image :
    (loadVstLibrary 0 { processWith freshInstance with heap := [false] } freshInstance
        gainLibrary 0 none 0 0).map (fun r => (r.ret, r.g.lastError, r.this_.hinst.isSome))
      = some (false, BassError.BASS_ERROR_MEM, true) := by
  decide


/-! ## Enumeration of a shell module -/

theorem fitEntries_all (size : Int) (es : List (List Nat)) :
    ∀ len : Int, size > len + (es.flatten.length : Int) → fitEntries size len es = es.flatten := by
  induction es with
  | nil => intro len _; rfl
  | cons e rest ih =>
    intro len h
    simp only [List.flatten_cons, List.length_append, Nat.cast_add] at h
    have h1 : size > len + (e.length : Int) := by
      have : (0 : Int) ≤ (rest.flatten.length : Int) := Int.natCast_nonneg _
      omega
    simp only [fitEntries, h1, if_true, List.flatten_cons]
    rw [ih (len + (e.length : Int)) (by omega)]

theorem namedAnswers_all (answers : List (List Nat × Int)) (h : ∀ a ∈ answers, a.1 ≠ []) :
    namedAnswers answers = answers := by
  unfold namedAnswers
  rw [List.filter_eq_self]
  intro a ha
  simpa using h a ha

theorem shellEnumLoop_spec (m : VstModule) (size : Int)
    (hname : ∀ t, (cstr ((m.dispatcher t Opcode.effShellGetNextPlugin 0 0 (some [])
      0).out.getD [])).length ≤ 64)
    (hdisp : ∀ t, (m.desc t).dispatcher = true) :
    ∀ (fuel : Nat) (p : BASS_VST_PLUGIN) (list : List Nat) (len : Int)
      (answers : List (List Nat × Int)),
      p.aeffect = some m → shellAnswers fuel m p.calls = some answers →
      ∃ t, shellEnumLoop fuel p list len size
        = some ({ p with calls := t },
            list ++ fitEntries size len ((namedAnswers answers).map shellEntry)) := by
  intro fuel
  induction fuel with
  | zero =>
    intro p list len answers _ h
    simp [shellAnswers] at h
  | succ fuel ih =>
    intro p list len answers hm h
    unfold shellEnumLoop
    rw [callDispatcher_eq _ m _ _ _ _ _ (by exact hm) (hdisp _)]
    have hlen := hname p.calls
    simp only [gt_iff_lt, Nat.not_lt.mpr hlen, if_false]
    unfold shellAnswers at h
    simp only at h
    by_cases hr : (m.dispatcher p.calls Opcode.effShellGetNextPlugin 0 0 (some []) 0).ret = 0
    · simp only [hr, if_true, Option.some.injEq] at h
      subst h
      simp only [hr, ne_eq, not_true_eq_false, if_false]
      exact ⟨p.calls ++ [VstCall.dispatcher Opcode.effShellGetNextPlugin 0 0 (some []) 0],
        by simp [namedAnswers, fitEntries]⟩
    · simp only [hr, if_false] at h
      cases hrest : shellAnswers fuel m (p.calls ++ [shellRequest]) with
      | none => rw [hrest] at h; exact absurd h (by simp)
      | some rest =>
        rw [hrest] at h
        simp only [Option.some.injEq] at h
        subst h
        simp only [hr, ne_eq, not_false_eq_true, if_true]
        by_cases hn : cstr ((m.dispatcher p.calls Opcode.effShellGetNextPlugin 0 0 (some [])
            0).out.getD []) = []
        · simp only [hn, not_true_eq_false, if_false]
          obtain ⟨t, ht⟩ := ih
            { p with calls := p.calls ++ [VstCall.dispatcher Opcode.effShellGetNextPlugin 0 0
              (some []) 0] } list len rest hm hrest
          refine ⟨t, ?_⟩
          rw [ht]
          simp [namedAnswers, hn]
        · simp only [hn, not_false_eq_true, if_true]
          have hnamed : namedAnswers
              ((cstr ((m.dispatcher p.calls Opcode.effShellGetNextPlugin 0 0 (some [])
                0).out.getD []),
                (m.dispatcher p.calls Opcode.effShellGetNextPlugin 0 0 (some []) 0).ret) :: rest)
              = (cstr ((m.dispatcher p.calls Opcode.effShellGetNextPlugin 0 0 (some [])
                0).out.getD []),
                (m.dispatcher p.calls Opcode.effShellGetNextPlugin 0 0 (some []) 0).ret)
                  :: namedAnswers rest := by
            simp [namedAnswers, hn]
          rw [hnamed]
          simp only [List.map_cons, fitEntries, shellEntry]
          split
          · obtain ⟨t, ht⟩ := ih
              { p with calls := p.calls ++ [VstCall.dispatcher Opcode.effShellGetNextPlugin 0 0
                (some []) 0] } _ _ rest hm hrest
            refine ⟨t, ?_⟩
            rw [ht]
            simp [shellEntry]
          · exact ⟨p.calls ++ [VstCall.dispatcher Opcode.effShellGetNextPlugin 0 0 (some []) 0],
              by simp⟩

/-- C20 (counterexample): `shellModule` advertises the two sub-modules "AB" (id 1)
and "CD" (id 2); with a caller buffer of 8 bytes `loadVstLibrary` returns false and
the buffer holds the entry of the first sub-module only. -/
theorem shell_listing_truncated :
    shellAnswers 3 shellModule [categoryRequest] = some [([65, 66], 1), ([67, 68], 2)]
      ∧ (loadVstLibrary 3 (processWith freshInstance) freshInstance shellLibrary 0 (some []) 8
          0).map (fun r => (r.ret, r.pluginList))
        = some (false, some [65, 66, 9, 49, 10]) := by
  decide

/-- C20 (amended): when `loadVstLibrary` is invoked with `pluginID` 0 and a caller
buffer of positive size on a shell module that ends its enumeration with id 0
(within `fuel` requests) and writes names of at most 64 characters, it returns
false with `BASS_ERROR_UNKNOWN`, the image is closed, and the buffer contains, in
order, one "name TAB id NEWLINE" entry for every advertised sub-module with a
non-empty name, up to the first entry that no longer leaves room in the buffer
(that entry and all later ones are left out).  When every name is non-empty and
the whole listing is shorter than the buffer, that is one entry for every
advertised sub-module. -/
theorem loadVstLibrary_shell_listing (fuel : Nat) (g : Global) (p : BASS_VST_PLUGIN)
    (lib : VstLibrary) (createFlags : Nat) (buf : List Nat) (size : Int) (m : VstModule)
    (answers : List (List Nat × Int))
    (hopen : lib.canOpen = true) (hentry : lib.hasEntry = true) (hm : lib.entry = some m)
    (hok : (m.desc []).passes) (hdisp : ∀ t, (m.desc t).dispatcher = true)
    (hshell : (m.dispatcher [] Opcode.effGetPlugCategory 0 0 none 0).ret = kPlugCategShell)
    (hsize : 0 < size)
    (hname : ∀ t, (cstr ((m.dispatcher t Opcode.effShellGetNextPlugin 0 0 (some [])
      0).out.getD [])).length ≤ 64)
    (hans : shellAnswers fuel m [categoryRequest] = some answers) :
    ∃ r, loadVstLibrary fuel g p lib createFlags (some buf) size 0 = some r
      ∧ r.ret = false
      ∧ (g.s_bassfunc = true → r.g.lastError = BassError.BASS_ERROR_UNKNOWN)
      ∧ r.this_.hinst = none
      ∧ r.pluginList = some (fitEntries size 0 ((namedAnswers answers).map shellEntry))
      ∧ ((∀ a ∈ answers, a.1 ≠ []) → ((fullListing answers).length : Int) < size →
          r.pluginList = some (fullListing answers)) := by
  obtain ⟨hmagic, hproc, hd0⟩ := hok
  have hcond : ¬ ((m.desc []).magic ≠ kEffectMagic
      ∨ ((m.desc []).processDeprecated = false ∧ (m.desc []).processReplacing = false
          ∧ (m.desc []).canDoubleReplacing = false)
      ∨ (m.desc []).dispatcher = false) := by
    rintro (h | h | h)
    · exact h hmagic
    · exact hproc h
    · rw [hd0] at h; exact absurd h (by simp)
  obtain ⟨t, hloop⟩ := shellEnumLoop_spec m size hname hdisp fuel
    { p with
      createFlags := createFlags
      hinst := some lib
      pluginID := 0
      aeffect := some m
      calls := [categoryRequest] } [] 0 answers rfl hans
  have hload : loadVstLibrary fuel g p lib createFlags (some buf) size 0
      = loadFailClose { g with s_inConstructionVstHandle := p.vstHandle }
          { p with
            createFlags := createFlags
            hinst := some lib
            pluginID := 0
            aeffect := some m
            calls := t } BassError.BASS_ERROR_UNKNOWN
          (some (fitEntries size 0 ((namedAnswers answers).map shellEntry))) := by
    unfold loadVstLibrary
    simp only [hopen, if_true, hentry, Bool.true_eq_false, if_false, hm, BASS_VST_PLUGIN.aeff,
      hcond, loadShell]
    rw [callDispatcher_eq _ m _ _ _ _ _ (by rfl) (by exact hd0)]
    simp only [hshell, and_self, if_true, gt_iff_lt, hsize, List.nil_append]
    have hloop2 := hloop
    simp only [categoryRequest, List.nil_append] at hloop2
    rw [hloop2]
    rfl
  obtain ⟨r, hr, hret, herr, hh⟩ := loadFailClose_rejected_plain g
    { g with s_inConstructionVstHandle := p.vstHandle }
    { p with
      createFlags := createFlags
      hinst := some lib
      pluginID := 0
      aeffect := some m
      calls := t } BassError.BASS_ERROR_UNKNOWN
    (some (fitEntries size 0 ((namedAnswers answers).map shellEntry)))
    (fun m1 hm1 => by
      simp only [Option.some.injEq] at hm1
      rw [← hm1]
      exact hdisp _) (fun h => h)
  have hlist : r.pluginList
      = some (fitEntries size 0 ((namedAnswers answers).map shellEntry)) := by
    unfold loadFailClose at hr
    split at hr
    · exact absurd hr (by simp)
    · simp only [Option.some.injEq] at hr
      rw [← hr]
  refine ⟨r, by rw [hload]; exact hr, hret, herr, hh, hlist, ?_⟩
  intro hall hfits
  rw [hlist, namedAnswers_all answers hall]
  unfold fullListing at hfits ⊢
  rw [fitEntries_all size _ 0 (by omega)]

/-- Loading `shellLibrary` without a sub-module id and with a buffer of 64 bytes
lists both sub-modules. -/
theorem loadVstLibrary_shell_listing_witness :
    ∃ r, loadVstLibrary 3 (processWith freshInstance) freshInstance shellLibrary 0 (some []) 64 0
          = some r
      ∧ r.ret = false
      ∧ ((processWith freshInstance).s_bassfunc = true
          → r.g.lastError = BassError.BASS_ERROR_UNKNOWN)
      ∧ r.this_.hinst = none
      ∧ r.pluginList = some (fitEntries 64 0
          ((namedAnswers [([65, 66], 1), ([67, 68], 2)]).map shellEntry))
      ∧ ((∀ a ∈ [(([65, 66] : List Nat), (1 : Int)), ([67, 68], 2)], a.1 ≠ []) →
          ((fullListing [([65, 66], 1), ([67, 68], 2)]).length : Int) < 64 →
          r.pluginList = some (fullListing [([65, 66], 1), ([67, 68], 2)])) :=
  loadVstLibrary_shell_listing 3 (processWith freshInstance) freshInstance shellLibrary 0 [] 64
    shellModule [([65, 66], 1), ([67, 68], 2)] (by rfl) (by rfl) (by rfl)
    ⟨by decide, by decide, by rfl⟩ (fun _ => rfl) (by rfl) (by decide)
    (fun t => by
      show (cstr ((shellModule.dispatcher t Opcode.effShellGetNextPlugin 0 0 (some [])
        0).out.getD [])).length ≤ 64
      unfold shellModule
      simp only
      split <;> decide)
    (by decide)

/-! ## Failure without an error code (C21) -/

/-- C21 (the defect): for the handle 0 and for every handle that does not
resolve, `BASS_VST_StorePreset`, `BASS_VST_RecallPreset` (whatever the code after
their guards does) and `BASS_VST_HasEditor` return false and leave the process
state exactly as it was: no error code is set, so the error slot still holds what
the call before left there (`BASS_OK` after a success). -/
theorem preset_guards_fail_without_error
    (rest : Global → BASS_VST_PLUGIN → Option (Bool × Global)) (g : Global) (vstHandle : Nat)
    (hbad : vstHandle = 0 ∨ g.handles vstHandle = none) :
    BASS_VST_StorePreset rest g vstHandle = some (false, g)
      ∧ BASS_VST_RecallPreset rest g vstHandle = some (false, g)
      ∧ BASS_VST_HasEditor g vstHandle = some (false, g) := by
  unfold BASS_VST_StorePreset BASS_VST_RecallPreset BASS_VST_HasEditor
  by_cases h0 : vstHandle = 0
  · simp only [h0, if_true, and_self]
  · rcases hbad with h | h
    · exact absurd h h0
    · simp only [h0, if_false, refHandle_none g vstHandle h]
      simp only [unrefHandle, h, and_self]

/-- The unknown handle 7 in a process whose last call succeeded: the three answers
are false and the error slot still says `BASS_OK`. -/
theorem preset_guards_fail_without_error_witness :
    (BASS_VST_StorePreset (fun g _ => some (true, g)) (processWith startedInstance) 7
          = some (false, processWith startedInstance)
        ∧ BASS_VST_RecallPreset (fun g _ => some (true, g)) (processWith startedInstance) 7
          = some (false, processWith startedInstance)
        ∧ BASS_VST_HasEditor (processWith startedInstance) 7
          = some (false, processWith startedInstance))
      ∧ (processWith startedInstance).lastError = BassError.BASS_OK :=
  ⟨preset_guards_fail_without_error (fun g _ => some (true, g)) (processWith startedInstance) 7
    (Or.inr (by rfl)), by rfl⟩

/-! ## Closing twice (C22) -/

/-- C22: whenever a first `closeVstLibrary` returns (it does when the dispatcher it
calls is not NULL), a second call right after it returns as well and changes
nothing: the instance is the one the first call left, so no opcode is sent
(`calls`) and no image is released (`hinst` is NULL already). -/
theorem closeVstLibrary_idempotent (p : BASS_VST_PLUGIN)
    (hd : ∀ m, p.aeffect = some m → (m.desc p.calls).dispatcher = true) :
    ∃ q, closeVstLibrary p = some q ∧ closeVstLibrary q = some q ∧ q.hinst = none
      ∧ ∀ q1, closeVstLibrary p = some q1 → closeVstLibrary q1 = some q1 := by
  obtain ⟨q, hq, hh⟩ := closeVstLibrary_hinst p hd
  have key : ∀ q1 : BASS_VST_PLUGIN, q1.hinst = none → closeVstLibrary q1 = some q1 := by
    intro q1 h1
    unfold closeVstLibrary
    rw [h1]
  refine ⟨q, hq, key q hh, hh, ?_⟩
  intro q1 h1
  exact key q1 (closeVstLibrary_some_hinst p q1 h1)

/-- Closing the started instance of `gainModule` twice. -/
theorem closeVstLibrary_idempotent_witness :
    ∃ q, closeVstLibrary startedInstance = some q ∧ closeVstLibrary q = some q ∧ q.hinst = none
      ∧ ∀ q1, closeVstLibrary startedInstance = some q1 → closeVstLibrary q1 = some q1 :=
  closeVstLibrary_idempotent startedInstance (fun m hm => by
    have : m = gainModule := by
      have h2 : some gainModule = some m := hm
      exact (Option.some.inj h2).symm
    subst this
    rfl)


/-! ## Bypass with a value other than 0 and 1 (C25) -/

/-- C25 (the defect): on a started, referenced, bypassed instance (`doBypass` is
`TRUE`, that is 1), `BASS_VST_SetBypass` with a true value `b` other than 1 succeeds
and sends the suspend signal again, although the truth value of `b` agrees with
the bypass state: the comparison `newDoBypass != this_->doBypass` is one of
integers. -/
theorem setBypass_true_value_repeats (g : Global) (h : Nat) (p : BASS_VST_PLUGIN)
    (m : VstModule) (b : Int)
    (hres : g.handles h = some p) (hlive : 0 < p.handleUsage)
    (hstart : p.effStartProcessCalled = true) (hon : p.doBypass = 1)
    (hb0 : b ≠ 0) (hb1 : b ≠ 1)
    (hm : p.aeffect = some m) (hd : ∀ t, (m.desc t).dispatcher = true) :
    ∃ g1, BASS_VST_SetBypass g h b = some (true, g1)
      ∧ g1.handles h = some { p with
          calls := p.calls ++ [VstCall.dispatcher Opcode.effMainsChanged 0 0 none 0] } := by
  have hbody : setBypassBody { p with handleUsage := p.handleUsage + 1 } b
      = some { p with
          handleUsage := p.handleUsage + 1, doBypass := 1,
          calls := p.calls ++ [VstCall.dispatcher Opcode.effMainsChanged 0 0 none 0] } := by
    unfold setBypassBody
    simp only [hon, ne_eq, hb1, hb0, not_false_eq_true, if_true]
    rw [callDispatcher_eq _ m _ _ _ _ _ (by exact hm) (hd _)]
  refine ⟨_, SetBypass_started g h p _ b hres hlive hstart hbody rfl, ?_⟩
  simp only [SET_ERROR_handles, Global.put, Function.update_same]
  congr 1
  cases p
  simp only at hon
  simp [hon]

/-- The bypassed instance is sent suspend a second time by `BASS_VST_SetBypass(h, 2)`. -/
theorem setBypass_true_value_repeats_witness :
    ∃ g1, BASS_VST_SetBypass (processWith bypassedInstance) 1 2 = some (true, g1)
      ∧ g1.handles 1 = some { bypassedInstance with
          calls := bypassedInstance.calls
            ++ [VstCall.dispatcher Opcode.effMainsChanged 0 0 none 0] } :=
  setBypass_true_value_repeats (processWith bypassedInstance) 1 bypassedInstance gainModule 2
    (by rfl) (by decide) (by rfl) (by rfl) (by decide) (by decide) (by rfl) (fun _ => rfl)

/-! ## Dispatching to a rejected descriptor (C26) -/

/-- C26 (the defect): loading an image whose descriptor has a wrong magic tag
returns false after `effClose` was sent through the dispatcher of that
descriptor, and loading one whose descriptor has a NULL dispatcher does not
return (the same call goes through the NULL pointer). -/
theorem loadVstLibrary_dispatches_to_rejected :
    (loadVstLibrary 0 (processWith freshInstance) freshInstance badMagicLibrary 0 none 0
        0).map (fun r => (r.ret, r.this_.calls))
      = some (false, [VstCall.dispatcher Opcode.effClose 0 0 none 0])
    ∧ (loadVstLibrary 0 (processWith freshInstance) freshInstance noDispatcherLibrary 0 none 0
        0).map (fun r => r.ret) = none := by
  decide

/-! ## The in-construction handle (C30) -/

/-- C30 (the defect): loading the shell module `shellLibrary` without a sub-module
id into the instance with handle 1 starts with `s_inConstructionVstHandle` equal to
0 and returns false with `s_inConstructionVstHandle` equal to 1. -/
theorem loadVstLibrary_shell_keeps_inConstruction :
    (processWith freshInstance).s_inConstructionVstHandle = 0
      ∧ (loadVstLibrary 3 (processWith freshInstance) freshInstance shellLibrary 0 (some []) 64
          0).map (fun r => (r.ret, r.g.s_inConstructionVstHandle))
        = some (false, 1) := by
  decide


theorem SET_ERROR_inConstruction (g : Global) (e : BassError) :
    (SET_ERROR g e).s_inConstructionVstHandle = g.s_inConstructionVstHandle := by
  unfold SET_ERROR; split <;> rfl

theorem malloc_snd_inConstruction (g : Global) :
    (malloc g).2.s_inConstructionVstHandle = g.s_inConstructionVstHandle := by
  rw [malloc_glob g]

theorem loadFailClose_inConstruction (g : Global) (p : BASS_VST_PLUGIN) (e : BassError)
    (list : Option (List Nat)) (r : LoadResult) (h : loadFailClose g p e list = some r) :
    r.g.s_inConstructionVstHandle = g.s_inConstructionVstHandle := by
  unfold loadFailClose at h
  split at h
  · exact absurd h (by simp)
  · simp only [Option.some.injEq] at h
    rw [← h]
    exact SET_ERROR_inConstruction g e

theorem loadSnapshot_inConstruction (g : Global) (p : BASS_VST_PLUGIN)
    (list : Option (List Nat)) (r : LoadResult) (h : loadSnapshot g p list = some r) :
    r.g.s_inConstructionVstHandle = g.s_inConstructionVstHandle := by
  unfold loadSnapshot at h
  simp only at h
  split at h
  · exact absurd h (by simp)
  · split at h
    · simp only [Option.some.injEq] at h
      rw [← h]
    · split at h
      · exact absurd h (by simp)
      · split at h
        · exact absurd h (by simp)
        · split at h
          · exact absurd h (by simp)
          · split at h
            · split at h
              · simp only [Option.some.injEq] at h
                rw [← h]
                simp only [SET_ERROR_inConstruction, malloc_snd_inConstruction]
              · split at h
                · exact absurd h (by simp)
                · simp only [Option.some.injEq] at h
                  rw [← h]
                  simp only [malloc_snd_inConstruction]
            · simp only [Option.some.injEq] at h
              rw [← h]

theorem loadOpen_inConstruction (g : Global) (p : BASS_VST_PLUGIN) (list : Option (List Nat))
    (r : LoadResult) (h : loadOpen g p list = some r) :
    r.g.s_inConstructionVstHandle = g.s_inConstructionVstHandle := by
  unfold loadOpen at h
  split at h
  · exact absurd h (by simp)
  · split at h
    · exact loadFailClose_inConstruction _ _ _ _ r h
    · split at h
      · exact loadFailClose_inConstruction _ _ _ _ r h
      · split at h
        · exact absurd h (by simp)
        · try simp only at h
          split at h
          · exact absurd h (by simp)
          · split at h
            · exact loadFailClose_inConstruction _ _ _ _ r h
            · try simp only at h
              split at h
              · exact absurd h (by simp)
              · split at h
                · exact absurd h (by simp)
                · split at h
                  · exact absurd h (by simp)
                  · split at h
                    · exact absurd h (by simp)
                    · exact loadSnapshot_inConstruction _ _ _ r h

/-- Every exit of `loadVstLibrary` entered with `s_inConstructionVstHandle` equal to 0
leaves it 0, except the exit of the shell enumeration, which leaves the handle of
the instance in it. -/
theorem loadVstLibrary_inConstruction (fuel : Nat) (g : Global) (p : BASS_VST_PLUGIN)
    (lib : VstLibrary) (createFlags : Nat) (list : Option (List Nat)) (size pluginID : Int)
    (r : LoadResult) (h : loadVstLibrary fuel g p lib createFlags list size pluginID = some r)
    (h0 : g.s_inConstructionVstHandle = 0) :
    r.g.s_inConstructionVstHandle = 0
      ∨ (r.g.s_inConstructionVstHandle = p.vstHandle ∧ pluginID = 0
          ∧ ∃ m, lib.entry = some m
            ∧ (m.dispatcher [] Opcode.effGetPlugCategory 0 0 none 0).ret = kPlugCategShell) := by
  unfold loadVstLibrary at h
  simp only at h
  split at h
  · simp only [Option.some.injEq] at h
    rw [← h]
    exact Or.inl (by rw [SET_ERROR_inConstruction]; exact h0)
  · split at h
    · exact Or.inl (by rw [loadFailClose_inConstruction _ _ _ _ r h]; exact h0)
    · have hmap : ∀ (g0 : Global) (q : BASS_VST_PLUGIN) (e : BassError),
          (loadFailClose g0 q e list).map
            (fun r0 => { r0 with g := { r0.g with s_inConstructionVstHandle := 0 } }) = some r →
          r.g.s_inConstructionVstHandle = 0 := by
        intro g0 q e hm
        cases hl : loadFailClose g0 q e list with
        | none => rw [hl] at hm; exact absurd hm (by simp)
        | some r0 =>
          rw [hl] at hm
          simp only [Option.map_some', Option.some.injEq] at hm
          rw [← hm]
      split at h
      · exact Or.inl (hmap _ _ _ h)
      · rename_i ae hae
        split at h
        · exact Or.inl (hmap _ _ _ h)
        · rename_i hvalid
          cases hm : lib.entry with
          | none => simp [BASS_VST_PLUGIN.aeff, hm] at hae
          | some m =>
            simp only [BASS_VST_PLUGIN.aeff, hm, Option.some.injEq] at hae
            have hd : (m.desc []).dispatcher = true := by
              rw [hae]
              by_contra hc
              exact hvalid (Or.inr (Or.inr (by simpa using hc)))
            unfold loadShell at h
            rw [callDispatcher_eq _ m _ _ _ _ _ (by exact hm) (by exact hd)] at h
            simp only at h
            split at h
            · rename_i hshell
              split at h
              · exact absurd h (by simp)
              · refine Or.inr ⟨?_, hshell.2, m, rfl, hshell.1⟩
                rw [loadFailClose_inConstruction _ _ _ _ r h]
            · exact Or.inl (by rw [loadOpen_inConstruction _ _ _ r h])


/-! ## The bounds of the shell listing (C27) -/

theorem fitEntries_length (size : Int) (es : List (List Nat)) :
    ∀ len : Int, len < size → len + ((fitEntries size len es).length : Int) < size := by
  induction es with
  | nil => intro len h; simpa [fitEntries] using h
  | cons e rest ih =>
    intro len h
    unfold fitEntries
    split
    · rename_i hfit
      have := ih (len + (e.length : Int)) (by omega)
      simp only [List.length_append, Nat.cast_add]
      omega
    · simpa using h

theorem fitEntries_whole (size : Int) (es : List (List Nat)) :
    ∀ len : Int, ∃ k, fitEntries size len es = (es.take k).flatten := by
  induction es with
  | nil => intro len; exact ⟨0, rfl⟩
  | cons e rest ih =>
    intro len
    unfold fitEntries
    split
    · obtain ⟨k, hk⟩ := ih (len + (e.length : Int))
      exact ⟨k + 1, by rw [hk]; simp⟩
    · exact ⟨0, rfl⟩

theorem load_shell_result (fuel : Nat) (g : Global) (p : BASS_VST_PLUGIN)
    (lib : VstLibrary) (createFlags : Nat) (buf : List Nat) (size : Int) (m : VstModule)
    (answers : List (List Nat × Int))
    (hopen : lib.canOpen = true) (hentry : lib.hasEntry = true) (hm : lib.entry = some m)
    (hok : (m.desc []).passes) (hdisp : ∀ t, (m.desc t).dispatcher = true)
    (hshell : (m.dispatcher [] Opcode.effGetPlugCategory 0 0 none 0).ret = kPlugCategShell)
    (hsize : 0 < size)
    (hname : ∀ t, (cstr ((m.dispatcher t Opcode.effShellGetNextPlugin 0 0 (some [])
      0).out.getD [])).length ≤ 64)
    (hans : shellAnswers fuel m [categoryRequest] = some answers) :
    ∃ r, loadVstLibrary fuel g p lib createFlags (some buf) size 0 = some r
      ∧ r.ret = false
      ∧ r.pluginList = some (fitEntries size 0 ((namedAnswers answers).map shellEntry)) := by
  obtain ⟨hmagic, hproc, hd0⟩ := hok
  have hcond : ¬ ((m.desc []).magic ≠ kEffectMagic
      ∨ ((m.desc []).processDeprecated = false ∧ (m.desc []).processReplacing = false
          ∧ (m.desc []).canDoubleReplacing = false)
      ∨ (m.desc []).dispatcher = false) := by
    rintro (h | h | h)
    · exact h hmagic
    · exact hproc h
    · rw [hd0] at h; exact absurd h (by simp)
  obtain ⟨t, hloop⟩ := shellEnumLoop_spec m size hname hdisp fuel
    { p with
      createFlags := createFlags
      hinst := some lib
      pluginID := 0
      aeffect := some m
      calls := [categoryRequest] } [] 0 answers rfl hans
  have hload : loadVstLibrary fuel g p lib createFlags (some buf) size 0
      = loadFailClose { g with s_inConstructionVstHandle := p.vstHandle }
          { p with
            createFlags := createFlags
            hinst := some lib
            pluginID := 0
            aeffect := some m
            calls := t } BassError.BASS_ERROR_UNKNOWN
          (some (fitEntries size 0 ((namedAnswers answers).map shellEntry))) := by
    unfold loadVstLibrary
    simp only [hopen, if_true, hentry, Bool.true_eq_false, if_false, hm, BASS_VST_PLUGIN.aeff,
      hcond, loadShell]
    rw [callDispatcher_eq _ m _ _ _ _ _ (by rfl) (by exact hd0)]
    simp only [hshell, and_self, if_true, gt_iff_lt, hsize, List.nil_append]
    have hloop2 := hloop
    simp only [categoryRequest, List.nil_append] at hloop2
    rw [hloop2]
    rfl
  obtain ⟨r, hr, hret, _, _⟩ := loadFailClose_rejected_plain g
    { g with s_inConstructionVstHandle := p.vstHandle }
    { p with
      createFlags := createFlags
      hinst := some lib
      pluginID := 0
      aeffect := some m
      calls := t } BassError.BASS_ERROR_UNKNOWN
    (some (fitEntries size 0 ((namedAnswers answers).map shellEntry)))
    (fun m1 hm1 => by
      simp only [Option.some.injEq] at hm1
      rw [← hm1]
      exact hdisp _) (fun h => h)
  have hlist : r.pluginList
      = some (fitEntries size 0 ((namedAnswers answers).map shellEntry)) := by
    unfold loadFailClose at hr
    split at hr
    · exact absurd hr (by simp)
    · simp only [Option.some.injEq] at hr
      rw [← hr]
  exact ⟨r, by rw [hload]; exact hr, hret, hlist⟩

/-- C27: for every buffer size `pluginListSize > 0` and every shell module that
advertises a sequence of sub-modules (it answers id 0 within `fuel` requests) with
names of at most 64 characters, the enumeration of `loadVstLibrary` leaves in the
caller's buffer a C string `l` whose length is strictly less than `pluginListSize`
(with its terminating NUL it fits the buffer), and `l` is the concatenation of
whole "name TAB id NEWLINE" entries: those of the first `k` named sub-modules, for
some `k`. -/
theorem shell_listing_within_buffer (fuel : Nat) (g : Global) (p : BASS_VST_PLUGIN)
    (lib : VstLibrary) (createFlags : Nat) (buf : List Nat) (size : Int) (m : VstModule)
    (answers : List (List Nat × Int))
    (hopen : lib.canOpen = true) (hentry : lib.hasEntry = true) (hm : lib.entry = some m)
    (hok : (m.desc []).passes) (hdisp : ∀ t, (m.desc t).dispatcher = true)
    (hshell : (m.dispatcher [] Opcode.effGetPlugCategory 0 0 none 0).ret = kPlugCategShell)
    (hsize : 0 < size)
    (hname : ∀ t, (cstr ((m.dispatcher t Opcode.effShellGetNextPlugin 0 0 (some [])
      0).out.getD [])).length ≤ 64)
    (hans : shellAnswers fuel m [categoryRequest] = some answers) :
    ∃ r l k, loadVstLibrary fuel g p lib createFlags (some buf) size 0 = some r
      ∧ r.pluginList = some l
      ∧ (l.length : Int) < size
      ∧ l = (((namedAnswers answers).map shellEntry).take k).flatten := by
  obtain ⟨r, hr, _, hlist⟩ := load_shell_result fuel g p lib createFlags buf size m answers
    hopen hentry hm hok hdisp hshell hsize hname hans
  obtain ⟨k, hk⟩ := fitEntries_whole size ((namedAnswers answers).map shellEntry) 0
  have hlen := fitEntries_length size ((namedAnswers answers).map shellEntry) 0 hsize
  exact ⟨r, _, k, hr, hlist, by omega, hk⟩

/-- Loading `shellLibrary` with a buffer of 8 bytes: the listing has 5 characters,
the entry of the first sub-module. -/
theorem shell_listing_within_buffer_witness :
    ∃ r l k, loadVstLibrary 3 (processWith freshInstance) freshInstance shellLibrary 0 (some [])
          8 0 = some r
      ∧ r.pluginList = some l
      ∧ (l.length : Int) < 8
      ∧ l = (((namedAnswers [([65, 66], 1), ([67, 68], 2)]).map shellEntry).take k).flatten :=
  shell_listing_within_buffer 3 (processWith freshInstance) freshInstance shellLibrary 0 [] 8
    shellModule [([65, 66], 1), ([67, 68], 2)] (by rfl) (by rfl) (by rfl)
    ⟨by decide, by decide, by rfl⟩ (fun _ => rfl) (by rfl) (by decide)
    (fun t => by
      show (cstr ((shellModule.dispatcher t Opcode.effShellGetNextPlugin 0 0 (some [])
        0).out.getD [])).length ≤ 64
      unfold shellModule
      simp only
      split <;> decide)
    (by decide)


/-! ## Bypass, resume and the mains-changed signal (C24) -/

theorem lastMains_append_mains (t : List VstCall) (v : Int) :
    lastMains (t ++ [VstCall.dispatcher Opcode.effMainsChanged 0 v none 0]) = some v := by
  simp [lastMains, mainsChangedCalls, List.filterMap_append]

theorem lastMains_append_two (t : List VstCall) (v w : Int) :
    lastMains (t ++ [VstCall.dispatcher Opcode.effMainsChanged 0 v none 0,
      VstCall.dispatcher Opcode.effMainsChanged 0 w none 0]) = some w := by
  simp [lastMains, mainsChangedCalls, List.filterMap_append]

theorem plugin_usage_back (p : BASS_VST_PLUGIN) :
    ({ ({ p with handleUsage := p.handleUsage + 1 } : BASS_VST_PLUGIN) with
        handleUsage := p.handleUsage } : BASS_VST_PLUGIN) = p := by
  cases p; rfl

theorem SetBypass_step (g : Global) (h : Nat) (p : BASS_VST_PLUGIN) (m : VstModule) (b : Int)
    (hres : g.handles h = some p) (hlive : 0 < p.handleUsage)
    (hstart : p.effStartProcessCalled = true)
    (hm : p.aeffect = some m) (hd : ∀ t, (m.desc t).dispatcher = true) :
    ∃ g1 q, BASS_VST_SetBypass g h b = some (true, g1) ∧ g1.handles h = some q
      ∧ q.handleUsage = p.handleUsage ∧ q.effStartProcessCalled = true ∧ q.aeffect = some m
      ∧ ((b = p.doBypass ∧ q = p)
        ∨ (b ≠ p.doBypass ∧ b ≠ 0 ∧ q.doBypass = 1
            ∧ q.calls = p.calls ++ [VstCall.dispatcher Opcode.effMainsChanged 0 0 none 0])
        ∨ (b ≠ p.doBypass ∧ b = 0 ∧ q.doBypass = 0
            ∧ q.calls = p.calls ++ [VstCall.dispatcher Opcode.effMainsChanged 0 1 none 0])) := by
  by_cases heq : b = p.doBypass
  · have hbody : setBypassBody { p with handleUsage := p.handleUsage + 1 } b
        = some { p with handleUsage := p.handleUsage + 1 } := by
      have h1 : ¬ b ≠ ({ p with handleUsage := p.handleUsage + 1 } : BASS_VST_PLUGIN).doBypass :=
        not_not.mpr heq
      unfold setBypassBody
      rw [if_neg h1]
    refine ⟨_, p, SetBypass_started g h p _ b hres hlive hstart hbody rfl, ?_, rfl, hstart, hm,
      Or.inl ⟨heq, rfl⟩⟩
    simp only [SET_ERROR_handles, Global.put, Function.update_same, plugin_usage_back]
  · by_cases hb0 : b = 0
    · have hbody : setBypassBody { p with handleUsage := p.handleUsage + 1 } b
          = some { p with
              handleUsage := p.handleUsage + 1, doBypass := 0,
              calls := p.calls ++ [VstCall.dispatcher Opcode.effMainsChanged 0 1 none 0] } := by
        have h1 : b ≠ ({ p with handleUsage := p.handleUsage + 1 } : BASS_VST_PLUGIN).doBypass :=
          heq
        unfold setBypassBody
        rw [if_pos h1, if_neg (not_not.mpr hb0)]
        rw [callDispatcher_eq _ m _ _ _ _ _ (by exact hm) (hd _)]
      refine ⟨_, { p with
          doBypass := 0,
          calls := p.calls ++ [VstCall.dispatcher Opcode.effMainsChanged 0 1 none 0] },
        SetBypass_started g h p _ b hres hlive hstart hbody rfl, ?_, rfl, hstart, hm,
        Or.inr (Or.inr ⟨heq, hb0, rfl, rfl⟩)⟩
      simp only [SET_ERROR_handles, Global.put, Function.update_same]
    · have hbody : setBypassBody { p with handleUsage := p.handleUsage + 1 } b
          = some { p with
              handleUsage := p.handleUsage + 1, doBypass := 1,
              calls := p.calls ++ [VstCall.dispatcher Opcode.effMainsChanged 0 0 none 0] } := by
        have h1 : b ≠ ({ p with handleUsage := p.handleUsage + 1 } : BASS_VST_PLUGIN).doBypass :=
          heq
        unfold setBypassBody
        rw [if_pos h1, if_pos hb0]
        rw [callDispatcher_eq _ m _ _ _ _ _ (by exact hm) (hd _)]
      refine ⟨_, { p with
          doBypass := 1,
          calls := p.calls ++ [VstCall.dispatcher Opcode.effMainsChanged 0 0 none 0] },
        SetBypass_started g h p _ b hres hlive hstart hbody rfl, ?_, rfl, hstart, hm,
        Or.inr (Or.inl ⟨heq, hb0, rfl, rfl⟩)⟩
      simp only [SET_ERROR_handles, Global.put, Function.update_same]

theorem Resume_step (g : Global) (h : Nat) (p : BASS_VST_PLUGIN) (m : VstModule)
    (hres : g.handles h = some p) (hlive : 0 < p.handleUsage)
    (hstart : p.effStartProcessCalled = true)
    (hm : p.aeffect = some m) (hd : ∀ t, (m.desc t).dispatcher = true) :
    ∃ g1, BASS_VST_Resume g h = some (true, g1)
      ∧ g1.handles h = some { p with
          calls := p.calls ++ [VstCall.dispatcher Opcode.effMainsChanged 0 0 none 0,
            VstCall.dispatcher Opcode.effMainsChanged 0 1 none 0] } := by
  unfold BASS_VST_Resume
  rw [refHandle_some g h p hres]
  have hs : ({ p with handleUsage := p.handleUsage + 1 } : BASS_VST_PLUGIN).effStartProcessCalled
      = true := hstart
  simp only
  rw [if_neg (by rw [hs]; decide)]
  rw [callDispatcher_eq _ m _ _ _ _ _ (by exact hm) (hd _)]
  simp only
  rw [callDispatcher_eq _ m _ _ _ _ _ (by exact hm) (hd _)]
  simp only
  rw [release_after g h _ _ (by simp only; omega)]
  refine ⟨_, rfl, ?_⟩
  simp only [RETURN_SUCCESS, SET_ERROR_handles, Global.put, Function.update_same,
    Nat.add_sub_cancel, List.append_assoc, List.singleton_append]

theorem bypass_run_invariant (h : Nat) (m : VstModule)
    (hd : ∀ t, (m.desc t).dispatcher = true) (calls : List BypassCall) :
    ∀ (g : Global) (p : BASS_VST_PLUGIN) (sb : Prop),
      g.handles h = some p → 0 < p.handleUsage → p.effStartProcessCalled = true →
      p.aeffect = some m →
      (lastMains p.calls = some 0 → p.doBypass ≠ 0) →
      (sb → p.doBypass ≠ 0 → lastMains p.calls = some 0) →
      ∃ g1 q, runBypassCalls h g calls = some g1 ∧ g1.handles h = some q
        ∧ (lastMains q.calls = some 0 → q.doBypass ≠ 0)
        ∧ (sb →
            (∀ pre post g2 q2, calls = pre ++ BypassCall.resume :: post →
              runBypassCalls h g pre = some g2 → g2.handles h = some q2 → q2.doBypass = 0) →
            q.doBypass ≠ 0 → lastMains q.calls = some 0)
        ∧ (calls.getLast? = some BypassCall.resume → lastMains q.calls = some 1) := by
  induction calls with
  | nil =>
    intro g p sb hres _ _ _ hJ hJ2
    exact ⟨g, p, rfl, hres, hJ, fun hsb _ => hJ2 hsb, fun hl => absurd hl (by simp)⟩
  | cons c rest ih =>
    intro g p sb hres hlive hstart hm hJ hJ2
    cases c with
    | setBypass b =>
      obtain ⟨g1, q, hrun, hq, hu, hs, hmq, hcase⟩ :=
        SetBypass_step g h p m b hres hlive hstart hm hd
      have hJq : lastMains q.calls = some 0 → q.doBypass ≠ 0 := by
        rcases hcase with ⟨_, rfl⟩ | ⟨_, _, hb, _⟩ | ⟨_, _, _, hc⟩
        · exact hJ
        · intro _; rw [hb]; decide
        · intro hl
          rw [hc, lastMains_append_mains] at hl
          exact absurd hl (by decide)
      have hJ2q : sb → q.doBypass ≠ 0 → lastMains q.calls = some 0 := by
        rcases hcase with ⟨_, rfl⟩ | ⟨_, _, _, hc⟩ | ⟨_, _, hb, _⟩
        · exact hJ2
        · intro _ _; rw [hc, lastMains_append_mains]
        · intro _ hne; exact absurd hb hne
      obtain ⟨g2, q2, hrun2, hq2, h1, h2, h3⟩ := ih g1 q sb hq (by omega) hs hmq hJq hJ2q
      refine ⟨g2, q2, ?_, hq2, h1, ?_, ?_⟩
      · simp only [runBypassCalls, BypassCall.run, hrun]
        exact hrun2
      · intro hsb hall
        refine h2 hsb (fun pre post g3 q3 hsplit hpre hq3 => ?_)
        refine hall (BypassCall.setBypass b :: pre) post g3 q3 (by rw [hsplit]; rfl) ?_ hq3
        simp only [runBypassCalls, BypassCall.run, hrun]
        exact hpre
      · intro hl
        cases rest with
        | nil => simp at hl
        | cons c2 rest2 =>
          exact h3 (by simpa [List.getLast?_cons_cons] using hl)
    | resume =>
      obtain ⟨g1, hrun, hq⟩ := Resume_step g h p m hres hlive hstart hm hd
      have hlast : lastMains (p.calls ++ [VstCall.dispatcher Opcode.effMainsChanged 0 0 none 0,
          VstCall.dispatcher Opcode.effMainsChanged 0 1 none 0]) = some 1 :=
        lastMains_append_two _ _ _
      obtain ⟨g2, q2, hrun2, hq2, h1, h2, h3⟩ := ih g1 _ (p.doBypass = 0) hq hlive hstart hm
        (fun hl => by
          simp only at hl
          rw [hlast] at hl
          exact absurd hl (by decide))
        (fun h0 hne => absurd h0 hne)
      refine ⟨g2, q2, ?_, hq2, h1, ?_, ?_⟩
      · simp only [runBypassCalls, BypassCall.run, hrun]
        exact hrun2
      · intro _ hall
        refine h2 (hall [] rest g p rfl rfl hres) (fun pre post g3 q3 hsplit hpre hq3 => ?_)
        refine hall (BypassCall.resume :: pre) post g3 q3 (by rw [hsplit]; rfl) ?_ hq3
        simp only [runBypassCalls, BypassCall.run, hrun]
        exact hpre
      · intro hl
        cases rest with
        | nil =>
          simp only [runBypassCalls, Option.some.injEq] at hrun2
          subst hrun2
          rw [hq] at hq2
          simp only [Option.some.injEq] at hq2
          rw [← hq2]
          exact hlast
        | cons c2 rest2 =>
          exact h3 (by simpa [List.getLast?_cons_cons] using hl)

/-- C24 (counterexample): the started instance `resumedInstance` begins resumed and
not bypassed; after the successful calls `BASS_VST_SetBypass(1, TRUE)` and
`BASS_VST_Resume(1)` its bypass flag is true and the last mains-changed signal the
module received is resume (1), not suspend. -/
theorem bypass_resume_counterexample :
    resumedInstance.effStartProcessCalled = true
      ∧ resumedInstance.doBypass = 0
      ∧ lastMains resumedInstance.calls = some 1
      ∧ ((runBypassCalls 1 (processWith resumedInstance)
            [BypassCall.setBypass 1, BypassCall.resume]).bind (fun g => g.handles 1)).map
          (fun q => (q.doBypass, lastMains q.calls)) = some (1, some 1) := by
  decide

/-- C24 (amended): on a started, referenced instance whose module has a dispatcher,
which begins resumed (the last mains-changed signal was 1) and not bypassed, every
sequence of `BASS_VST_SetBypass` and `BASS_VST_Resume` calls succeeds, and after it
the last mains-changed signal the module received is suspend (0) only if the bypass
flag is true; it is suspend if and only if the flag is true when every
`BASS_VST_Resume` of the sequence was called while the flag was false; and after a
sequence that ends with `BASS_VST_Resume` the last signal is resume (1).  Every
prefix of a sequence is a sequence, so this holds after each call. -/
theorem bypass_signal_invariant (g : Global) (h : Nat) (p : BASS_VST_PLUGIN) (m : VstModule)
    (hres : g.handles h = some p) (hlive : 0 < p.handleUsage)
    (hstart : p.effStartProcessCalled = true)
    (hm : p.aeffect = some m) (hd : ∀ t, (m.desc t).dispatcher = true)
    (hresumed : lastMains p.calls = some 1) (hoff : p.doBypass = 0)
    (calls : List BypassCall) :
    ∃ g1 q, runBypassCalls h g calls = some g1 ∧ g1.handles h = some q
      ∧ (lastMains q.calls = some 0 → q.doBypass ≠ 0)
      ∧ ((∀ pre post g2 q2, calls = pre ++ BypassCall.resume :: post →
            runBypassCalls h g pre = some g2 → g2.handles h = some q2 → q2.doBypass = 0) →
          (lastMains q.calls = some 0 ↔ q.doBypass ≠ 0))
      ∧ (calls.getLast? = some BypassCall.resume → lastMains q.calls = some 1) := by
  obtain ⟨g1, q, hrun, hq, h1, h2, h3⟩ :=
    bypass_run_invariant h m hd calls g p True hres hlive hstart hm
      (fun hl => by rw [hresumed] at hl; exact absurd hl (by decide))
      (fun _ hne => absurd hoff hne)
  exact ⟨g1, q, hrun, hq, h1, fun hall => ⟨h1, h2 trivial hall⟩, h3⟩

/-- The amended C24 on `resumedInstance` and the sequence bypass, un-bypass, resume,
bypass. -/
theorem bypass_signal_invariant_witness :
    ∃ g1 q, runBypassCalls 1 (processWith resumedInstance)
          [BypassCall.setBypass 1, BypassCall.setBypass 0, BypassCall.resume,
            BypassCall.setBypass 1] = some g1
      ∧ g1.handles 1 = some q
      ∧ (lastMains q.calls = some 0 → q.doBypass ≠ 0)
      ∧ ((∀ pre post g2 q2,
            [BypassCall.setBypass 1, BypassCall.setBypass 0, BypassCall.resume,
              BypassCall.setBypass 1] = pre ++ BypassCall.resume :: post →
            runBypassCalls 1 (processWith resumedInstance) pre = some g2 →
            g2.handles 1 = some q2 → q2.doBypass = 0) →
          (lastMains q.calls = some 0 ↔ q.doBypass ≠ 0))
      ∧ (([BypassCall.setBypass 1, BypassCall.setBypass 0, BypassCall.resume,
            BypassCall.setBypass 1] : List BypassCall).getLast? = some BypassCall.resume →
          lastMains q.calls = some 1) :=
  bypass_signal_invariant (processWith resumedInstance) 1 resumedInstance gainModule
    (by rfl) (by decide) (by rfl) (by rfl) (fun _ => rfl) (by decide) (by rfl) _


/-! ## A failing event and the queue (C23) -/

theorem initMidiEvents_queued (g : Global) (this_ : BASS_VST_PLUGIN) :
    (initMidiEvents g this_).2.queuedEvents = this_.queuedEvents := by
  unfold initMidiEvents
  cases hq : this_.midiEventsCurr with
  | some q => rfl
  | none =>
    rcases hmg : malloc g with ⟨ok, g1⟩
    cases ok
    · rfl
    · simp [BASS_VST_PLUGIN.queuedEvents, hq, VstEvents.queued]

theorem queueEventRaw_dichotomy (g : Global) (this_ : BASS_VST_PLUGIN) (a b c : Nat)
    (err : BassError) :
    ((queueEventRaw g this_ a b c none 0 err).2.1.queuedEvents
          = this_.queuedEvents ++ [some (rawMessage a b c)]
        ∧ (queueEventRaw g this_ a b c none 0 err).2.2 = err)
      ∨ ((queueEventRaw g this_ a b c none 0 err).2.1.queuedEvents = this_.queuedEvents
        ∧ (queueEventRaw g this_ a b c none 0 err).2.2 = BassError.BASS_ERROR_MEM) := by
  have hinit := initMidiEvents_queued g this_
  rcases hi : initMidiEvents g this_ with ⟨g1, this1⟩
  rw [hi] at hinit
  simp only at hinit
  unfold queueEventRaw
  simp only [hi]
  cases hq : this1.midiEventsCurr with
  | none => exact Or.inr ⟨hinit, rfl⟩
  | some q =>
    simp only
    have hpush : ∀ e : VstEvent,
        ({ this1 with midiEventsCurr := some (q.push e) } : BASS_VST_PLUGIN).queuedEvents
          = this_.queuedEvents ++ [some e] := by
      intro e
      rw [← hinit]
      simp [BASS_VST_PLUGIN.queuedEvents, hq, VstEvents.queued_push]
    by_cases hfull : q.numEvents ≥ MAX_MIDI_EVENTS
    · rw [if_pos hfull]; exact Or.inr ⟨hinit, rfl⟩
    · rw [if_neg hfull]
      cases hslot : q.events q.numEvents with
      | some e0 => exact Or.inl ⟨hpush _, rfl⟩
      | none =>
        simp only
        rcases hmg : malloc g1 with ⟨ok, g2⟩
        cases ok
        · exact Or.inr ⟨hinit, rfl⟩
        · exact Or.inl ⟨hpush _, rfl⟩

theorem foldl_RAWBYTES_partly (l : List (Nat × Nat × Nat)) :
    ∀ s : EventState, ∃ sub,
      PartlyQueued s (l.foldl (fun s t => RAWBYTES s t.1 t.2.1 t.2.2) s)
        (l.map (fun t => rawMessage t.1 t.2.1 t.2.2)) sub := by
  induction l with
  | nil =>
    intro s
    exact ⟨[], queueStep_refl s, by simp, List.Sublist.slnil, fun _ => rfl,
      fun h1 h2 => absurd h2 h1, fun h => h⟩
  | cons t rest ih =>
    intro s
    obtain ⟨sub, hsub⟩ := ih (RAWBYTES s t.1 t.2.1 t.2.2)
    have hstep : QueueStep s (RAWBYTES s t.1 t.2.1 t.2.2) :=
      queueEventRaw_step s.1 s.2.1 t.1 t.2.1 t.2.2 none 0 s.2.2
    rcases queueEventRaw_dichotomy s.1 s.2.1 t.1 t.2.1 t.2.2 s.2.2 with ⟨hq, he⟩ | ⟨hq, he⟩
    · refine ⟨rawMessage t.1 t.2.1 t.2.2 :: sub, queueStep_trans hstep hsub.step, ?_, ?_, ?_, ?_,
        ?_⟩
      · rw [List.foldl_cons, hsub.queued]
        unfold RAWBYTES
        rw [hq]
        simp
      · exact List.Sublist.cons₂ _ hsub.sublist
      · intro hok
        rw [List.map_cons, hsub.full hok]
      · intro hne h0
        have := hsub.missing hne (by unfold RAWBYTES; rw [he]; exact h0)
        simp only [List.length_cons, List.map_cons]
        omega
      · intro hne
        exact hsub.keep (by unfold RAWBYTES; rw [he]; exact hne)
    · have hmem : (RAWBYTES s t.1 t.2.1 t.2.2).2.2 ≠ BassError.BASS_OK := by
        unfold RAWBYTES; rw [he]; decide
      refine ⟨sub, queueStep_trans hstep hsub.step, ?_, ?_, ?_, ?_, ?_⟩
      · rw [List.foldl_cons, hsub.queued]
        unfold RAWBYTES
        rw [hq]
      · exact List.Sublist.cons _ hsub.sublist
      · intro hok
        exact absurd hok (hsub.keep hmem)
      · intro _ _
        have := hsub.sublist.length_le
        simp only [List.length_cons, List.map_cons]
        omega
      · intro _
        exact hsub.keep hmem

theorem finishEvent_live (h : Nat) (g1 : Global) (p1 : BASS_VST_PLUGIN) (e1 : BassError)
    (hl : 1 < p1.handleUsage) :
    ∃ g2, finishEvent h (g1, p1, e1) = some (decide (e1 = BassError.BASS_OK), g2)
      ∧ g2.handles h = some { p1 with handleUsage := p1.handleUsage - 1 }
      ∧ (g1.s_bassfunc = true → e1 ≠ BassError.BASS_OK → g2.lastError = e1) := by
  unfold finishEvent
  rw [unrefHandle_put _ h p1 hl]
  simp only
  by_cases he : e1 = BassError.BASS_OK
  · simp only [he, if_true, decide_True, RETURN_SUCCESS]
    refine ⟨_, rfl, ?_, fun _ hne => absurd rfl hne⟩
    simp only [SET_ERROR_handles, Global.put, Function.update_same]
  · simp only [he, if_false, decide_False, RETURN_ERROR]
    refine ⟨_, rfl, ?_, fun hb _ => ?_⟩
    · simp only [SET_ERROR_handles, Global.put, Function.update_same]
    · exact SET_ERROR_lastError _ _ hb

theorem queuedEvents_usage (p : BASS_VST_PLUGIN) (n : Nat) :
    ({ p with handleUsage := n } : BASS_VST_PLUGIN).queuedEvents = p.queuedEvents := rfl

theorem eventMessages_unsupported (midiCh : Nat) (id : MidiEventId) (param : Nat)
    (hid : ¬ id.supported = true) : eventMessages midiCh id param = [] := by
  cases id <;> first | (exact absurd rfl hid) | rfl

theorem processEventSwitch_unsupported (midiCh : Nat) (id : MidiEventId) (param : Nat)
    (s : EventState) (hid : ¬ id.supported = true) :
    processEventSwitch midiCh id param s = (s.1, s.2.1, BassError.BASS_ERROR_ILLPARAM) := by
  cases id <;> first | (exact absurd rfl hid) | rfl

/-- C23 (counterexample): the instance `nearlyFullInstance` holds 510 queued events;
`BASS_VST_ProcessEvent` with `MIDI_EVENT_FINETUNE` returns false with
`BASS_ERROR_MEM`, and afterwards 512 events are queued: the first two of the six
messages of the event (the registered-parameter selection, controllers 101 and 100)
were left in the queue. -/
theorem processEvent_failure_counterexample :
    nearlyFullInstance.numQueued = 510
      ∧ (BASS_VST_ProcessEvent (processWith nearlyFullInstance) 1 0
          MidiEventId.MIDI_EVENT_FINETUNE 0).map (fun r => (r.1, r.2.lastError))
        = some (false, BassError.BASS_ERROR_MEM)
      ∧ ((BASS_VST_ProcessEvent (processWith nearlyFullInstance) 1 0
          MidiEventId.MIDI_EVENT_FINETUNE 0).bind (fun r => r.2.handles 1)).map
          (fun q => (q.numQueued, q.midiEventsCurr.map (fun e => [e.events 510, e.events 511])))
        = some (512, some [some (VstEvent.midi 0 true 0xB0 101 0),
            some (VstEvent.midi 0 true 0xB0 100 1)]) := by
  decide

/-- C23 (amended): `BASS_VST_ProcessEvent` on a referenced instance always returns,
and afterwards the queue of the instance holds the events it held before followed
by a sub-sequence (in order) `sub` of the messages of the event; nothing else of
the instance changed.  When the call reports success `sub` is all the messages;
when it reports failure (false, with a non-OK error) at least one message of a
supported event is missing from `sub`, so that for an event of at most one message
the queue holds exactly the events it held before. -/
theorem processEvent_failure_partly (g : Global) (h midiCh : Nat) (id : MidiEventId)
    (param : Nat) (p : BASS_VST_PLUGIN)
    (hres : g.handles h = some p) (hlive : 0 < p.handleUsage) :
    ∃ r g2 p2 sub, BASS_VST_ProcessEvent g h midiCh id param = some (r, g2)
      ∧ g2.handles h = some p2
      ∧ p2 = { p with midiEventsCurr := p2.midiEventsCurr }
      ∧ p2.queuedEvents = p.queuedEvents ++ sub.map some
      ∧ sub.Sublist (eventMessages midiCh id param)
      ∧ (r = true → sub = eventMessages midiCh id param)
      ∧ (r = false → id.supported = true →
          sub.length < (eventMessages midiCh id param).length)
      ∧ (r = false → (eventMessages midiCh id param).length ≤ 1 →
          p2.queuedEvents = p.queuedEvents)
      ∧ (r = false → g.s_bassfunc = true → g2.lastError ≠ BassError.BASS_OK) := by
  unfold BASS_VST_ProcessEvent
  rw [refHandle_some g h p hres]
  simp only
  by_cases hid : id.supported = true
  · rw [processEventSwitch_eq_foldl _ _ _ _ hid]
    obtain ⟨sub, hP⟩ := foldl_RAWBYTES_partly (eventBytes midiCh id param)
      (g.put h { p with handleUsage := p.handleUsage + 1 },
        { p with handleUsage := p.handleUsage + 1 }, BassError.BASS_OK)
    generalize (eventBytes midiCh id param).foldl (fun s t => RAWBYTES s t.1 t.2.1 t.2.2)
      (g.put h { p with handleUsage := p.handleUsage + 1 },
        { p with handleUsage := p.handleUsage + 1 }, BassError.BASS_OK) = s2 at hP ⊢
    obtain ⟨g1, p1, e1⟩ := s2
    have hi := hP.step.inst
    have hg := hP.step.glob
    have hq := hP.queued
    simp only at hi hg hq
    have hu : p1.handleUsage = p.handleUsage + 1 := by rw [hi]
    have hback : ({ p1 with handleUsage := p1.handleUsage - 1 } : BASS_VST_PLUGIN)
        = { p with midiEventsCurr := p1.midiEventsCurr } := by
      rw [hi]; simp
    have hbf : g1.s_bassfunc = g.s_bassfunc := by rw [hg]; rfl
    obtain ⟨g2, hfin, hh, herr⟩ := finishEvent_live h g1 p1 e1 (by omega)
    have hqueue : ({ p1 with handleUsage := p1.handleUsage - 1 } : BASS_VST_PLUGIN).queuedEvents
        = p.queuedEvents ++ sub.map some := by
      rw [queuedEvents_usage, hq, queuedEvents_usage]
    have hmiss : decide (e1 = BassError.BASS_OK) = false →
        sub.length < (eventMessages midiCh id param).length := by
      intro hr
      exact hP.missing (by simpa using hr) rfl
    refine ⟨_, g2, _, sub, hfin, hh, ?_, hqueue, hP.sublist, ?_, fun hr _ => hmiss hr, ?_, ?_⟩
    · rw [hback]
    · intro hr
      exact hP.full (by simpa using hr)
    · intro hr hlen
      have h0 : sub = [] := List.length_eq_zero.mp (by have := hmiss hr; omega)
      rw [hqueue, h0]
      simp
    · intro hr hb
      have hne : e1 ≠ BassError.BASS_OK := by simpa using hr
      rw [herr (by rw [hbf]; exact hb) hne]
      exact hne
  · rw [processEventSwitch_unsupported _ _ _ _ hid]
    simp only
    obtain ⟨g2, hfin, hh, herr⟩ := finishEvent_live h
      (g.put h { p with handleUsage := p.handleUsage + 1 })
      { p with handleUsage := p.handleUsage + 1 } BassError.BASS_ERROR_ILLPARAM
      (by simp only; omega)
    have hp : ({ ({ p with handleUsage := p.handleUsage + 1 } : BASS_VST_PLUGIN) with
        handleUsage := ({ p with handleUsage := p.handleUsage + 1 } : BASS_VST_PLUGIN).handleUsage
          - 1 } : BASS_VST_PLUGIN) = p := by
      cases p; simp
    rw [hp] at hh
    refine ⟨_, g2, p, [], hfin, hh, rfl, by simp, List.nil_sublist _, ?_, ?_, fun _ _ => rfl, ?_⟩
    · intro hr
      exact absurd hr (by decide)
    · intro _ hs
      exact absurd hs hid
    · intro _ hb
      rw [herr hb (by decide)]
      decide

/-- The amended C23 on the nearly full instance and the fine-tune event. -/
theorem processEvent_failure_partly_witness :
    ∃ r g2 p2 sub, BASS_VST_ProcessEvent (processWith nearlyFullInstance) 1 0
          MidiEventId.MIDI_EVENT_FINETUNE 0 = some (r, g2)
      ∧ g2.handles 1 = some p2
      ∧ p2 = { nearlyFullInstance with midiEventsCurr := p2.midiEventsCurr }
      ∧ p2.queuedEvents = nearlyFullInstance.queuedEvents ++ sub.map some
      ∧ sub.Sublist (eventMessages 0 MidiEventId.MIDI_EVENT_FINETUNE 0)
      ∧ (r = true → sub = eventMessages 0 MidiEventId.MIDI_EVENT_FINETUNE 0)
      ∧ (r = false → MidiEventId.MIDI_EVENT_FINETUNE.supported = true →
          sub.length < (eventMessages 0 MidiEventId.MIDI_EVENT_FINETUNE 0).length)
      ∧ (r = false → (eventMessages 0 MidiEventId.MIDI_EVENT_FINETUNE 0).length ≤ 1 →
          p2.queuedEvents = nearlyFullInstance.queuedEvents)
      ∧ (r = false → (processWith nearlyFullInstance).s_bassfunc = true →
          g2.lastError ≠ BassError.BASS_OK) :=
  processEvent_failure_partly (processWith nearlyFullInstance) 1 0
    MidiEventId.MIDI_EVENT_FINETUNE 0 nearlyFullInstance (by rfl) (by decide)


/-! ## The per-program functions and the selected program (C28) -/

theorem setProgramCalls_append (a b : List VstCall) :
    setProgramCalls (a ++ b) = setProgramCalls a ++ setProgramCalls b := by
  simp [setProgramCalls, List.filterMap_append]

theorem selectedProgram_append_nil (init : Int) (c t : List VstCall)
    (ht : setProgramCalls t = []) : selectedProgram init (c ++ t) = selectedProgram init c := by
  unfold selectedProgram
  rw [setProgramCalls_append, ht, List.append_nil]

theorem selectedProgram_append_last (init : Int) (c t : List VstCall) (pre : List Int) (v : Int)
    (ht : setProgramCalls t = pre ++ [v]) : selectedProgram init (c ++ t) = v := by
  unfold selectedProgram
  rw [setProgramCalls_append, ht, ← List.append_assoc, List.getLast?_append]
  simp

theorem afterCalls_refl (m : VstModule) (p : BASS_VST_PLUGIN) (hm : p.aeffect = some m) :
    AfterCalls m p p [] := ⟨hm, rfl, by simp⟩

theorem afterCalls_trans {m : VstModule} {p q r : BASS_VST_PLUGIN} {t u : List VstCall}
    (h1 : AfterCalls m p q t) (h2 : AfterCalls m q r u) : AfterCalls m p r (t ++ u) :=
  ⟨h2.aeffect, by rw [h2.usage, h1.usage], by rw [h2.calls, h1.calls, List.append_assoc]⟩

theorem selectProgram_after (p : BASS_VST_PLUGIN) (m : VstModule) (init idx : Int)
    (hm : p.aeffect = some m) (ht : TracksProgram m init) :
    ∃ q t, selectProgram p idx = some (toInt (selectedProgram init p.calls), q)
      ∧ AfterCalls m p q t
      ∧ setProgramCalls t
          = (if toInt (selectedProgram init p.calls) ≠ idx then [idx] else [])
      ∧ q.tempProgramNameBuf = p.tempProgramNameBuf := by
  unfold selectProgram
  rw [callDispatcher_eq p m _ _ _ _ _ hm (ht.dispatcher_ptr _)]
  simp only [ht.getProgram]
  by_cases hne : toInt (selectedProgram init p.calls) ≠ idx
  · rw [if_pos hne, if_pos hne]
    rw [callDispatcher_eq _ m _ _ _ _ _ (by exact hm) (ht.dispatcher_ptr _)]
    exact ⟨_, [VstCall.dispatcher Opcode.effGetProgram 0 0 none 0,
      VstCall.dispatcher Opcode.effSetProgram 0 idx none 0], rfl,
      ⟨hm, rfl, by simp⟩, by simp [setProgramCalls], rfl⟩
  · rw [if_neg hne, if_neg hne]
    exact ⟨_, [VstCall.dispatcher Opcode.effGetProgram 0 0 none 0], rfl,
      ⟨hm, rfl, rfl⟩, by simp [setProgramCalls], rfl⟩

theorem restoreProgram_after (p : BASS_VST_PLUGIN) (m : VstModule) (org idx : Int)
    (hm : p.aeffect = some m) (hd : ∀ t, (m.desc t).dispatcher = true) :
    ∃ q t, restoreProgram p org idx = some q
      ∧ AfterCalls m p q t
      ∧ setProgramCalls t = (if org ≠ idx then [org] else []) := by
  unfold restoreProgram
  by_cases hne : org ≠ idx
  · rw [if_pos hne, if_pos hne]
    rw [callDispatcher_eq _ m _ _ _ _ _ hm (hd _)]
    exact ⟨_, [VstCall.dispatcher Opcode.effSetProgram 0 org none 0], rfl,
      ⟨hm, rfl, rfl⟩, by simp [setProgramCalls]⟩
  · rw [if_neg hne, if_neg hne]
    exact ⟨p, [], rfl, afterCalls_refl m p hm, rfl⟩

theorem programValuesLoop_after (m : VstModule) (hg : ∀ t, (m.desc t).getParameter = true) :
    ∀ (todo : Nat) (i : Int) (p : BASS_VST_PLUGIN) (buf : List Rat),
      p.aeffect = some m → p.tempProgramValueBuf = some buf → 0 ≤ i →
      i + todo ≤ buf.length →
      ∃ q t, programValuesLoop todo i p = some q ∧ AfterCalls m p q t
        ∧ setProgramCalls t = [] := by
  intro todo
  induction todo with
  | zero =>
    intro i p buf hm _ _ _
    exact ⟨p, [], rfl, afterCalls_refl m p hm, rfl⟩
  | succ n ih =>
    intro i p buf hm hbuf hi hlen
    unfold programValuesLoop
    rw [callGetParameter_eq p m i hm (hg _)]
    simp only [hbuf]
    have hw : writeArray (some buf) i (m.getParameter p.calls i)
        = some (buf.set i.toNat (m.getParameter p.calls i)) := by
      unfold writeArray
      have : ¬ (i < 0 ∨ (buf.length : Int) ≤ i) := by push_cast at hlen; omega
      simp only [this, if_false]
    rw [hw]
    simp only
    obtain ⟨q, t, hrun, hafter, hset⟩ := ih (i + 1)
      { p with
        calls := p.calls ++ [VstCall.getParameter i],
        tempProgramValueBuf := some (buf.set i.toNat (m.getParameter p.calls i)) }
      (buf.set i.toNat (m.getParameter p.calls i)) hm rfl (by omega)
      (by rw [List.length_set]; push_cast at hlen ⊢; omega)
    refine ⟨q, [VstCall.getParameter i] ++ t, hrun, ⟨hafter.aeffect, hafter.usage, ?_⟩, ?_⟩
    · rw [hafter.calls, List.append_assoc]
    · rw [setProgramCalls_append, hset]
      simp [setProgramCalls]

theorem setProgramParamLoop_after (m : VstModule) (hs : ∀ t, (m.desc t).setParameter = true)
    (values : List Rat) (length : Int) (hlen : length ≤ values.length) :
    ∀ (todo : Nat) (i : Int) (p : BASS_VST_PLUGIN),
      p.aeffect = some m → 0 ≤ i →
      ∃ q t, setProgramParamLoop todo i p values length = some q ∧ AfterCalls m p q t
        ∧ setProgramCalls t = [] := by
  intro todo
  induction todo with
  | zero =>
    intro i p hm _
    exact ⟨p, [], rfl, afterCalls_refl m p hm, rfl⟩
  | succ n ih =>
    intro i p hm hi
    unfold setProgramParamLoop
    by_cases hlt : i < length
    · rw [if_pos hlt]
      have hr : ∃ v, readArray (some values) i = some v := by
        unfold readArray
        have h0 : ¬ i < 0 := by omega
        simp only [h0, if_false]
        cases hget : values.get? i.toNat with
        | some v => exact ⟨v, rfl⟩
        | none =>
          rw [List.get?_eq_none] at hget
          omega
      obtain ⟨v, hv⟩ := hr
      rw [hv]
      simp only
      rw [callSetParameter_eq p m i v hm (hs _)]
      simp only
      obtain ⟨q, t, hrun, hafter, hset⟩ := ih (i + 1)
        { p with calls := p.calls ++ [VstCall.setParameter i v] } hm (by omega)
      refine ⟨q, [VstCall.setParameter i v] ++ t, hrun, ⟨hafter.aeffect, hafter.usage, ?_⟩, ?_⟩
      · rw [hafter.calls, List.append_assoc]
      · rw [setProgramCalls_append, hset]
        simp [setProgramCalls]
    · rw [if_neg hlt]
      exact ih (i + 1) p hm (by omega)

theorem checkProgramIndex_valid (g : Global) (h : Nat) (p : BASS_VST_PLUGIN) (m : VstModule)
    (i : Int) (hres : g.handles h = some p) (hm : p.aeffect = some m)
    (hget : (m.desc p.calls).getParameter = true) (hset : (m.desc p.calls).setParameter = true)
    (hi0 : 0 ≤ i) (hi : i < (m.desc p.calls).numPrograms) :
    refHandle_checkProgramIndex g h i
      = some (some { p with handleUsage := p.handleUsage + 1 },
          g.put h { p with handleUsage := p.handleUsage + 1 }) := by
  unfold refHandle_checkProgramIndex
  rw [refHandle_some g h p hres]
  have ha : ({ p with handleUsage := p.handleUsage + 1 } : BASS_VST_PLUGIN).aeff
      = some (m.desc p.calls) := aeff_of_aeffect _ m hm
  have h1 : ¬ i < 0 := by omega
  have h2 : ¬ i ≥ (m.desc p.calls).numPrograms := by omega
  simp only [h1, if_false, ha, h2, hget, hset, Bool.true_eq_false, or_self, if_false]

/-- The `effSetProgram` requests of a per-program function that had to switch. -/
theorem programKept_of (init : Int) (p q : BASS_VST_PLUGIN) (t : List VstCall)
    (sw : List Int) (hcalls : q.calls = p.calls ++ t) (hsw : setProgramCalls t = sw)
    (hcase : sw = [] ∨ ∃ pre, sw = pre ++ [selectedProgram init p.calls]) :
    ProgramKept init p q sw := by
  refine ⟨⟨t, hcalls, hsw⟩, ?_⟩
  rw [hcalls]
  rcases hcase with h0 | ⟨pre, hpre⟩
  · exact selectedProgram_append_nil init _ t (by rw [hsw, h0])
  · exact selectedProgram_append_last init _ t pre _ (by rw [hsw, hpre])

theorem callDispatcher_after (p : BASS_VST_PLUGIN) (m : VstModule) (op : Opcode) (i v : Int)
    (ptr : Option (List Nat)) (opt : Rat) (hm : p.aeffect = some m)
    (hd : ∀ t, (m.desc t).dispatcher = true) :
    ∃ q, callDispatcher p op i v ptr opt = some (m.dispatcher p.calls op i v ptr opt, q)
      ∧ AfterCalls m p q [VstCall.dispatcher op i v ptr opt]
      ∧ q.tempProgramNameBuf = p.tempProgramNameBuf :=
  ⟨_, callDispatcher_eq p m op i v ptr opt hm (hd _), ⟨hm, rfl, rfl⟩, rfl⟩

theorem released_handles (g : Global) (h : Nat) (q : BASS_VST_PLUGIN) (hq : 1 < q.handleUsage) :
    ∃ g2, unrefHandle (g.put h q) h = some (true, g2)
      ∧ (SET_ERROR g2 BassError.BASS_OK).handles h
          = some { q with handleUsage := q.handleUsage - 1 } := by
  refine ⟨_, unrefHandle_put g h q hq, ?_⟩
  simp only [SET_ERROR_handles, Global.put, Function.update_same]

theorem SetProgramName_calls (g : Global) (h : Nat) (p : BASS_VST_PLUGIN) (m : VstModule)
    (init idx : Int) (name : List Nat)
    (hres : g.handles h = some p) (hlive : 0 < p.handleUsage) (hm : p.aeffect = some m)
    (ht : TracksProgram m init) (hi0 : 0 ≤ idx) (hi : idx < (m.desc p.calls).numPrograms) :
    ∃ g2 q t, BASS_VST_SetProgramName g h idx (some name) = some (true, g2)
      ∧ g2.handles h = some q ∧ q.calls = p.calls ++ t
      ∧ setProgramCalls t
          = (if toInt (selectedProgram init p.calls) ≠ idx
              then [idx, toInt (selectedProgram init p.calls)] else []) := by
  unfold BASS_VST_SetProgramName
  simp only
  rw [checkProgramIndex_valid g h p m idx hres hm (ht.getParameter_ptr _)
    (ht.setParameter_ptr _) hi0 hi]
  simp only
  obtain ⟨q1, t1, h1, a1, s1, _⟩ :=
    selectProgram_after { p with handleUsage := p.handleUsage + 1 } m init idx hm ht
  rw [h1]
  simp only
  obtain ⟨q2, h2, a2, _⟩ := callDispatcher_after q1 m Opcode.effSetProgramName 0 0
    (some ((cstr name).take kVstMaxProgNameLen)) 0 a1.aeffect ht.dispatcher_ptr
  rw [h2]
  simp only
  obtain ⟨q3, t3, h3, a3, s3⟩ := restoreProgram_after q2 m
    (toInt (selectedProgram init p.calls)) idx a2.aeffect ht.dispatcher_ptr
  rw [h3]
  simp only
  have hu : q3.handleUsage = p.handleUsage + 1 := by
    rw [a3.usage, a2.usage, a1.usage]
  obtain ⟨g2, hun, hh⟩ := released_handles (g.put h { p with handleUsage := p.handleUsage + 1 })
    h q3 (by omega)
  rw [Global.put_put] at hun
  rw [Global.put_put, hun]
  refine ⟨_, _, t1 ++ [VstCall.dispatcher Opcode.effSetProgramName 0 0
    (some ((cstr name).take kVstMaxProgNameLen)) 0] ++ t3, rfl, hh, ?_, ?_⟩
  · show q3.calls = _
    rw [a3.calls, a2.calls, a1.calls]
    simp
  · rw [setProgramCalls_append, setProgramCalls_append, s1, s3]
    split_ifs <;> simp [setProgramCalls]

theorem SetProgramParam_calls (g : Global) (h : Nat) (p : BASS_VST_PLUGIN) (m : VstModule)
    (init idx : Int) (values : List Rat) (length : Nat)
    (hres : g.handles h = some p) (hlive : 0 < p.handleUsage) (hm : p.aeffect = some m)
    (ht : TracksProgram m init) (hi0 : 0 ≤ idx) (hi : idx < (m.desc p.calls).numPrograms)
    (hlen : toInt length ≤ values.length) :
    ∃ g2 q t, BASS_VST_SetProgramParam g h idx (some values) length = some (true, g2)
      ∧ g2.handles h = some q ∧ q.calls = p.calls ++ t
      ∧ setProgramCalls t
          = (if toInt (selectedProgram init p.calls) ≠ idx
              then [idx, toInt (selectedProgram init p.calls)] else []) := by
  unfold BASS_VST_SetProgramParam
  simp only
  rw [checkProgramIndex_valid g h p m idx hres hm (ht.getParameter_ptr _)
    (ht.setParameter_ptr _) hi0 hi]
  simp only
  obtain ⟨q1, t1, h1, a1, s1, _⟩ :=
    selectProgram_after { p with handleUsage := p.handleUsage + 1 } m init idx hm ht
  rw [h1]
  simp only
  rw [aeff_of_aeffect q1 m a1.aeffect]
  simp only
  obtain ⟨q2, t2, h2, a2, s2⟩ := setProgramParamLoop_after m ht.setParameter_ptr values
    (toInt length) hlen (m.desc q1.calls).numParams.toNat 0 q1 a1.aeffect (le_refl 0)
  rw [h2]
  simp only
  obtain ⟨q3, t3, h3, a3, s3⟩ := restoreProgram_after q2 m
    (toInt (selectedProgram init p.calls)) idx a2.aeffect ht.dispatcher_ptr
  rw [h3]
  simp only
  have hu : q3.handleUsage = p.handleUsage + 1 := by
    rw [a3.usage, a2.usage, a1.usage]
  obtain ⟨g2, hun, hh⟩ := released_handles (g.put h { p with handleUsage := p.handleUsage + 1 })
    h q3 (by omega)
  rw [Global.put_put] at hun
  rw [Global.put_put, hun]
  refine ⟨_, _, t1 ++ t2 ++ t3, rfl, hh, ?_, ?_⟩
  · show q3.calls = _
    rw [a3.calls, a2.calls, a1.calls]
    simp
  · rw [setProgramCalls_append, setProgramCalls_append, s1, s2, s3]
    split_ifs <;> simp

theorem getProgramParamBody_calls (g : Global) (p : BASS_VST_PLUGIN) (m : VstModule)
    (init idx : Int) (hm : p.aeffect = some m) (ht : TracksProgram m init) :
    ∃ g1 q len t, getProgramParamBody g p idx = some (g1, q, len)
      ∧ g1.handles = g.handles ∧ AfterCalls m p q t
      ∧ setProgramCalls t
          = (if toInt (selectedProgram init p.calls) ≠ idx
              then [idx, toInt (selectedProgram init p.calls)] else []) := by
  unfold getProgramParamBody
  obtain ⟨q1, t1, h1, a1, s1, _⟩ := selectProgram_after p m init idx hm ht
  rw [h1]
  simp only
  rw [aeff_of_aeffect q1 m a1.aeffect]
  simp only
  have hg := malloc_glob g
  rcases hmg : malloc g with ⟨ok, g1⟩
  rw [hmg] at hg
  simp only at hg
  have hh : g1.handles = g.handles := by rw [hg]
  have hsw : ∀ t2 t3 : List VstCall, setProgramCalls t2 = [] →
      setProgramCalls t3 = (if toInt (selectedProgram init p.calls) ≠ idx
        then [toInt (selectedProgram init p.calls)] else []) →
      setProgramCalls (t1 ++ t2 ++ t3)
        = (if toInt (selectedProgram init p.calls) ≠ idx
            then [idx, toInt (selectedProgram init p.calls)] else []) := by
    intro t2 t3 e2 e3
    rw [setProgramCalls_append, setProgramCalls_append, s1, e2, e3]
    split_ifs <;> simp
  cases ok with
  | false =>
    simp only [Bool.false_eq_true, if_false]
    obtain ⟨q3, t3, h3, a3, s3⟩ := restoreProgram_after
      { q1 with tempProgramValueBuf := none } m
      (toInt (selectedProgram init p.calls)) idx a1.aeffect ht.dispatcher_ptr
    rw [h3]
    refine ⟨g1, q3, 0, t1 ++ [] ++ t3, rfl, hh, ⟨a3.aeffect, ?_, ?_⟩, hsw [] t3 rfl s3⟩
    · rw [a3.usage]; exact a1.usage
    · rw [a3.calls]
      show q1.calls ++ t3 = _
      rw [a1.calls]
      simp
  | true =>
    simp only [if_true]
    obtain ⟨q2, t2, h2, a2, s2⟩ := programValuesLoop_after m ht.getParameter_ptr
      (m.desc q1.calls).numParams.toNat 0
      { q1 with
        tempProgramValueBuf := some (List.replicate (m.desc q1.calls).numParams.toNat 0) }
      (List.replicate (m.desc q1.calls).numParams.toNat 0) a1.aeffect rfl (le_refl 0)
      (by simp)
    rw [h2]
    simp only [Option.map_some']
    obtain ⟨q3, t3, h3, a3, s3⟩ := restoreProgram_after q2 m
      (toInt (selectedProgram init p.calls)) idx a2.aeffect ht.dispatcher_ptr
    rw [h3]
    refine ⟨g1, q3, _, t1 ++ t2 ++ t3, rfl, hh, ⟨a3.aeffect, ?_, ?_⟩, hsw t2 t3 s2 s3⟩
    · rw [a3.usage, a2.usage]; exact a1.usage
    · rw [a3.calls, a2.calls]
      show q1.calls ++ t2 ++ t3 = _
      rw [a1.calls]
      simp

theorem GetProgramParam_calls (g : Global) (h : Nat) (p : BASS_VST_PLUGIN) (m : VstModule)
    (init idx : Int) (len0 : Nat)
    (hres : g.handles h = some p) (hlive : 0 < p.handleUsage) (hm : p.aeffect = some m)
    (ht : TracksProgram m init) (hi0 : 0 ≤ idx) (hi : idx < (m.desc p.calls).numPrograms) :
    ∃ r g2 q t, BASS_VST_GetProgramParam g h idx (some len0) = some (r, g2)
      ∧ g2.handles h = some q ∧ q.calls = p.calls ++ t
      ∧ setProgramCalls t
          = (if toInt (selectedProgram init p.calls) ≠ idx
              then [idx, toInt (selectedProgram init p.calls)] else []) := by
  unfold BASS_VST_GetProgramParam
  simp only
  rw [checkProgramIndex_valid g h p m idx hres hm (ht.getParameter_ptr _)
    (ht.setParameter_ptr _) hi0 hi]
  simp only
  obtain ⟨g1, q, len, t, hb, _, a, s⟩ := getProgramParamBody_calls
    (g.put h { p with handleUsage := p.handleUsage + 1 })
    { p with handleUsage := p.handleUsage + 1 } m init idx hm ht
  rw [hb]
  simp only
  have hu : q.handleUsage = p.handleUsage + 1 := a.usage
  obtain ⟨g2, hun, hh⟩ := released_handles g1 h q (by omega)
  rw [hun]
  exact ⟨_, _, _, t, rfl, hh, a.calls, s⟩

theorem getProgramNameBody_calls (p : BASS_VST_PLUGIN) (m : VstModule)
    (init idx : Int) (hm : p.aeffect = some m) (ht : TracksProgram m init) :
    ∃ q t, getProgramNameBody p idx = some q
      ∧ AfterCalls m p q t
      ∧ setProgramCalls t
          = (if (m.dispatcher p.calls Opcode.effGetProgramNameIndexed idx 0
                (some p.tempProgramNameBuf) 0).ret = 0
              then (if toInt (selectedProgram init p.calls) ≠ idx
                then [idx, toInt (selectedProgram init p.calls)] else [])
              else []) := by
  unfold getProgramNameBody
  obtain ⟨q0, h0, a0, _⟩ := callDispatcher_after p m Opcode.effGetProgramNameIndexed idx 0
    (some p.tempProgramNameBuf) 0 hm ht.dispatcher_ptr
  rw [h0]
  simp only
  have hsel0 : selectedProgram init (q0.calls) = selectedProgram init p.calls := by
    rw [a0.calls]
    exact selectedProgram_append_nil init _ _ (by simp [setProgramCalls])
  by_cases hret : (m.dispatcher p.calls Opcode.effGetProgramNameIndexed idx 0
      (some p.tempProgramNameBuf) 0).ret = 0
  · rw [if_pos hret, if_pos hret]
    obtain ⟨q1, t1, h1, a1, s1, _⟩ := selectProgram_after
      { q0 with
        tempProgramNameBuf := (nameAfter q0.tempProgramNameBuf
          (m.dispatcher p.calls Opcode.effGetProgramNameIndexed idx 0
            (some p.tempProgramNameBuf) 0).out) }
      m init idx a0.aeffect ht
    simp only [hsel0] at h1 s1
    rw [h1]
    simp only
    obtain ⟨q2, h2, a2, _⟩ := callDispatcher_after q1 m Opcode.effGetProgramName 0 0
      (some q1.tempProgramNameBuf) 0 a1.aeffect ht.dispatcher_ptr
    rw [h2]
    simp only
    obtain ⟨q3, t3, h3, a3, s3⟩ := restoreProgram_after
      { q2 with
        tempProgramNameBuf := (nameAfter q2.tempProgramNameBuf
          (m.dispatcher q1.calls Opcode.effGetProgramName 0 0
            (some q1.tempProgramNameBuf) 0).out) }
      m (toInt (selectedProgram init p.calls)) idx a2.aeffect ht.dispatcher_ptr
    rw [h3]
    refine ⟨q3, [VstCall.dispatcher Opcode.effGetProgramNameIndexed idx 0
      (some p.tempProgramNameBuf) 0] ++ t1
        ++ [VstCall.dispatcher Opcode.effGetProgramName 0 0 (some q1.tempProgramNameBuf) 0]
        ++ t3, rfl, ⟨a3.aeffect, ?_, ?_⟩, ?_⟩
    · rw [a3.usage]
      show q2.handleUsage = _
      rw [a2.usage, a1.usage]
      exact a0.usage
    · rw [a3.calls]
      show q2.calls ++ t3 = _
      rw [a2.calls, a1.calls]
      show q0.calls ++ t1 ++ _ ++ t3 = _
      rw [a0.calls]
      simp
    · rw [setProgramCalls_append, setProgramCalls_append, setProgramCalls_append, s1, s3]
      split_ifs <;> simp [setProgramCalls]
  · rw [if_neg hret, if_neg hret]
    exact ⟨_, [VstCall.dispatcher Opcode.effGetProgramNameIndexed idx 0
      (some p.tempProgramNameBuf) 0], rfl, ⟨a0.aeffect, a0.usage, a0.calls⟩,
      by simp [setProgramCalls]⟩

theorem GetProgramName_calls (g : Global) (h : Nat) (p : BASS_VST_PLUGIN) (m : VstModule)
    (init idx : Int)
    (hres : g.handles h = some p) (hlive : 0 < p.handleUsage) (hm : p.aeffect = some m)
    (ht : TracksProgram m init) (hi0 : 0 ≤ idx) (hi : idx < (m.desc p.calls).numPrograms) :
    ∃ r g2 q t, BASS_VST_GetProgramName g h idx = some (r, g2)
      ∧ g2.handles h = some q ∧ q.calls = p.calls ++ t
      ∧ setProgramCalls t
          = (if (m.dispatcher p.calls Opcode.effGetProgramNameIndexed idx 0
                (some p.tempProgramNameBuf) 0).ret = 0
              then (if toInt (selectedProgram init p.calls) ≠ idx
                then [idx, toInt (selectedProgram init p.calls)] else [])
              else []) := by
  unfold BASS_VST_GetProgramName
  rw [checkProgramIndex_valid g h p m idx hres hm (ht.getParameter_ptr _)
    (ht.setParameter_ptr _) hi0 hi]
  simp only
  obtain ⟨q, t, hb, a, s⟩ := getProgramNameBody_calls
    { p with handleUsage := p.handleUsage + 1 } m init idx hm ht
  rw [hb]
  simp only
  have hu : q.handleUsage = p.handleUsage + 1 := a.usage
  obtain ⟨g2, hun, hh⟩ := released_handles
    (g.put h { p with handleUsage := p.handleUsage + 1 }) h
    { q with tempProgramNameBuf := q.tempProgramNameBuf.take kVstMaxProgNameLen }
    (by simp only; omega)
  rw [hun]
  exact ⟨_, _, _, t, rfl, hh, a.calls, s⟩

theorem programKept_switches (init idx : Int) (p q : BASS_VST_PLUGIN) (t : List VstCall)
    (hfit : toInt (selectedProgram init p.calls) = selectedProgram init p.calls)
    (hcalls : q.calls = p.calls ++ t)
    (hsw : setProgramCalls t
      = (if toInt (selectedProgram init p.calls) ≠ idx
          then [idx, toInt (selectedProgram init p.calls)] else [])) :
    ProgramKept init p q
      (if selectedProgram init p.calls = idx then [] else [idx, selectedProgram init p.calls]) := by
  rw [hfit] at hsw
  by_cases he : selectedProgram init p.calls = idx
  · rw [if_pos he]
    rw [if_neg (not_not.mpr he)] at hsw
    exact programKept_of init p q t _ hcalls hsw (Or.inl rfl)
  · rw [if_neg he]
    rw [if_pos he] at hsw
    exact programKept_of init p q t _ hcalls hsw (Or.inr ⟨[idx], rfl⟩)

/-- C28: on a referenced instance of a module whose `effGetProgram` answers the
last program set (and whose dispatcher, `getParameter` and `setParameter` are
present), for every valid program index, `BASS_VST_GetProgramName`,
`BASS_VST_GetProgramParam` (with a non-NULL `length`), `BASS_VST_SetProgramName`
(with a name) and `BASS_VST_SetProgramParam` (with an array that holds the
`length` values it announces) return, and the program the module has selected
afterwards is the one it had selected before.  The `effSetProgram` requests of the
call are the target and then the old program when the two differ, and none when
they are equal; `BASS_VST_GetProgramName` sends none either when the module
answers `effGetProgramNameIndexed`.  The selected program is taken to fit the
`int` the functions keep it in. -/
theorem program_functions_keep_selection (g : Global) (h : Nat) (p : BASS_VST_PLUGIN)
    (m : VstModule) (init idx : Int) (name : List Nat) (values : List Rat)
    (length len0 : Nat)
    (hres : g.handles h = some p) (hlive : 0 < p.handleUsage) (hm : p.aeffect = some m)
    (ht : TracksProgram m init) (hi0 : 0 ≤ idx) (hi : idx < (m.desc p.calls).numPrograms)
    (hfit : toInt (selectedProgram init p.calls) = selectedProgram init p.calls)
    (hlen : toInt length ≤ values.length) :
    (∃ r g2 q, BASS_VST_GetProgramName g h idx = some (r, g2) ∧ g2.handles h = some q
        ∧ ProgramKept init p q
            (if (m.dispatcher p.calls Opcode.effGetProgramNameIndexed idx 0
                  (some p.tempProgramNameBuf) 0).ret = 0
              then (if selectedProgram init p.calls = idx then []
                else [idx, selectedProgram init p.calls])
              else []))
      ∧ (∃ r g2 q, BASS_VST_GetProgramParam g h idx (some len0) = some (r, g2)
        ∧ g2.handles h = some q
        ∧ ProgramKept init p q
            (if selectedProgram init p.calls = idx then []
              else [idx, selectedProgram init p.calls]))
      ∧ (∃ g2 q, BASS_VST_SetProgramName g h idx (some name) = some (true, g2)
        ∧ g2.handles h = some q
        ∧ ProgramKept init p q
            (if selectedProgram init p.calls = idx then []
              else [idx, selectedProgram init p.calls]))
      ∧ (∃ g2 q, BASS_VST_SetProgramParam g h idx (some values) length = some (true, g2)
        ∧ g2.handles h = some q
        ∧ ProgramKept init p q
            (if selectedProgram init p.calls = idx then []
              else [idx, selectedProgram init p.calls])) := by
  refine ⟨?_, ?_, ?_, ?_⟩
  · obtain ⟨r, g2, q, t, hrun, hq, hcalls, hsw⟩ :=
      GetProgramName_calls g h p m init idx hres hlive hm ht hi0 hi
    refine ⟨r, g2, q, hrun, hq, ?_⟩
    by_cases hret : (m.dispatcher p.calls Opcode.effGetProgramNameIndexed idx 0
        (some p.tempProgramNameBuf) 0).ret = 0
    · rw [if_pos hret] at hsw ⊢
      exact programKept_switches init idx p q t hfit hcalls hsw
    · rw [if_neg hret] at hsw ⊢
      exact programKept_of init p q t _ hcalls hsw (Or.inl rfl)
  · obtain ⟨r, g2, q, t, hrun, hq, hcalls, hsw⟩ :=
      GetProgramParam_calls g h p m init idx len0 hres hlive hm ht hi0 hi
    exact ⟨r, g2, q, hrun, hq, programKept_switches init idx p q t hfit hcalls hsw⟩
  · obtain ⟨g2, q, t, hrun, hq, hcalls, hsw⟩ :=
      SetProgramName_calls g h p m init idx name hres hlive hm ht hi0 hi
    exact ⟨g2, q, hrun, hq, programKept_switches init idx p q t hfit hcalls hsw⟩
  · obtain ⟨g2, q, t, hrun, hq, hcalls, hsw⟩ :=
      SetProgramParam_calls g h p m init idx values length hres hlive hm ht hi0 hi hlen
    exact ⟨g2, q, hrun, hq, programKept_switches init idx p q t hfit hcalls hsw⟩

/-- C28 on the started instance of `programModule` (program 0 selected) and the
target program 2. -/
theorem program_functions_keep_selection_witness :
    (∃ r g2 q, BASS_VST_GetProgramName (processWith programInstance) 1 2 = some (r, g2)
        ∧ g2.handles 1 = some q
        ∧ ProgramKept 0 programInstance q
            (if (programModule.dispatcher programInstance.calls Opcode.effGetProgramNameIndexed
                  2 0 (some programInstance.tempProgramNameBuf) 0).ret = 0
              then (if selectedProgram 0 programInstance.calls = 2 then []
                else [2, selectedProgram 0 programInstance.calls])
              else []))
      ∧ (∃ r g2 q, BASS_VST_GetProgramParam (processWith programInstance) 1 2 (some 0)
            = some (r, g2)
        ∧ g2.handles 1 = some q
        ∧ ProgramKept 0 programInstance q
            (if selectedProgram 0 programInstance.calls = 2 then []
              else [2, selectedProgram 0 programInstance.calls]))
      ∧ (∃ g2 q, BASS_VST_SetProgramName (processWith programInstance) 1 2 (some [76, 101, 0])
            = some (true, g2)
        ∧ g2.handles 1 = some q
        ∧ ProgramKept 0 programInstance q
            (if selectedProgram 0 programInstance.calls = 2 then []
              else [2, selectedProgram 0 programInstance.calls]))
      ∧ (∃ g2 q, BASS_VST_SetProgramParam (processWith programInstance) 1 2
            (some [1 / 2, 1 / 4]) 2 = some (true, g2)
        ∧ g2.handles 1 = some q
        ∧ ProgramKept 0 programInstance q
            (if selectedProgram 0 programInstance.calls = 2 then []
              else [2, selectedProgram 0 programInstance.calls])) :=
  program_functions_keep_selection (processWith programInstance) 1 programInstance
    programModule 0 2 [76, 101, 0] [1 / 2, 1 / 4] 2 0 (by rfl) (by decide) (by rfl)
    ⟨fun _ => rfl, fun _ => rfl, fun _ => rfl, fun _ => rfl⟩ (by decide) (by decide)
    (by decide) (by decide)


/-! ## The editor-idle bit (C29) -/

theorem sameEditorState_refl (p : BASS_VST_PLUGIN) : SameEditorState p p := ⟨rfl, rfl⟩

theorem sameEditorState_trans {p q r : BASS_VST_PLUGIN} (h1 : SameEditorState p q)
    (h2 : SameEditorState q r) : SameEditorState p r :=
  ⟨h2.1.trans h1.1, h2.2.trans h1.2⟩

theorem callDispatcher_same (p : BASS_VST_PLUGIN) (op : Opcode) (i v : Int)
    (ptr : Option (List Nat)) (opt : Rat) (r : DispatchResult) (q : BASS_VST_PLUGIN)
    (h : callDispatcher p op i v ptr opt = some (r, q)) : SameEditorState p q := by
  unfold callDispatcher at h
  split at h
  · exact absurd h (by simp)
  · split at h
    · simp only [Option.some.injEq, Prod.mk.injEq] at h
      rw [← h.2]
      exact ⟨rfl, rfl⟩
    · exact absurd h (by simp)

theorem callGetParameter_same (p : BASS_VST_PLUGIN) (i : Int) (v : Rat) (q : BASS_VST_PLUGIN)
    (h : callGetParameter p i = some (v, q)) : SameEditorState p q := by
  unfold callGetParameter at h
  split at h
  · exact absurd h (by simp)
  · split at h
    · simp only [Option.some.injEq, Prod.mk.injEq] at h
      rw [← h.2]
      exact ⟨rfl, rfl⟩
    · exact absurd h (by simp)

theorem lastValuesLoop_same : ∀ (todo : Nat) (i : Int) (p q : BASS_VST_PLUGIN),
    lastValuesLoop todo i p = some q → SameEditorState p q := by
  intro todo
  induction todo with
  | zero =>
    intro i p q h
    simp only [lastValuesLoop, Option.some.injEq] at h
    rw [← h]
    exact sameEditorState_refl p
  | succ n ih =>
    intro i p q h
    unfold lastValuesLoop at h
    split at h
    · exact absurd h (by simp)
    · rename_i v this1 hget
      split at h
      · exact absurd h (by simp)
      · rename_i l _
        have h2 := ih _ _ _ h
        exact sameEditorState_trans (callGetParameter_same p i v this1 hget) ⟨h2.1, h2.2⟩

theorem unrefHandle_same (g : Global) (h : Nat) (r : Bool) (g1 : Global)
    (hu : unrefHandle g h = some (r, g1)) : HandleStep SameEditorState h g g1 := by
  intro q hq
  unfold unrefHandle at hu
  split at hu
  · simp only [Option.some.injEq, Prod.mk.injEq] at hu
    rw [← hu.2] at hq
    exact ⟨q, hq, sameEditorState_refl q⟩
  · rename_i this_ hres
    simp only at hu
    split at hu
    · split at hu
      · exact absurd hu (by simp)
      · simp only [Option.some.injEq, Prod.mk.injEq] at hu
        rw [← hu.2] at hq
        simp at hq
    · simp only [Option.some.injEq, Prod.mk.injEq] at hu
      rw [← hu.2] at hq
      simp only [Global.put, Function.update_same, Option.some.injEq] at hq
      rw [← hq]
      exact ⟨this_, hres, rfl, rfl⟩

theorem unrefHandle_put_same (g : Global) (h : Nat) (a : BASS_VST_PLUGIN) (r : Bool)
    (g1 : Global) (hu : unrefHandle (g.put h a) h = some (r, g1)) (q : BASS_VST_PLUGIN)
    (hq : g1.handles h = some q) : SameEditorState a q := by
  obtain ⟨p, hp, hs⟩ := unrefHandle_same _ h r g1 hu q hq
  simp only [Global.put, Function.update_same, Option.some.injEq] at hp
  rw [hp]
  exact hs

theorem getInfoFill_same (p : BASS_VST_PLUGIN) (info info1 : BASS_VST_INFO)
    (q : BASS_VST_PLUGIN) (h : getInfoFill p info = some (info1, q)) :
    SameEditorState p q := by
  unfold getInfoFill at h
  split at h
  · exact absurd h (by simp)
  rename_i r1 t1 h1
  split at h
  · exact absurd h (by simp)
  rename_i r2 t2 h2
  split at h
  · exact absurd h (by simp)
  rename_i r3 t3 h3
  split at h
  · exact absurd h (by simp)
  split at h
  · exact absurd h (by simp)
  rename_i r4 t4 h4
  split at h
  · exact absurd h (by simp)
  rename_i r5 t5 h5
  split at h
  · exact absurd h (by simp)
  rename_i ae5 hae5
  have h15 : SameEditorState p t5 :=
    sameEditorState_trans (callDispatcher_same _ _ _ _ _ _ _ _ h1)
      (sameEditorState_trans (callDispatcher_same _ _ _ _ _ _ _ _ h2)
        (sameEditorState_trans (callDispatcher_same _ _ _ _ _ _ _ _ h3)
          (sameEditorState_trans (callDispatcher_same _ _ _ _ _ _ _ _ h4)
            (callDispatcher_same _ _ _ _ _ _ _ _ h5))))
  cases hflag : ae5.effFlagsHasEditor with
  | false =>
    simp only [hflag, Bool.false_eq_true, if_false, ne_eq, not_true_eq_false,
      Option.some.injEq, Prod.mk.injEq] at h
    rw [← h.2]; exact h15
  | true =>
    simp only [hflag, if_true, ne_eq, one_ne_zero, not_false_eq_true] at h
    split at h
    · exact absurd h (by simp)
    · rename_i r6 t6 h6
      have h16 := sameEditorState_trans h15 (callDispatcher_same _ _ _ _ _ _ _ _ h6)
      split at h
      · simp only [Option.some.injEq, Prod.mk.injEq] at h
        rw [← h.2]; exact h16
      · simp only [Option.some.injEq, Prod.mk.injEq] at h
        rw [← h.2]; exact h16

theorem GetInfo_same (g : Global) (h : Nat) (info : Option BASS_VST_INFO)
    (r : Bool × Option BASS_VST_INFO) (g1 : Global)
    (hrun : BASS_VST_GetInfo g h info = some (r, g1)) : HandleStep SameEditorState h g g1 := by
  intro q hq
  unfold BASS_VST_GetInfo at hrun
  split at hrun
  · simp only [RETURN_ERROR, Option.some.injEq, Prod.mk.injEq] at hrun
    rw [← hrun.2, SET_ERROR_handles] at hq
    exact ⟨q, hq, sameEditorState_refl q⟩
  · rename_i info0
    cases hres : g.handles h with
    | none =>
      rw [refHandle_none g h hres] at hrun
      simp only [RETURN_ERROR, Option.some.injEq, Prod.mk.injEq] at hrun
      rw [← hrun.2, SET_ERROR_handles, hres] at hq
      exact absurd hq (by simp)
    | some p =>
      rw [refHandle_some g h p hres] at hrun
      simp only at hrun
      split at hrun
      · exact absurd hrun (by simp)
      · rename_i info1 this1 hfill
        split at hrun
        · exact absurd hrun (by simp)
        · rename_i r1 g2 hun
          simp only [RETURN_SUCCESS, Option.some.injEq, Prod.mk.injEq] at hrun
          rw [← hrun.2, SET_ERROR_handles] at hq
          have hs := unrefHandle_put_same _ h this1 r1 g2 hun q hq
          have hf := getInfoFill_same _ _ _ _ hfill
          have hfs := sameEditorState_trans hf hs
          exact ⟨p, rfl, hfs.1, hfs.2⟩

theorem handleStep_same_at (g g1 : Global) (h : Nat) (p q : BASS_VST_PLUGIN)
    (hs : HandleStep SameEditorState h g g1) (hg : g.handles h = some p)
    (hq : g1.handles h = some q) : SameEditorState p q := by
  obtain ⟨p1, hp1, hsame⟩ := hs q hq
  rw [hg] at hp1
  simp only [Option.some.injEq] at hp1
  rw [hp1]
  exact hsame

theorem unref_error_same (g : Global) (h : Nat) (p : BASS_VST_PLUGIN) (r : Bool) (g1 : Global)
    (e : BassError) (hg : g.handles h = some p) (hu : unrefHandle g h = some (r, g1))
    (q : BASS_VST_PLUGIN) (hq : (SET_ERROR g1 e).handles h = some q) : SameEditorState p q := by
  rw [SET_ERROR_handles] at hq
  exact handleStep_same_at g g1 h p q (unrefHandle_same g h r g1 hu) hg hq

theorem embedEditorOpen_effect (env : HostServices) (hk : KeepsEditorState env) (g : Global)
    (this_ : BASS_VST_PLUGIN) (h w : Nat) (r : Bool) (g1 : Global)
    (hg : g.handles h = some this_)
    (hrun : embedEditorOpen env g this_ h w = some (r, g1)) (q : BASS_VST_PLUGIN)
    (hq : g1.handles h = some q) : SameEditorState this_ q ∨ EditorOpened this_ q := by
  unfold embedEditorOpen at hrun
  by_cases hopen : this_.editorIsOpen = true
  · rw [if_pos hopen] at hrun
    split at hrun
    · exact absurd hrun (by simp)
    · rename_i r1 g2 hun
      simp only [RETURN_ERROR, Option.some.injEq, Prod.mk.injEq] at hrun
      rw [← hrun.2] at hq
      exact Or.inl (unref_error_same g h this_ r1 g2 _ hg hun q hq)
  · rw [if_neg hopen] at hrun
    split at hrun
    · exact absurd hrun (by simp)
    · rename_i ok info g2 hinfo
      have hstep := GetInfo_same g h _ _ g2 hinfo
      split at hrun
      · split at hrun
        · exact absurd hrun (by simp)
        · rename_i r1 g3 hun
          simp only [Option.some.injEq, Prod.mk.injEq] at hrun
          rw [← hrun.2] at hq
          obtain ⟨p2, hp2, hs2⟩ := unrefHandle_same g2 h r1 g3 hun q hq
          exact Or.inl (sameEditorState_trans (handleStep_same_at g g2 h this_ p2 hstep hg hp2) hs2)
      · split at hrun
        · exact absurd hrun (by simp)
        · rename_i info1
          split at hrun
          · split at hrun
            · exact absurd hrun (by simp)
            · rename_i r1 g3 hun
              simp only [RETURN_ERROR, Option.some.injEq, Prod.mk.injEq] at hrun
              rw [← hrun.2, SET_ERROR_handles] at hq
              obtain ⟨p2, hp2, hs2⟩ := unrefHandle_same g2 h r1 g3 hun q hq
              exact Or.inl
                (sameEditorState_trans (handleStep_same_at g g2 h this_ p2 hstep hg hp2) hs2)
          · split at hrun
            · exact absurd hrun (by simp)
            · rename_i this1 h1res
              have hs1 := handleStep_same_at g g2 h this_ this1 hstep hg h1res
              split at hrun
              · exact absurd hrun (by simp)
              · rename_i ae hae
                split at hrun
                · exact absurd hrun (by simp)
                · rename_i g3 this3 hval
                  have hs3 : SameEditorState this1 this3 := by
                    split at hval
                    · have hv := hk.validateLastValues g2 this1
                      rcases hvl : env.validateLastValues g2 this1 with ⟨numParam, g4, this2⟩
                      rw [hvl] at hval hv
                      simp only [Option.map_eq_some', Prod.mk.injEq] at hval
                      obtain ⟨t, hloop, _, ht⟩ := hval
                      rw [← ht]
                      exact sameEditorState_trans hv (lastValuesLoop_same _ _ _ _ hloop)
                    · simp only [Option.some.injEq, Prod.mk.injEq] at hval
                      rw [← hval.2]
                      exact sameEditorState_refl _
                  split at hrun
                  · exact absurd hrun (by simp)
                  · rename_i r4 this4 hdisp
                    have hs4 := callDispatcher_same _ _ _ _ _ _ _ _ hdisp
                    simp only at hrun
                    have hu := hk.updateIdleTimers g3
                      { this4 with
                        editorIsOpen := true,
                        needsIdle := this4.needsIdle ||| NEEDS_EDIT_IDLE }
                    simp only [checkForwarding] at hrun
                    split at hrun
                    · exact absurd hrun (by simp)
                    · rename_i r7 g7 hun
                      simp only [RETURN_SUCCESS, Option.some.injEq, Prod.mk.injEq] at hrun
                      rw [← hrun.2, SET_ERROR_handles] at hq
                      have hs7 := unrefHandle_put_same _ h _ r7 g7 hun q hq
                      have h14 := sameEditorState_trans hs1 (sameEditorState_trans hs3 hs4)
                      refine Or.inr ⟨?_, ?_, ?_⟩
                      · simpa using hopen
                      · rw [hs7.1, hu.1]
                      · rw [hs7.2, hu.2]
                        show this4.needsIdle ||| NEEDS_EDIT_IDLE = _
                        rw [h14.2]

theorem embedEditorClose_effect (env : HostServices) (hk : KeepsEditorState env) (g : Global)
    (this_ : BASS_VST_PLUGIN) (h : Nat) (r : Bool) (g1 : Global)
    (hg : g.handles h = some this_)
    (hrun : embedEditorClose env g this_ h = some (r, g1)) (q : BASS_VST_PLUGIN)
    (hq : g1.handles h = some q) : SameEditorState this_ q ∨ EditorClosed this_ q := by
  unfold embedEditorClose at hrun
  by_cases hopen : this_.editorIsOpen = false
  · rw [if_pos hopen] at hrun
    split at hrun
    · exact absurd hrun (by simp)
    · rename_i r1 g2 hun
      simp only [RETURN_ERROR, Option.some.injEq, Prod.mk.injEq] at hrun
      rw [← hrun.2] at hq
      exact Or.inl (unref_error_same g h this_ r1 g2 _ hg hun q hq)
  · rw [if_neg hopen] at hrun
    have hu := hk.updateIdleTimers g
      { this_ with needsIdle := this_.needsIdle &&& (0xFFFFFFFF ^^^ NEEDS_EDIT_IDLE) }
    rcases hupd : env.updateIdleTimers g
      { this_ with needsIdle := this_.needsIdle &&& (0xFFFFFFFF ^^^ NEEDS_EDIT_IDLE) }
      with ⟨g2, this1⟩
    rw [hupd] at hrun hu
    simp only [checkForwarding] at hrun
    split at hrun
    · exact absurd hrun (by simp)
    · rename_i r2 this2 hdisp
      have hs2 := callDispatcher_same _ _ _ _ _ _ _ _ hdisp
      split at hrun
      · exact absurd hrun (by simp)
      · rename_i r3 g3 hun
        simp only [RETURN_SUCCESS, Option.some.injEq, Prod.mk.injEq] at hrun
        rw [← hrun.2, SET_ERROR_handles] at hq
        have hs3 := unrefHandle_put_same g2 h _ r3 g3 hun q hq
        refine Or.inr ⟨?_, ?_, ?_⟩
        · simpa using hopen
        · exact hs3.1
        · rw [hs3.2]
          show this2.needsIdle = _
          rw [hs2.2, hu.2]

theorem EmbedEditor_effect (env : HostServices) (hk : KeepsEditorState env) (g : Global)
    (h w : Nat) (r : Bool) (g1 : Global)
    (hrun : BASS_VST_EmbedEditor env g h w = some (r, g1)) : HandleStep EmbedEffect h g g1 := by
  intro q hq
  unfold BASS_VST_EmbedEditor at hrun
  cases hres : g.handles h with
  | none =>
    rw [refHandle_none g h hres] at hrun
    simp only [RETURN_ERROR, Option.some.injEq, Prod.mk.injEq] at hrun
    rw [← hrun.2, SET_ERROR_handles, hres] at hq
    exact absurd hq (by simp)
  | some p =>
    rw [refHandle_some g h p hres] at hrun
    simp only at hrun
    have hput : (g.put h { p with handleUsage := p.handleUsage + 1 }).handles h
        = some { p with handleUsage := p.handleUsage + 1 } := by
      simp only [Global.put, Function.update_same]
    refine ⟨p, rfl, ?_⟩
    split at hrun
    · rcases embedEditorOpen_effect env hk _ _ h w r g1 hput hrun q hq with hs | ho
      · exact Or.inl ⟨hs.1, hs.2⟩
      · exact Or.inr (Or.inl ⟨ho.1, ho.2.1, ho.2.2⟩)
    · rcases embedEditorClose_effect env hk _ _ h r g1 hput hrun q hq with hs | hc
      · exact Or.inl ⟨hs.1, hs.2⟩
      · exact Or.inr (Or.inr ⟨hc.1, hc.2.1, hc.2.2⟩)

theorem needIdle_release (env : HostServices) (hk : KeepsEditorState env) (g : Global)
    (this_ : BASS_VST_PLUGIN) (h : Nat) (index value : Int) (ptr : Option (List Nat))
    (r : MasterReturn) (g1 : Global)
    (hrun : masterSwitchRelease env g this_ h MasterOpcode.audioMasterNeedIdleDeprecated
      index value ptr = some (r, g1)) (q : BASS_VST_PLUGIN) (hq : g1.handles h = some q) :
    IdleRequested this_ q := by
  unfold masterSwitchRelease masterSwitch at hrun
  simp only at hrun
  have hu := hk.updateIdleTimers g
    { this_ with needsIdle := this_.needsIdle ||| NEEDS_IDLE_OUTSIDE_EDIT }
  split at hrun
  · exact absurd hrun (by simp)
  · rename_i r1 g2 hun
    simp only [Option.some.injEq, Prod.mk.injEq] at hrun
    rw [← hrun.2] at hq
    have hs := unrefHandle_put_same _ h _ r1 g2 hun q hq
    exact ⟨hs.1.trans hu.1, hs.2.trans hu.2⟩

theorem needIdle_effect (env : HostServices) (hk : KeepsEditorState env) (g : Global)
    (h : Nat) (hh : h ≠ 0) (index value : Int) (ptr : Option (List Nat)) (opt : Rat)
    (r : MasterReturn) (g1 : Global)
    (hrun : audioMasterCallbackImpl env g (some h) MasterOpcode.audioMasterNeedIdleDeprecated
      index value ptr opt = some (r, g1)) : HandleStep NeedIdleEffect h g g1 := by
  intro q hq
  unfold audioMasterCallbackImpl at hrun
  have hmh : masterHandle g (some h) = h := by
    simp only [masterHandle, ne_eq, hh, not_false_eq_true, if_true]
  simp only [hmh] at hrun
  cases hres : g.handles h with
  | none =>
    rw [refHandle_none g h hres] at hrun
    simp only [Option.some.injEq, Prod.mk.injEq] at hrun
    rw [← hrun.2, hres] at hq
    exact absurd hq (by simp)
  | some p =>
    rw [refHandle_some g h p hres] at hrun
    simp only at hrun
    have hput : (g.put h { p with handleUsage := p.handleUsage + 1 }).handles h
        = some { p with handleUsage := p.handleUsage + 1 } := by
      simp only [Global.put, Function.update_same]
    refine ⟨p, rfl, ?_⟩
    split at hrun
    · split at hrun
      · exact absurd hrun (by simp)
      · rename_i r1 g2 hun
        have hs2 := unrefHandle_same _ h r1 g2 hun
        split at hrun
        · simp only [Option.some.injEq, Prod.mk.injEq] at hrun
          rw [← hrun.2] at hq
          obtain ⟨p3, hp3, hs3⟩ := hk.userProc _ _ _ _ _ h q hq
          have h23 := handleStep_same_at _ g2 h _ p3 hs2 hput hp3
          have := sameEditorState_trans h23 hs3
          exact Or.inl ⟨this.1, this.2⟩
        · split at hrun
          · rename_i g3 href
            simp only [Option.some.injEq, Prod.mk.injEq] at hrun
            rw [← hrun.2] at hq
            unfold refHandle at href
            split at href
            · simp only [Prod.mk.injEq, true_and] at href
              rw [← href] at hq
              obtain ⟨p3, hp3, hs3⟩ := hk.userProc _ _ _ _ _ h q hq
              have h23 := handleStep_same_at _ g2 h _ p3 hs2 hput hp3
              have := sameEditorState_trans h23 hs3
              exact Or.inl ⟨this.1, this.2⟩
            · simp at href
          · rename_i this2 g3 href
            unfold refHandle at href
            split at href
            · simp at href
            · rename_i p4 hp4
              simp only [Prod.mk.injEq, Option.some.injEq] at href
              obtain ⟨p3, hp3, hs3⟩ := hk.userProc _ _ _ _ _ h p4 hp4
              have h23 := handleStep_same_at _ g2 h _ p3 hs2 hput hp3
              have h4 := sameEditorState_trans h23 hs3
              have hreq := needIdle_release env hk g3 this2 h index value ptr r g1 hrun q hq
              rw [← href.1] at hreq
              exact Or.inr ⟨hreq.1.trans h4.1, by rw [hreq.2]; show p4.needsIdle ||| _ = _; rw [h4.2]⟩
    · have hreq := needIdle_release env hk _ _ h index value ptr r g1 hrun q hq
      exact Or.inr ⟨hreq.1, hreq.2⟩

theorem edit_bit_or_outside (n : Nat) :
    (n ||| NEEDS_IDLE_OUTSIDE_EDIT) &&& NEEDS_EDIT_IDLE = n &&& NEEDS_EDIT_IDLE := by
  unfold NEEDS_IDLE_OUTSIDE_EDIT NEEDS_EDIT_IDLE
  rw [Nat.and_comm, Nat.and_or_distrib_left, Nat.and_comm]
  simp

theorem edit_bit_or_edit (n : Nat) : (n ||| NEEDS_EDIT_IDLE) &&& NEEDS_EDIT_IDLE ≠ 0 := by
  unfold NEEDS_EDIT_IDLE
  rw [Nat.and_comm, Nat.and_or_distrib_left]
  intro h0
  have := (or_eq_zero_iff_nat _ _).mp h0
  exact absurd this.2 (by decide)

theorem edit_bit_cleared (n : Nat) :
    (n &&& (0xFFFFFFFF ^^^ NEEDS_EDIT_IDLE)) &&& NEEDS_EDIT_IDLE = 0 := by
  unfold NEEDS_EDIT_IDLE
  rw [Nat.and_assoc]
  have : (0xFFFFFFFF ^^^ 1) &&& 1 = 0 := by decide
  rw [this]
  simp

theorem outside_bit_or_edit (n : Nat) :
    (n ||| NEEDS_EDIT_IDLE) &&& NEEDS_IDLE_OUTSIDE_EDIT = n &&& NEEDS_IDLE_OUTSIDE_EDIT := by
  unfold NEEDS_IDLE_OUTSIDE_EDIT NEEDS_EDIT_IDLE
  rw [Nat.and_comm, Nat.and_or_distrib_left, Nat.and_comm]
  simp

theorem outside_bit_cleared (n : Nat) :
    (n &&& (0xFFFFFFFF ^^^ NEEDS_EDIT_IDLE)) &&& NEEDS_IDLE_OUTSIDE_EDIT
      = n &&& NEEDS_IDLE_OUTSIDE_EDIT := by
  unfold NEEDS_IDLE_OUTSIDE_EDIT NEEDS_EDIT_IDLE
  rw [Nat.and_assoc]
  have : (0xFFFFFFFF ^^^ 1) &&& 2 = 2 := by decide
  rw [this]

theorem embedEffect_inv (p q : BASS_VST_PLUGIN) (he : EmbedEffect p q)
    (hp : p.needsIdle &&& NEEDS_EDIT_IDLE ≠ 0 ↔ p.editorIsOpen = true) :
    (q.needsIdle &&& NEEDS_EDIT_IDLE ≠ 0 ↔ q.editorIsOpen = true) := by
  rcases he with hs | ho | hc
  · rw [hs.1, hs.2]; exact hp
  · rw [ho.2.1, ho.2.2]
    exact ⟨fun _ => rfl, fun _ => edit_bit_or_edit _⟩
  · rw [hc.2.1, hc.2.2, edit_bit_cleared]
    simp

theorem needIdleEffect_inv (p q : BASS_VST_PLUGIN) (he : NeedIdleEffect p q)
    (hp : p.needsIdle &&& NEEDS_EDIT_IDLE ≠ 0 ↔ p.editorIsOpen = true) :
    (q.needsIdle &&& NEEDS_EDIT_IDLE ≠ 0 ↔ q.editorIsOpen = true) := by
  rcases he with hs | hr
  · rw [hs.1, hs.2]; exact hp
  · rw [hr.1, hr.2, edit_bit_or_outside]; exact hp

theorem embedEffect_outside (p q : BASS_VST_PLUGIN) (he : EmbedEffect p q) :
    q.needsIdle &&& NEEDS_IDLE_OUTSIDE_EDIT = p.needsIdle &&& NEEDS_IDLE_OUTSIDE_EDIT := by
  rcases he with hs | ho | hc
  · rw [hs.2]
  · rw [ho.2.2, outside_bit_or_edit]
  · rw [hc.2.2, outside_bit_cleared]

theorem editorCall_inv (env : HostServices) (hk : KeepsEditorState env) (h : Nat) (hh : h ≠ 0)
    (c : EditorCall) (g g1 : Global) (hrun : c.run env g h = some g1)
    (hinv : EditorIdleInv g h) : EditorIdleInv g1 h := by
  intro q hq
  cases c with
  | embedEditor w =>
    simp only [EditorCall.run] at hrun
    split at hrun
    · exact absurd hrun (by simp)
    · rename_i r g2 hcall
      simp only [Option.some.injEq] at hrun
      rw [← hrun] at hq
      obtain ⟨p, hp, he⟩ := EmbedEditor_effect env hk g h w r g2 hcall q hq
      exact embedEffect_inv p q he (hinv p hp)
  | needIdle index value ptr opt =>
    simp only [EditorCall.run] at hrun
    split at hrun
    · exact absurd hrun (by simp)
    · rename_i r g2 hcall
      simp only [Option.some.injEq] at hrun
      rw [← hrun] at hq
      obtain ⟨p, hp, he⟩ := needIdle_effect env hk g h hh index value ptr opt r g2 hcall q hq
      exact needIdleEffect_inv p q he (hinv p hp)

theorem runEditorCalls_inv (env : HostServices) (hk : KeepsEditorState env) (h : Nat)
    (hh : h ≠ 0) (calls : List EditorCall) :
    ∀ g g1, runEditorCalls env h g calls = some g1 → EditorIdleInv g h → EditorIdleInv g1 h := by
  induction calls with
  | nil =>
    intro g g1 hrun hinv
    simp only [runEditorCalls, Option.some.injEq] at hrun
    rw [← hrun]; exact hinv
  | cons c rest ih =>
    intro g g1 hrun hinv
    simp only [runEditorCalls] at hrun
    split at hrun
    · exact absurd hrun (by simp)
    · rename_i g2 hc
      exact ih g2 g1 hrun (editorCall_inv env hk h hh c g g2 hc hinv)

theorem keepsEditorState_quietHost : KeepsEditorState quietHost where
  validateLastValues := fun _ p => sameEditorState_refl p
  updateIdleTimers := fun _ p => sameEditorState_refl p
  userProc := by
    intro a g h action u v q hq
    cases action <;> exact ⟨q, hq, sameEditorState_refl q⟩

/-- C29: let the helpers of the idle scheduler and the user callbacks leave the
editor-open flag and the idle needs as they are (`KeepsEditorState`), and let the
instance of the non-zero handle `h` start with its editor closed and the
editor-idle bit clear.  Then after every sequence of `BASS_VST_EmbedEditor` calls
(open or close, whatever they return) and `__audioMasterNeedIdleDeprecated`
requests that returns, the bit `NEEDS_EDIT_IDLE` of `needsIdle` is set if and only
if the editor is open; and a `BASS_VST_EmbedEditor` call that returns, from any
state, leaves the bit `NEEDS_IDLE_OUTSIDE_EDIT` of the instance as it was.  Every
prefix of a sequence is a sequence, so this holds after each call. -/
theorem editor_idle_bit_invariant (env : HostServices) (hk : KeepsEditorState env) (h : Nat)
    (hh : h ≠ 0) (g : Global) (p : BASS_VST_PLUGIN) (hres : g.handles h = some p)
    (hclosed : p.editorIsOpen = false) (hbit : p.needsIdle &&& NEEDS_EDIT_IDLE = 0)
    (calls : List EditorCall) :
    (∀ g1, runEditorCalls env h g calls = some g1 → EditorIdleInv g1 h)
      ∧ (∀ g0 w r g1, BASS_VST_EmbedEditor env g0 h w = some (r, g1) →
          OutsideBitKept g0 g1 h) := by
  constructor
  · intro g1 hrun
    refine runEditorCalls_inv env hk h hh calls g g1 hrun ?_
    intro q hq
    rw [hres] at hq
    simp only [Option.some.injEq] at hq
    rw [← hq, hclosed, hbit]
    simp
  · intro g0 w r g1 hrun q hq
    obtain ⟨p0, hp0, he⟩ := EmbedEditor_effect env hk g0 h w r g1 hrun q hq
    exact ⟨p0, hp0, embedEffect_outside p0 q he⟩

/-- C29 on the started instance of `editorModule` with the quiet host: the sequence
open, need-idle, open again (refused), close, close again (refused) returns and
leaves the editor closed with only the idle-outside-editor bit set. -/
theorem editor_idle_bit_invariant_witness :
    ((runEditorCalls quietHost 1 (processWith closedEditorInstance)
        [EditorCall.embedEditor 5, EditorCall.needIdle 0 0 none 0, EditorCall.embedEditor 6,
          EditorCall.embedEditor 0, EditorCall.embedEditor 0]).bind
        (fun g => g.handles 1)).map (fun q => (q.editorIsOpen, q.needsIdle))
      = some (false, 2)
    ∧ ((runEditorCalls quietHost 1 (processWith closedEditorInstance)
        [EditorCall.embedEditor 5, EditorCall.needIdle 0 0 none 0]).bind
        (fun g => g.handles 1)).map (fun q => (q.editorIsOpen, q.needsIdle))
      = some (true, 3)
    ∧ (∀ g1, runEditorCalls quietHost 1 (processWith closedEditorInstance)
          [EditorCall.embedEditor 5, EditorCall.needIdle 0 0 none 0, EditorCall.embedEditor 6,
            EditorCall.embedEditor 0, EditorCall.embedEditor 0] = some g1 →
        EditorIdleInv g1 1)
    ∧ (∀ g0 w r g1, BASS_VST_EmbedEditor quietHost g0 1 w = some (r, g1) →
        OutsideBitKept g0 g1 1) :=
  ⟨by decide, by decide,
    editor_idle_bit_invariant quietHost keepsEditorState_quietHost 1 (by decide)
      (processWith closedEditorInstance) closedEditorInstance (by rfl) (by rfl) (by decide) _⟩

end BassVst
